import Mathlib

/-! IPP print client: document format, ticket validation, readiness, finishings,
retrying IPP operations, job monitor and printer attribute cache.

A shallow embedding of the decision functions of `ippprintclient`
(`operations.go`, `jobticket/jobticket.go`, `printer.go`, `monitor.go`,
`errors.go`, `printerattributecache/printerattributecache.go`) together with
theorems about them.

Go strings are modelled as Lean `String`s (sequences of Unicode scalar values),
Go `int` as `Int`, slices as `List`s (a nil slice is the empty list wherever the
source only ranges over it or takes its length). Go `error` values are records of
what the client observes of them. The retry loops of `printer.go` are step
functions run over a script of events supplied by the environment (context
state, random jitter, outcome of the IPP call); the effects on the printer are
recorded in a trace. Times and durations are integers of nanoseconds. Constants
and tables of packages outside the repository are parameters.
-/

namespace IppPrintClient

/-! ## Strings -/

/-- Go `unicode.IsSpace`: the Latin-1 space characters and the Unicode
`White_Space` code points above Latin-1. -/
def isSpace (c : Char) : Bool :=
  let n := c.toNat
  n == 0x09 || n == 0x0A || n == 0x0B || n == 0x0C || n == 0x0D || n == 0x20 ||
  n == 0x85 || n == 0xA0 || n == 0x1680 || (0x2000 ≤ n && n ≤ 0x200A) ||
  n == 0x2028 || n == 0x2029 || n == 0x202F || n == 0x205F || n == 0x3000

/-- Go `strings.TrimSpace`: all leading and trailing white space removed. -/
def trimSpace (s : String) : String :=
  String.mk ((s.data.dropWhile isSpace).reverse.dropWhile isSpace).reverse

/-- Whether `sub` starts the character list `s`. -/
def startsWith : List Char → List Char → Bool
  | _, [] => true
  | [], _ :: _ => false
  | c :: s, d :: sub => c == d && startsWith s sub

/-- Whether `sub` occurs in the character list `s` at some offset. -/
def containsChars : List Char → List Char → Bool
  | [], sub => startsWith [] sub
  | c :: s, sub => startsWith (c :: s) sub || containsChars s sub

/-- Go `strings.Contains`: reports whether `substr` is within `s`. -/
def stringsContains (s substr : String) : Bool :=
  containsChars s.data substr.data

/-! ## Data model -/

/-- The `jobticket.PDLOverrides` struct (`OrientationType` is a string type). -/
structure PDLOverrides where
  Orientation : String := ""
  deriving DecidableEq, Repr

/-- The `jobticket.Credentials` struct. -/
structure Credentials where
  Username : String := ""
  Password : String := ""
  deriving DecidableEq, Repr

/-- The `jobticket.JobTicket` struct. -/
structure JobTicket where
  Copies : Int := 0
  PrintColorMode : String := ""
  Sides : String := ""
  DocumentFormat : String := ""
  PaperName : String := ""
  PaperWidthMM : Int := 0
  PaperHeightMM : Int := 0
  OptionalPDLOverrides : PDLOverrides := {}
  Credentials : Credentials := {}
  Finishings : List String := []
  AltDocumentFormat : List String := []
  deriving DecidableEq, Repr

/-- The fields of `ippclient.PrinterAttributes` that the client reads.
`MediaColSupported` keeps the nil / non-nil distinction of the Go slice. -/
structure PrinterAttributes where
  OperationsSupported : List Int := []
  DocumentFormatSupported : List String := []
  FinishingsSupported : List Int := []
  MediaColSupported : Option (List String) := none
  PrinterIsAcceptingJobs : Bool := false
  PrinterStateReasons : List String := []
  PrinterDeviceID : String := ""
  deriving DecidableEq, Repr

def OrientationPortrait : String := "portrait"
def OrientationLandscape : String := "landscape"

def ErrPrintDefaultError : Int := 10
def ErrPrintDocFormatMismatch : Int := 11

/-! ## `mapDocumentFormat` -/

/-- First loop of `mapDocumentFormat`: the first supported format whose trimmed
form is the spooled format. -/
def spooledFormatLoop (spoolFormat : String) : List String → Option String
  | [] => none
  | supportFormat :: rest =>
    if spoolFormat = trimSpace supportFormat then some supportFormat
    else spooledFormatLoop spoolFormat rest

/-- Inner loop of the alternate search: whether some alternate format
trimmed-equals `supportFormat`. -/
def altInnerLoop (supportFormat : String) : List String → Bool
  | [] => false
  | n :: rest =>
    if trimSpace n = trimSpace supportFormat then true
    else altInnerLoop supportFormat rest

/-- Outer loop of the alternate search, over the printer's supported formats. -/
def altFormatLoop (alts : List String) : List String → Option String
  | [] => none
  | supportFormat :: rest =>
    if altInnerLoop supportFormat alts then some supportFormat
    else altFormatLoop alts rest

/-- The function `mapDocumentFormat` of `operations.go`. -/
def mapDocumentFormat (ticketAttrs : JobTicket) (printerAttrs : PrinterAttributes) : String :=
  let spoolFormat := trimSpace ticketAttrs.DocumentFormat
  match spooledFormatLoop spoolFormat printerAttrs.DocumentFormatSupported with
  | some supportFormat => supportFormat
  | none =>
    match (if ticketAttrs.AltDocumentFormat.length > 0 then
            altFormatLoop ticketAttrs.AltDocumentFormat printerAttrs.DocumentFormatSupported
          else none) with
    | some supportFormat => supportFormat
    | none => if spoolFormat = "application/pdf" then spoolFormat else ""

/-- The document-format step of `printJob`: an empty selected format is turned
into an operation error of type `ErrPrintDocFormatMismatch`, before the monitor
and the print operation are started. -/
def printJobSelectDocFormat (ticketAttrs : JobTicket) (printerAttrs : PrinterAttributes) :
    Except Int String :=
  let selectedDocFormat := mapDocumentFormat ticketAttrs printerAttrs
  if selectedDocFormat = "" then Except.error ErrPrintDocFormatMismatch
  else Except.ok selectedDocFormat

/-! ## `JobTicket.validate` -/

/-- The method `(*JobTicket).validate` of `jobticket.go`: `none` is the nil
error, `some msg` the returned error. -/
def validate (t : JobTicket) : Option String :=
  if t.PrintColorMode = "" then some "invalid color mode"
  else if t.Sides = "" then some "invalid value for sides"
  else if t.Copies < 1 then some "invalid number of copies"
  else if t.PaperName = "" ∨ t.PaperHeightMM = 0 ∨ t.PaperWidthMM = 0 then
    some "invalid paper name, height or width values"
  else if t.DocumentFormat = "" then some "invalid document format"
  else none

/-- The function `GetPrintJobAttributes` of `jobticket.go`, over the outcome of
reading and decoding the ticket file. -/
def GetPrintJobAttributes (ticketPath : String) (read : Except String JobTicket) :
    Except String JobTicket :=
  match read with
  | Except.error err =>
    Except.error ("failed to read job ticket file: " ++ ticketPath ++ ". error: " ++ err)
  | Except.ok jobTicket =>
    match validate jobTicket with
    | some err => Except.error ("invalid job ticket: " ++ err)
    | none => Except.ok jobTicket

/-! ## Printer readiness and supported operations -/

/-- The function `isSpoolAreaFull` of `operations.go`. -/
def isSpoolAreaFull : List String → Bool
  | [] => false
  | printerStateReason :: rest =>
    if stringsContains printerStateReason "spool-area-full" then true
    else isSpoolAreaFull rest

/-- The function `isPrinterReady` of `operations.go`. -/
def isPrinterReady (response : PrinterAttributes) : Bool × String :=
  if !response.PrinterIsAcceptingJobs then (false, "printer-not-accepting-jobs")
  else if isSpoolAreaFull response.PrinterStateReasons then (false, "spool-area-full")
  else (true, "")

def OperationCreateJob : Int := 0x0005
def OperationSendDocument : Int := 0x0006

/-- The value `preferredJobOperations` of `operations.go`. -/
def preferredJobOperations : List Int := [OperationCreateJob, OperationSendDocument]

/-- Inner loop of `operationsSupported`: whether `op` is listed. -/
def operationFound (op : Int) : List Int → Bool
  | [] => false
  | k :: rest => if k = op then true else operationFound op rest

/-- Outer loop of `operationsSupported`, over the required operations. -/
def requiredOpsLoop (supported : List Int) : List Int → Bool
  | [] => true
  | op :: rest =>
    if !operationFound op supported then false else requiredOpsLoop supported rest

/-- The function `operationsSupported` of `operations.go`. -/
def operationsSupported (printerAttrs : PrinterAttributes) (requiredOps : List Int) : Bool :=
  if requiredOps.length = 0 then false
  else requiredOpsLoop printerAttrs.OperationsSupported requiredOps

/-! ## Finishings -/

/-- The stapling constants of the `finishings` package that
`evaluateFinishingsForLandscape` switches on. -/
structure StapleEnums where
  FinishingsStapleTopLeft : Int
  FinishingsStapleBottomLeft : Int
  FinishingsStapleTopRight : Int
  FinishingsStapleBottomRight : Int
  deriving DecidableEq, Repr

/-- The four constants are pairwise different, as the case constants of a Go
switch are. -/
def StapleEnums.Distinct (c : StapleEnums) : Prop :=
  c.FinishingsStapleTopLeft ≠ c.FinishingsStapleBottomLeft ∧
  c.FinishingsStapleTopLeft ≠ c.FinishingsStapleTopRight ∧
  c.FinishingsStapleTopLeft ≠ c.FinishingsStapleBottomRight ∧
  c.FinishingsStapleBottomLeft ≠ c.FinishingsStapleTopRight ∧
  c.FinishingsStapleBottomLeft ≠ c.FinishingsStapleBottomRight ∧
  c.FinishingsStapleTopRight ≠ c.FinishingsStapleBottomRight

instance (c : StapleEnums) : Decidable c.Distinct := by
  unfold StapleEnums.Distinct; infer_instance

/-- The IPP registry values of the four stapling positions. -/
def ippStapleEnums : StapleEnums :=
  { FinishingsStapleTopLeft := 20, FinishingsStapleBottomLeft := 21,
    FinishingsStapleTopRight := 22, FinishingsStapleBottomRight := 23 }

/-- The function `evaluateFinishingsForLandscape` of `operations.go`. -/
def evaluateFinishingsForLandscape (c : StapleEnums) (enum : Int) : Int :=
  if enum = c.FinishingsStapleTopLeft then c.FinishingsStapleBottomLeft
  else if enum = c.FinishingsStapleBottomLeft then c.FinishingsStapleBottomRight
  else if enum = c.FinishingsStapleTopRight then c.FinishingsStapleTopLeft
  else if enum = c.FinishingsStapleBottomRight then c.FinishingsStapleTopRight
  else enum

/-- The map `supportedFinishingMap` built by `getSupportedFinishingsEnum`: the
key set of a Go map, filled by one pass over the supported list. -/
def supportedFinishingMap (finishingsSupported : List Int) : Int → Bool :=
  finishingsSupported.foldl
    (fun m supportedFinishing => fun k => if k = supportedFinishing then true else m k)
    (fun _ => false)

/-- The function `getSupportedFinishingsEnum` of `operations.go`; the table
`genericFinishings` is a parameter (`none` when the key is absent). -/
def getSupportedFinishingsEnum (genericFinishings : Int → Option Int)
    (reqFinishingsEnum : Int) (finishingsSupported : List Int) : Int × Bool :=
  let m := supportedFinishingMap finishingsSupported
  if m reqFinishingsEnum then (reqFinishingsEnum, true)
  else
    match genericFinishings reqFinishingsEnum with
    | some genericFinishingOption =>
      if m genericFinishingOption then (genericFinishingOption, true) else (0, false)
    | none => (0, false)

/-- The ticket-order reading of the alternate search: the earliest entry of the
ticket's `AltDocumentFormat` that some supported format trimmed-equals. -/
def earliestSupportedAlt (t : JobTicket) (p : PrinterAttributes) : Option String :=
  t.AltDocumentFormat.find? fun n =>
    p.DocumentFormatSupported.any fun s => decide (trimSpace n = trimSpace s)

/-- The printer-order reading of the alternate search: the earliest entry of the
printer's `DocumentFormatSupported` that trimmed-equals some alternate format. -/
def earliestAltSupported (t : JobTicket) (p : PrinterAttributes) : Option String :=
  p.DocumentFormatSupported.find? fun s =>
    t.AltDocumentFormat.any fun n => decide (trimSpace n = trimSpace s)

/-! ## Sample tickets and printers -/

/-- A PCL XL ticket with PCL alternates, as in `TestMapDocumentFormats_Sanity`. -/
def pclxlTicket : JobTicket :=
  { Copies := 1, DocumentFormat := "application/vnd.hp-PCLXL",
    AltDocumentFormat := ["application/pcl6", "application/pcl", "application/vnd.hp-PCL",
      "application/octet-stream"] }

def pclPrinter : PrinterAttributes :=
  { DocumentFormatSupported :=
      ["application/pcl6", "application/octet-stream", "application/postscript"] }

/-- A ticket preferring PCL 6 over a raw octet stream. -/
def preferPcl6Ticket : JobTicket :=
  { Copies := 1, DocumentFormat := "application/vnd.hp-PCLXL",
    AltDocumentFormat := ["application/pcl6", "application/octet-stream"] }

/-- A printer that lists the same two formats in the opposite order. -/
def octetFirstPrinter : PrinterAttributes :=
  { DocumentFormatSupported := ["application/octet-stream", "application/pcl6"] }

/-- A PDF ticket whose format carries a trailing blank. -/
def paddedPdfTicket : JobTicket :=
  { Copies := 1, DocumentFormat := "application/pdf " }

/-- A ticket whose format is a single blank. -/
def blankFormatTicket : JobTicket :=
  { Copies := 1, DocumentFormat := " " }

def postscriptPrinter : PrinterAttributes :=
  { DocumentFormatSupported := ["application/postscript"] }

/-- A printer that lists an empty document format. -/
def emptyFormatPrinter : PrinterAttributes :=
  { DocumentFormatSupported := [""] }

/-- The mismatch scenario: PCL XL with a PCL 6 alternate. -/
def mismatchTicket : JobTicket :=
  { Copies := 1, DocumentFormat := "application/vnd.hp-PCLXL",
    AltDocumentFormat := ["application/pcl6"] }

/-- A ticket with every validated field filled in. -/
def a4Ticket : JobTicket :=
  { Copies := 1, PrintColorMode := "color", Sides := "one-sided",
    DocumentFormat := "application/pdf", PaperName := "A4",
    PaperWidthMM := 210, PaperHeightMM := 297 }

/-- The same ticket with an orientation that is neither portrait nor landscape. -/
def upsideDownTicket : JobTicket :=
  { a4Ticket with OptionalPDLOverrides := { Orientation := "upside-down" } }

/-- The same ticket asking for zero copies. -/
def zeroCopiesTicket : JobTicket :=
  { a4Ticket with Copies := 0 }

/-- Whether the character list `sub` occurs in `s` as a contiguous block. -/
def IsSubstring (sub s : String) : Prop :=
  ∃ before after : List Char, s.data = before ++ sub.data ++ after

/-! ## `mapFinishings` -/

/-- The loop of `mapFinishings` over the ticket's finishing names, with the
result slice `allFinishings` as accumulator. The tables
`finishingsStringToEnumMap` and `genericFinishings` and the stapling constants
are parameters. -/
def mapFinishingsLoop (finishingsStringToEnumMap : String → Option Int) (c : StapleEnums)
    (genericFinishings : Int → Option Int) (orientation : String)
    (finishingsSupported : List Int) : List String → List Int → List Int
  | [], allFinishings => allFinishings
  | finishing :: rest, allFinishings =>
    match finishingsStringToEnumMap finishing with
    | none =>
      mapFinishingsLoop finishingsStringToEnumMap c genericFinishings orientation
        finishingsSupported rest allFinishings
    | some reqFinishingsEnum =>
      let reqFinishingsEnum :=
        if orientation = OrientationLandscape then
          evaluateFinishingsForLandscape c reqFinishingsEnum
        else reqFinishingsEnum
      match getSupportedFinishingsEnum genericFinishings reqFinishingsEnum
          finishingsSupported with
      | (finishingsEnum, true) =>
        mapFinishingsLoop finishingsStringToEnumMap c genericFinishings orientation
          finishingsSupported rest (allFinishings ++ [finishingsEnum])
      | (_, false) =>
        mapFinishingsLoop finishingsStringToEnumMap c genericFinishings orientation
          finishingsSupported rest allFinishings

/-- The function `mapFinishings` of `operations.go`. -/
def mapFinishings (finishingsStringToEnumMap : String → Option Int) (c : StapleEnums)
    (genericFinishings : Int → Option Int) (ticketAttrs : JobTicket)
    (printerAttrs : PrinterAttributes) : List Int :=
  mapFinishingsLoop finishingsStringToEnumMap c genericFinishings
    ticketAttrs.OptionalPDLOverrides.Orientation printerAttrs.FinishingsSupported
    ticketAttrs.Finishings []

/-- What one finishing name contributes, in the words of the specification: the
value that `getSupportedFinishingsEnum` accepts for the enum of the name, rotated
for a landscape ticket only; nothing for an unknown name or an unsupported
finishing. -/
def finishingContribution (finishingsStringToEnumMap : String → Option Int) (c : StapleEnums)
    (genericFinishings : Int → Option Int) (ticketAttrs : JobTicket)
    (printerAttrs : PrinterAttributes) (finishing : String) : Option Int :=
  match finishingsStringToEnumMap finishing with
  | none => none
  | some enum =>
    let requested :=
      if ticketAttrs.OptionalPDLOverrides.Orientation = "landscape" then
        evaluateFinishingsForLandscape c enum
      else enum
    let r := getSupportedFinishingsEnum genericFinishings requested
      printerAttrs.FinishingsSupported
    if r.2 = true then some r.1 else none

/-- A sample name-to-enum table with the IPP registry values of two names. -/
def sampleFinishingsStringToEnumMap (name : String) : Option Int :=
  if name = "staple-top-left" then some 20
  else if name = "fold-half" then some 93
  else none

/-- A sample generic table: every stapling position falls back to `staple` (4). -/
def sampleGenericFinishings (enum : Int) : Option Int :=
  if 20 ≤ enum ∧ enum ≤ 23 then some 4 else none

/-- A landscape ticket asking for a top-left staple and an unknown finishing. -/
def landscapeStapleTicket : JobTicket :=
  { Finishings := ["staple-top-left", "glitter"],
    OptionalPDLOverrides := { Orientation := "landscape" } }

/-- A printer supporting the bottom-left staple and the generic staple. -/
def bottomLeftStaplePrinter : PrinterAttributes :=
  { FinishingsSupported := [21, 4] }

/-! ## Monitor delay -/

/-- One second as a `time.Duration` (nanoseconds). -/
def Second : Int := 1000000000

/-- Two's-complement wrap of `int64` arithmetic, as for `time.Duration` sums. -/
def wrapInt64 (x : Int) : Int := (x + 2 ^ 63) % 2 ^ 64 - 2 ^ 63

/-- The struct `fibonnacciDelay` of `monitor.go`; durations are in nanoseconds. -/
structure fibonnacciDelay where
  lastValues : List Int := []
  maxDelay : Int := 0
  deriving DecidableEq, Repr

/-- The method `(*fibonnacciDelay).nextDelay`: the updated receiver and the
returned delay. A slice shorter than two gets one second appended. -/
def fibonnacciDelay.nextDelay (fd : fibonnacciDelay) : fibonnacciDelay × Int :=
  match fd.lastValues with
  | v0 :: v1 :: rest =>
    let d := wrapInt64 (v0 + v1)
    if d > fd.maxDelay then (fd, fd.maxDelay)
    else ({ fd with lastValues := v1 :: d :: rest }, d)
  | short => ({ fd with lastValues := short ++ [1 * Second] }, 1 * Second)

/-- The delay state that `monitor.start` constructs. -/
def monitorDelay : fibonnacciDelay := { maxDelay := 5 * Second }

/-- The receiver after `n` calls of `nextDelay`. -/
def fibonnacciDelay.afterCalls : Nat → fibonnacciDelay → fibonnacciDelay
  | 0, fd => fd
  | n + 1, fd => (fibonnacciDelay.afterCalls n fd).nextDelay.1

/-- The value returned by the `n`-th call of `nextDelay` (`n` counted from 1). -/
def fibonnacciDelay.nthDelay (n : Nat) (fd : fibonnacciDelay) : Int :=
  (fibonnacciDelay.afterCalls (n - 1) fd).nextDelay.2

/-! ## Errors -/

/-- What the client observes of a Go `error` value: its message, the results of
`errors.Is` against the connection errnos, the result of its `Temporary()`
method when it has one, the two results of `ippclient.IsHTTPStatusError`, and
equality with the sentinel errors of `ippclient`. A nil wrapped error behaves as
the default value. -/
structure GoError where
  message : String := ""
  isECONNRESET : Bool := false
  isECONNABORTED : Bool := false
  isWSAECONNRESET : Bool := false
  isWSAECONNABORTED : Bool := false
  temporaryMethod : Option Bool := none
  httpStatusError : Bool := false
  httpStatusCode : Option Int := none
  isJobAttributesTagNotFound : Bool := false
  isMalformedAttributes : Bool := false
  deriving DecidableEq, Repr

/-- The build targets of `errors_unix.go` and `errors_windows.go`. -/
inductive Platform where
  | unix
  | windows
  deriving DecidableEq, Repr

/-- The function `isTemporarySyscallErr`, per build target. -/
def isTemporarySyscallErr (os : Platform) (err : GoError) : Bool :=
  match os with
  | Platform.unix => err.isECONNRESET || err.isECONNABORTED
  | Platform.windows =>
    err.isECONNRESET || err.isECONNABORTED || err.isWSAECONNRESET || err.isWSAECONNABORTED

/-- The struct `ippJobOpError` of `errors.go`. -/
structure ippJobOpError where
  error : GoError := {}
  retry : Bool := false
  deriving DecidableEq, Repr

/-- The method `(*ippJobOpError).Temporary` of `errors.go`. -/
def ippJobOpError.Temporary (os : Platform) (e : ippJobOpError) : Bool :=
  if isTemporarySyscallErr os e.error then true
  else
    match e.error.temporaryMethod with
    | some temporary => temporary
    | none => if e.retry then true else false

/-- The constants `ippclient.StatusErrorBadRequest` and
`ippclient.StatusErrorInternal`, with the values the specification gives. -/
def StatusErrorBadRequest : Int := 0x0400
def StatusErrorInternal : Int := 0x0500

/-- The method `ippStatus.Recoverable` of `errors.go`. -/
def ippStatusRecoverable (s : Int) : Bool :=
  decide (s < StatusErrorBadRequest) || decide (s ≥ StatusErrorInternal)

def ErrPrintPrinterReadyTimeout : Int := 12
def ErrPrintJobCtxTimeout : Int := 14
def ErrPrintJobCreation : Int := 15
def ErrPrintJobSendDocument : Int := 16
def ErrPrintIPPPrintJob : Int := 17
def ErrPrintJobCancelled : Int := 18
def ErrPrintJobAborted : Int := 19
def ErrPrintMonitorFailedToMonitor : Int := 20
def ErrPrintMonitorTerminatedBeforeJobFinalised : Int := 21

/-- The struct `OperationError` of `errors.go`; `ErrType` is its field `Type` and
`Err` holds the message of the wrapped error. -/
structure OperationError where
  ErrType : Int
  Err : String
  deriving DecidableEq, Repr

/-- An error whose wrapped cause implements `Temporary()` and reports false,
carried with the retry flag set. -/
def retryFlaggedPermanentError : ippJobOpError :=
  { error := { message := "dial tcp: connection refused", temporaryMethod := some false },
    retry := true }

/-- A connection reset wrapped without the retry flag. -/
def connectionResetError : ippJobOpError :=
  { error := { message := "read: connection reset by peer", isECONNRESET := true } }

/-! ## Printer attribute cache -/

/-- Go `strings.ReplaceAll` on character lists for a non-empty `old`: `skip`
counts the characters of a match that are still to be dropped. -/
def replaceAllChars (old new : List Char) : Nat → List Char → List Char
  | _, [] => []
  | skip + 1, _ :: s => replaceAllChars old new skip s
  | 0, c :: s =>
    if startsWith (c :: s) old then new ++ replaceAllChars old new (old.length - 1) s
    else c :: replaceAllChars old new 0 s

/-- Go `strings.ReplaceAll(s, old, new)` for a non-empty `old`. -/
def stringsReplaceAll (s old new : String) : String :=
  String.mk (replaceAllChars old.data new.data 0 s.data)

/-- The function `convertURItoFileName` of `printerattributecache.go`. -/
def convertURItoFileName (uri : String) : String :=
  let uniqueName := stringsReplaceAll uri "://" "_"
  let uniqueName := stringsReplaceAll uniqueName ":" "_"
  let uniqueName := stringsReplaceAll uniqueName "." "_"
  let uniqueName := stringsReplaceAll uniqueName "/" "_"
  uniqueName

/-- The path of a cache entry,
`filepath.Join(cacheDir, fmt.Sprintf(fileTemplate, convertURItoFileName(uri)))`:
the directory is a cleaned path and the file name has no separator, so the join
is the concatenation with one separator. -/
def cacheFilePath (cacheDir uri : String) : String :=
  cacheDir ++ "/" ++ (convertURItoFileName uri ++ ".ipp.attributes")

/-- The errors of the cache: the three sentinel values and the formatted ones. -/
inductive CacheError where
  | ErrCacheExpired
  | ErrNotExist
  | ErrCacheUninitialised
  | other (msg : String)
  deriving DecidableEq, Repr

/-- The struct `PrinterAttributeCache`; `cacheExpiry` is in nanoseconds. -/
structure PrinterAttributeCache where
  cacheDir : String := ""
  cacheExpiry : Int := 0
  deriving DecidableEq, Repr

/-- The struct `cacheElement`. -/
structure cacheElement where
  PrinterUri : String
  IppAttributes : PrinterAttributes
  deriving DecidableEq, Repr

/-- The outcome of `os.Stat`: the file does not exist, another failure, or the
file information with its modification time (nanoseconds). -/
inductive StatResult where
  | notExist
  | failed (msg : String)
  | info (modTime : Int)
  deriving DecidableEq, Repr

/-- The state of the file system as the cache sees it: what `os.Stat` and
`ioutil.ReadFile` give for each path. -/
structure FileSystem (β : Type) where
  stat : String → StatResult
  readFile : String → Except String β

/-- A file system without any file. -/
def FileSystem.empty (β : Type) : FileSystem β :=
  { stat := fun _ => StatResult.notExist, readFile := fun _ => Except.error "no such file" }

/-- The effect of a successful `atomicwrite.WriteFile` at time `now`: the path
holds the whole new content and is stamped with the time of the write. -/
def FileSystem.writeFile {β : Type} (fs : FileSystem β) (path : String) (content : β)
    (now : Int) : FileSystem β :=
  { stat := fun q => if q = path then StatResult.info now else fs.stat q,
    readFile := fun q => if q = path then Except.ok content else fs.readFile q }

/-- The pair `json.Marshal` / `json.Unmarshal` on `cacheElement`, a parameter of
the model; `β` is the type of file contents. -/
structure JsonCodec (β : Type) where
  marshal : cacheElement → Except String β
  unmarshal : β → Except String cacheElement

/-- The method `isExpired`, over the outcome of `os.Stat(path)` and the value of
`time.Now()`. A nil receiver is `none`. -/
def isExpired (i : Option PrinterAttributeCache) (stat : StatResult) (now : Int) :
    Bool × Option CacheError :=
  match i with
  | none => (false, some CacheError.ErrCacheUninitialised)
  | some i =>
    match stat with
    | StatResult.notExist => (true, some CacheError.ErrNotExist)
    | StatResult.failed msg =>
      (true, some (CacheError.other
        ("ipp-printer-attribute-cache: failed to read file, " ++ msg)))
    | StatResult.info modtime =>
      let modtime := modtime + i.cacheExpiry
      if now > modtime then (true, none) else (false, none)

/-- The function `readPrinterAttributesFromFile`. -/
def readPrinterAttributesFromFile {β : Type} (codec : JsonCodec β) (fs : FileSystem β)
    (path : String) : Except String cacheElement :=
  match fs.readFile path with
  | Except.error err => Except.error err
  | Except.ok data => codec.unmarshal data

/-- The function `writePrinterAttributesToFile`; `writeErr` is the error, if any,
of the atomic write, which then leaves the file as it was. -/
def writePrinterAttributesToFile {β : Type} (codec : JsonCodec β) (fs : FileSystem β)
    (now : Int) (writeErr : Option String) (attrbs : cacheElement) (path : String) :
    Option CacheError × FileSystem β :=
  match codec.marshal attrbs with
  | Except.error err => (some (CacheError.other err), fs)
  | Except.ok b =>
    match writeErr with
    | some err => (some (CacheError.other err), fs)
    | none => (none, fs.writeFile path b now)

/-- The method `SetPrinterAttributes`: the returned error and the file system
afterwards. A nil receiver or a nil `attributes` pointer is `none`. -/
def SetPrinterAttributes {β : Type} (codec : JsonCodec β) (i : Option PrinterAttributeCache)
    (fs : FileSystem β) (now : Int) (writeErr : Option String) (uri : String)
    (attributes : Option PrinterAttributes) : Option CacheError × FileSystem β :=
  match i with
  | none => (some CacheError.ErrCacheUninitialised, fs)
  | some i =>
    if i.cacheDir = "" then
      (some (CacheError.other "ipp-printer-attribute-cache: un-initialised cache"), fs)
    else
      match attributes with
      | none => (some (CacheError.other "ipp-printer-attribute-cache: invalid parameters"), fs)
      | some attributes =>
        if uri = "" then
          (some (CacheError.other "ipp-printer-attribute-cache: invalid parameters"), fs)
        else
          let filePath := cacheFilePath i.cacheDir uri
          if filePath = "" then (some (CacheError.other "failed to create file path"), fs)
          else
            writePrinterAttributesToFile codec fs now writeErr
              { PrinterUri := uri, IppAttributes := attributes } filePath

/-- The method `GetPrinterAttributes`, at the time `now`. -/
def GetPrinterAttributes {β : Type} (codec : JsonCodec β) (i : Option PrinterAttributeCache)
    (fs : FileSystem β) (now : Int) (uri : String) :
    Option PrinterAttributes × Option CacheError :=
  match i with
  | none => (none, some CacheError.ErrCacheUninitialised)
  | some c =>
    if c.cacheDir = "" then
      (none, some (CacheError.other "ipp-printer-attribute-cache: un-initialised cache"))
    else if uri = "" then
      (none, some (CacheError.other "ipp-printer-attribute-cache: invalid uri"))
    else
      let filePath := cacheFilePath c.cacheDir uri
      if filePath = "" then (none, some (CacheError.other "failed to create file path"))
      else
        match isExpired i (fs.stat filePath) now with
        | (_, some err) =>
          (none, some (CacheError.other ("getPrinterAttributes failed " ++ filePath ++ ", " ++
            (match err with
              | CacheError.ErrCacheExpired => "cache element expired"
              | CacheError.ErrNotExist => "file doesn't exist"
              | CacheError.ErrCacheUninitialised => "uninitialised cache"
              | CacheError.other msg => msg))))
        | (true, none) => (none, some CacheError.ErrCacheExpired)
        | (false, none) =>
          match readPrinterAttributesFromFile codec fs filePath with
          | Except.error err =>
            (none, some (CacheError.other
              ("getPrinterAttributes: failed to read file " ++ filePath ++ ", " ++ err)))
          | Except.ok cacheElem =>
            if cacheElem.PrinterUri ≠ uri then
              (none, some (CacheError.other
                ("getPrinterAttributes: cache element URI mispatch in=" ++ uri ++
                  ", element uri=" ++ cacheElem.PrinterUri)))
            else (some cacheElem.IppAttributes, none)

/-- A codec that stores the element itself, for evaluating the cache. -/
def identityCodec : JsonCodec cacheElement :=
  { marshal := fun e => Except.ok e, unmarshal := fun b => Except.ok b }

/-- A cache of two seconds under `/tmp/ipp-printer-attribute-cache`. -/
def twoSecondCache : PrinterAttributeCache :=
  { cacheDir := "/tmp/ipp-printer-attribute-cache", cacheExpiry := 2 * Second }

/-- A ready printer that supports the two-phase operations. -/
def readyPrinter : PrinterAttributes :=
  { OperationsSupported := [2, 4, 5, 6], DocumentFormatSupported := ["application/pdf"],
    PrinterIsAcceptingJobs := true, PrinterStateReasons := ["none"] }

/-! ## Monitor -/

/-- The struct `ippclient.IPPCredentials`. -/
structure IPPCredentials where
  Username : String
  Password : String
  deriving DecidableEq, Repr

/-- The value `defaultIppCredentials` of `operations.go`. -/
def defaultIppCredentials : IPPCredentials :=
  { Username := "papercut-ipp-client", Password := "papercut" }

/-- The fields of `ippclient.JobAttributes` that the client reads. -/
structure JobAttributes where
  JobId : Int := 0
  JobUri : String := ""
  JobState : Int := 0
  JobStateMessage : String := ""
  JobStateReasons : List String := []
  deriving DecidableEq, Repr

/-- The job-state constants of `ippclient` that `checkJobStatus` switches on. -/
structure JobStateEnums where
  JobStateCompleted : Int
  JobStateCanceled : Int
  JobStateAborted : Int
  deriving DecidableEq, Repr

/-- The three constants are pairwise different, as the case constants of a Go
switch are. -/
def JobStateEnums.Distinct (js : JobStateEnums) : Prop :=
  js.JobStateCompleted ≠ js.JobStateCanceled ∧
  js.JobStateCompleted ≠ js.JobStateAborted ∧
  js.JobStateCanceled ≠ js.JobStateAborted

instance (js : JobStateEnums) : Decidable js.Distinct := by
  unfold JobStateEnums.Distinct; infer_instance

/-- The IPP registry values of the three terminal job states. -/
def ippJobStateEnums : JobStateEnums :=
  { JobStateCompleted := 9, JobStateCanceled := 7, JobStateAborted := 8 }

def StatusUnauthorized : Int := 401
def StatusNotFound : Int := 404

/-- The test `isHttpStatusError && reqErr != nil && reqErr.StatusCode == code`
on the results of `ippclient.IsHTTPStatusError(err)`. -/
def isHTTPStatus (err : GoError) (code : Int) : Bool :=
  err.httpStatusError && decide (err.httpStatusCode = some code)

/-- An error made by `fmt.Errorf` or `errors.New`: a message and nothing else. -/
def errorf (msg : String) : GoError := { message := msg }

/-- The `%v` rendering of a string slice by `fmt`. -/
def fmtStrings (l : List String) : String := "[" ++ " ".intercalate l ++ "]"

/-- The struct `monitor` of `monitor.go`. The channels `jobFinalised` and
`terminated` are represented by the number of times each has been closed; the
embedded `jobState` by its job attributes. -/
structure monitor where
  printerURI : String := ""
  jobID : Int := 0
  jobFinalisedCloses : Nat := 0
  terminatedCloses : Nat := 0
  ippCreds : Option IPPCredentials := none
  delay : fibonnacciDelay := {}
  attempt : Int := 0
  errs : List OperationError := []
  jobState : Option JobAttributes := none
  deriving DecidableEq, Repr

/-- The statement `close(m.jobFinalised)`. -/
def monitor.closeJobFinalised (m : monitor) : monitor :=
  { m with jobFinalisedCloses := m.jobFinalisedCloses + 1 }

/-- The method `(*monitor).setJobID`. -/
def monitor.setJobID (m : monitor) (jobID : Int) : monitor := { m with jobID := jobID }

/-- The method `(*monitor).unsetJobID`. -/
def monitor.unsetJobID (m : monitor) : monitor := { m with jobID := 0 }

/-- The method `(*monitor).checkJobStatus`, over the outcome `(jres, err)` of
`GetJobAttributes`: `Except.error err` for a non-nil error, `Except.ok` with the
job attributes of the response otherwise. Log output is left out. -/
def monitor.checkJobStatus (os : Platform) (js : JobStateEnums) (m : monitor) (jobID : Int)
    (outcome : Except GoError JobAttributes) : monitor :=
  let _ := jobID
  let m := { m with attempt := m.attempt + 1 }
  match outcome with
  | Except.error err =>
    if err.isJobAttributesTagNotFound then m.closeJobFinalised
    else if isHTTPStatus err StatusNotFound then m.closeJobFinalised
    else if isHTTPStatus err StatusUnauthorized then
      if m.ippCreds ≠ none then
        let oe : OperationError :=
          { ErrType := ErrPrintMonitorFailedToMonitor,
            Err := "failed to monitor job progress: " ++ err.message }
        { m with errs := m.errs ++ [oe] }.closeJobFinalised
      else { m with ippCreds := some defaultIppCredentials }
    else if ippJobOpError.Temporary os { error := err } then m
    else
      let msg := "failed to monitor job progress: " ++ err.message
      let oe : OperationError := { ErrType := ErrPrintMonitorFailedToMonitor, Err := msg }
      { m with errs := m.errs ++ [oe] }.closeJobFinalised
  | Except.ok jres =>
    let m := { m with jobState := some jres }
    if jres.JobState = js.JobStateCompleted then m.closeJobFinalised
    else if jres.JobState = js.JobStateCanceled then
      let oe : OperationError :=
        { ErrType := ErrPrintJobCancelled,
          Err := "jobID " ++ toString m.jobID ++ " canceled; reasons: " ++
            fmtStrings jres.JobStateReasons }
      { m with errs := m.errs ++ [oe] }.closeJobFinalised
    else if jres.JobState = js.JobStateAborted then
      let oe : OperationError :=
        { ErrType := ErrPrintJobAborted,
          Err := "jobID " ++ toString m.jobID ++ " aborted; reasons: " ++
            fmtStrings jres.JobStateReasons }
      { m with errs := m.errs ++ [oe] }.closeJobFinalised
    else m

/-- A monitor that watches job 7 without credentials. -/
def watchingMonitor : monitor := { printerURI := "ipp://printer/ipp/print", jobID := 7 }

/-- An aborted job with a media jam. -/
def mediaJamAborted : JobAttributes :=
  { JobId := 7, JobState := 8, JobStateReasons := ["media-jam"] }

/-! ## IPP operations with retry -/

/-- The fields the client reads of the responses to Create-Job, Send-Document
and Print-Job (`CreateJobResponse`, `SendDocumentResponse`, `PrintJobResponse`);
`StatusMessage` is the result of the method of that name. -/
structure IppResponse where
  StatusCode : Int := 0
  StatusMessage : String := ""
  JobId : Int := 0
  JobUri : String := ""
  JobState : Int := 0
  JobStateMessage : String := ""
  JobStateReasons : List String := []
  deriving DecidableEq, Repr

/-- The outcome `(resp, err)` of one call of the IPP client. -/
inductive CallResult where
  | failed (err : GoError)
  | responded (resp : IppResponse)
  deriving DecidableEq, Repr

/-- What the environment supplies to one iteration of a retry loop: the value of
`ctx.Err()`, the error of `Reset()` on the document, the value of
`rand.Int63n(retryBackoffSeconds)`, and the outcome of the IPP call. A field is
read only when the iteration reaches the statement it belongs to. -/
structure LoopEvent where
  ctxErr : Option GoError := none
  resetErr : Option GoError := none
  jitter : Int := 0
  call : CallResult := CallResult.responded {}
  deriving DecidableEq, Repr

/-- The effects of the operations on the outside world, in the order they happen. -/
inductive Action where
  | sleep (seconds : Int)
  | reset
  | createJob (creds : Option IPPCredentials)
  | sendDocument (creds : Option IPPCredentials)
  | printJob (creds : Option IPPCredentials)
  | cancelJob (jobID : Int) (creds : Option IPPCredentials)
  deriving DecidableEq, Repr

def Action.isCreateJob : Action → Bool
  | Action.createJob _ => true
  | _ => false

def Action.isSendDocument : Action → Bool
  | Action.sendDocument _ => true
  | _ => false

def Action.isPrintJob : Action → Bool
  | Action.printJob _ => true
  | _ => false

def Action.isCancelJob : Action → Bool
  | Action.cancelJob _ _ => true
  | _ => false

/-- The struct `ippPrinter` of `printer.go`, with the record `trace` of the
effects so far. -/
structure ippPrinter where
  Credentials : Option IPPCredentials := none
  monitor : monitor := {}
  retryAttempts : Int := 0
  trace : List Action := []
  deriving DecidableEq, Repr

/-- Record one effect. -/
def ippPrinter.act (p : ippPrinter) (a : Action) : ippPrinter :=
  { p with trace := p.trace ++ [a] }

/-- The command-line flags that the operations read, the variable
`retryBackoffSeconds`, the build target, and the method `IsStatusOK` of
`ippclient.Status` (by default: the status is successful-ok). -/
structure Config where
  os : Platform := Platform.unix
  IsStatusOK : Int → Bool := fun status => decide (status = 0)
  ippMaxPrintJobSendDocumentRetryAttempts : Int := 5
  ippMaxUnauthorisedAttempts : Int := 4
  maxCreateJobAttempts : Int := 3
  retryBackoffSeconds : Int := 5
  ippGetAttributeRetries : Int := 5

/-- The constant `math.MaxInt32`. -/
def MaxInt32 : Int := 2147483647

/-- One pass through the body of a `for` loop: go round again or return. -/
inductive Step (σ ρ : Type) where
  | next (s : σ)
  | done (s : σ) (r : ρ)

/-- A `for` loop driven by a finite script of events: the state reached and the
returned value, or `none` when the script ends while the loop is still running. -/
def runLoop {σ ρ : Type} (step : LoopEvent → σ → Step σ ρ) : List LoopEvent → σ → σ × Option ρ
  | [], s => (s, none)
  | ev :: rest, s =>
    match step ev s with
    | Step.next s' => runLoop step rest s'
    | Step.done s' r => (s', some r)

/-- The method `(*ippPrinter).cancelJob`: the monitor's job id is unset, then
Cancel-Job is issued; its outcome is only logged. -/
def ippPrinter.cancelJob (p : ippPrinter) (jobID : Int) : ippPrinter :=
  let p := { p with monitor := p.monitor.unsetJobID }
  p.act (Action.cancelJob jobID p.Credentials)

/-- The local variables of `createJob` with the receiver. -/
structure CreateJobState where
  p : ippPrinter
  createJobAttempts : Int := 0
  skipBackoff : Bool := false
  deriving DecidableEq, Repr

/-- The statements of the loop of `createJob` from the backoff to the request:
sleep unless this is the first attempt or the backoff is skipped, count the
attempt, issue Create-Job. -/
def createJobIssue (cfg : Config) (ev : LoopEvent) (s : CreateJobState) : CreateJobState :=
  let backoff := decide (s.createJobAttempts > 0) && !s.skipBackoff
  let p := if backoff then s.p.act (Action.sleep (cfg.retryBackoffSeconds + ev.jitter)) else s.p
  let skipBackoff := if backoff then s.skipBackoff else false
  { p := p.act (Action.createJob p.Credentials),
    createJobAttempts := s.createJobAttempts + 1,
    skipBackoff := skipBackoff }

/-- The statements of the loop of `createJob` after the request: what is done
with the outcome of Create-Job. -/
def createJobClassify (cfg : Config) (call : CallResult) (s : CreateJobState) :
    Step CreateJobState (Option IppResponse × Option GoError) :=
  match call with
  | CallResult.failed err =>
    if isHTTPStatus err StatusUnauthorized then
      if s.p.Credentials = none then
        Step.next { s with p := { s.p with Credentials := some defaultIppCredentials },
                           skipBackoff := true }
      else if s.createJobAttempts ≤ cfg.ippMaxUnauthorisedAttempts then Step.next s
      else Step.done s (none, some (errorf ("failed to create job: " ++ err.message)))
    else if ippJobOpError.Temporary cfg.os { error := err } then Step.next s
    else
      Step.done s
        (none, some (errorf ("CreateJob failed with unrecoverable error: " ++ err.message)))
  | CallResult.responded resp =>
    if !cfg.IsStatusOK resp.StatusCode then
      if ippStatusRecoverable resp.StatusCode then Step.next s
      else
        Step.done s
          (some resp,
            some (errorf ("create job request failed with status " ++ resp.StatusMessage)))
    else if resp.JobId ≤ 0 ∨ resp.JobId > MaxInt32 then
      if s.createJobAttempts < cfg.maxCreateJobAttempts then Step.next s
      else
        Step.done s
          (none, some (errorf ("failed to create job:invalid job-id " ++ toString resp.JobId)))
    else Step.done s (some resp, none)

/-- The body of the loop of `createJob`. Log output is left out. -/
def createJobStep (cfg : Config) (ev : LoopEvent) (s : CreateJobState) :
    Step CreateJobState (Option IppResponse × Option GoError) :=
  match ev.ctxErr with
  | some err => Step.done s (none, some err)
  | none => createJobClassify cfg ev.call (createJobIssue cfg ev s)

/-- The method `(*ippPrinter).createJob`: the final state and the returned pair
`(resp, err)`, or `none` while the loop is still running at the end of the script. -/
def createJob (cfg : Config) (events : List LoopEvent) (p : ippPrinter) :
    CreateJobState × Option (Option IppResponse × Option GoError) :=
  runLoop (createJobStep cfg) events { p := p, createJobAttempts := 0, skipBackoff := false }

/-- The local variables of `sendDocument` with the receiver. -/
structure SendDocumentState where
  p : ippPrinter
  sendDocAttempts : Int := 0
  skipBackoff : Bool := false
  deriving DecidableEq, Repr

/-- The statements of the loop of `sendDocument` between the two early returns:
after a successful `Reset` (on a retry), back off unless skipped, and count the
attempt. -/
def sendDocumentPrepare (cfg : Config) (ev : LoopEvent) (s : SendDocumentState) :
    SendDocumentState :=
  let p := if s.sendDocAttempts > 0 then s.p.act Action.reset else s.p
  let backoff := decide (s.sendDocAttempts > 0) && !s.skipBackoff
  let p := if backoff then p.act (Action.sleep (cfg.retryBackoffSeconds + ev.jitter)) else p
  let skipBackoff :=
    if decide (s.sendDocAttempts > 0) && s.skipBackoff then false else s.skipBackoff
  { p := p, sendDocAttempts := s.sendDocAttempts + 1, skipBackoff := skipBackoff }

/-- The statements of the loop of `sendDocument` after the request: what is
done with the outcome of Send-Document. -/
def sendDocumentClassify (cfg : Config) (jobID : Int) (call : CallResult)
    (s : SendDocumentState) : Step SendDocumentState (Option IppResponse × Option GoError) :=
  match call with
  | CallResult.failed err =>
    if isHTTPStatus err StatusUnauthorized then
      if s.p.Credentials = none then
        Step.next { s with p := { s.p with Credentials := some defaultIppCredentials },
                           skipBackoff := true }
      else if s.sendDocAttempts ≤ cfg.ippMaxUnauthorisedAttempts then Step.next s
      else
        Step.done { s with p := s.p.cancelJob jobID }
          (none, some (errorf ("failed to send document: " ++ err.message)))
    else if ippJobOpError.Temporary cfg.os { error := err } then
      Step.next { s with p := s.p.cancelJob jobID }
    else
      Step.done { s with p := s.p.cancelJob jobID }
        (none, some (errorf ("failed to send document: " ++ err.message)))
  | CallResult.responded resp =>
    if !cfg.IsStatusOK resp.StatusCode then
      if ippStatusRecoverable resp.StatusCode then
        Step.next { s with p := s.p.cancelJob jobID }
      else
        Step.done { s with p := s.p.cancelJob jobID }
          (none, some (errorf ("Send-Document operation failed with status " ++
            resp.StatusMessage)))
    else Step.done s (some resp, none)

/-- The body of the loop of `sendDocument` for the job `jobID`. Log output is
left out. -/
def sendDocumentStep (cfg : Config) (jobID : Int) (ev : LoopEvent) (s : SendDocumentState) :
    Step SendDocumentState (Option IppResponse × Option GoError) :=
  match ev.ctxErr with
  | some err => Step.done s (none, some err)
  | none =>
    match (if s.sendDocAttempts > 0 then ev.resetErr else none) with
    | some err =>
      Step.done { s with p := s.p.act Action.reset }
        (none, some (errorf ("failed to read document: " ++ err.message)))
    | none =>
      let s := sendDocumentPrepare cfg ev s
      if s.sendDocAttempts > cfg.ippMaxPrintJobSendDocumentRetryAttempts then
        Step.done s
          (none, some (errorf ("failed to send document, err: max operation retry attempts " ++
            toString cfg.ippMaxPrintJobSendDocumentRetryAttempts ++ " exceeded")))
      else
        sendDocumentClassify cfg jobID ev.call
          { s with p := s.p.act (Action.sendDocument s.p.Credentials) }

/-- The method `(*ippPrinter).sendDocument` for the job `jobID`. -/
def sendDocument (cfg : Config) (jobID : Int) (events : List LoopEvent) (p : ippPrinter) :
    SendDocumentState × Option (Option IppResponse × Option GoError) :=
  runLoop (sendDocumentStep cfg jobID) events
    { p := p, sendDocAttempts := 0, skipBackoff := false }

/-- The method `(*ippPrinter).printJob` (lower case): the context is checked,
then Print-Job is issued. -/
def ippPrinter.printJob (p : ippPrinter) (ev : LoopEvent) : ippPrinter × CallResult :=
  match ev.ctxErr with
  | some err => (p, CallResult.failed err)
  | none => (p.act (Action.printJob p.Credentials), ev.call)

/-- The local variables of `PrintJob` with the receiver. -/
structure PrintJobState where
  p : ippPrinter
  isRetry : Bool := false
  retryWithDefaultCredentials : Bool := false
  printJobRetryAttempts : Int := 0
  deriving DecidableEq, Repr

/-- The statements of the loop of `PrintJob` between the two early returns:
after a successful `Reset` (on a retry), back off unless retrying with the
default credentials, install the default credentials when that flag is set, and
count the attempt. -/
def PrintJobPrepare (cfg : Config) (ev : LoopEvent) (s : PrintJobState) : PrintJobState :=
  let p := if s.isRetry then s.p.act Action.reset else s.p
  let p :=
    if s.isRetry && !s.retryWithDefaultCredentials then
      p.act (Action.sleep (cfg.retryBackoffSeconds + ev.jitter))
    else p
  let p :=
    if s.retryWithDefaultCredentials then { p with Credentials := some defaultIppCredentials }
    else p
  { p := p, isRetry := true, retryWithDefaultCredentials := s.retryWithDefaultCredentials,
    printJobRetryAttempts := s.printJobRetryAttempts + 1 }

/-- The statements of the loop of `PrintJob` after the call of `printJob`: what
is done with its outcome. -/
def PrintJobClassify (cfg : Config) (call : CallResult) (s : PrintJobState) :
    Step PrintJobState (Option JobAttributes × Option OperationError) :=
  match call with
  | CallResult.failed err =>
    if isHTTPStatus err StatusUnauthorized then
      if !s.retryWithDefaultCredentials then
        Step.next { s with retryWithDefaultCredentials := true }
      else if s.printJobRetryAttempts ≤ cfg.ippMaxUnauthorisedAttempts then Step.next s
      else
        Step.done s
          (none, some { ErrType := ErrPrintIPPPrintJob,
                        Err := "ipp Print-Job failed: " ++ err.message })
    else if ippJobOpError.Temporary cfg.os { error := err } then Step.next s
    else
      Step.done s
        (none, some { ErrType := ErrPrintIPPPrintJob,
                      Err := "ipp Print-Job failed: " ++ err.message })
  | CallResult.responded resp =>
    if !cfg.IsStatusOK resp.StatusCode then Step.next s
    else
      Step.done { s with p := { s.p with monitor := s.p.monitor.setJobID resp.JobId } }
        (some { JobId := resp.JobId, JobUri := resp.JobUri, JobState := resp.JobState,
                JobStateMessage := resp.JobStateMessage,
                JobStateReasons := resp.JobStateReasons }, none)

/-- The body of the loop of `PrintJob`. Log output is left out. -/
def PrintJobStep (cfg : Config) (ev : LoopEvent) (s : PrintJobState) :
    Step PrintJobState (Option JobAttributes × Option OperationError) :=
  match (if s.isRetry then ev.resetErr else none) with
  | some err =>
    Step.done { s with p := s.p.act Action.reset }
      (none, some { ErrType := ErrPrintDefaultError,
                    Err := "failed to read document: " ++ err.message })
  | none =>
    let s := PrintJobPrepare cfg ev s
    if s.printJobRetryAttempts > cfg.ippMaxPrintJobSendDocumentRetryAttempts then
      Step.done s
        (none, some { ErrType := ErrPrintIPPPrintJob,
                      Err := "ipp Print-Job failed, err: max operation retry attempts " ++
                        toString cfg.ippMaxPrintJobSendDocumentRetryAttempts ++ " exceeded" })
    else
      PrintJobClassify cfg (s.p.printJob ev).2 { s with p := (s.p.printJob ev).1 }

/-- The method `(*ippPrinter).PrintJob`; `createTempErr` is the error, if any,
of `os.CreateTemp`. -/
def PrintJob (cfg : Config) (createTempErr : Option GoError) (events : List LoopEvent)
    (p : ippPrinter) :
    PrintJobState × Option (Option JobAttributes × Option OperationError) :=
  match createTempErr with
  | some err =>
    ({ p := p }, some (none, some { ErrType := ErrPrintDefaultError,
                                     Err := "failed to create temporary file: " ++ err.message }))
  | none =>
    runLoop (PrintJobStep cfg) events
      { p := p, isRetry := false, retryWithDefaultCredentials := false,
        printJobRetryAttempts := 0 }

/-- The number of Create-Job, Send-Document and Print-Job requests in a trace. -/
def createJobRequests (trace : List Action) : Nat := trace.countP Action.isCreateJob
def sendDocumentRequests (trace : List Action) : Nat := trace.countP Action.isSendDocument
def printJobRequests (trace : List Action) : Nat := trace.countP Action.isPrintJob

/-! ## Sample printer conversations -/

/-- An HTTP 401 answer. -/
def unauthorizedEvent : LoopEvent :=
  { call := CallResult.failed
      { message := "http status 401", httpStatusError := true, httpStatusCode := some 401 } }

/-- A connection reset, which is a temporary error. -/
def connectionResetEvent : LoopEvent :=
  { call := CallResult.failed { message := "connection reset by peer", isECONNRESET := true } }

/-- A successful-ok answer for job 42. -/
def job42Event : LoopEvent :=
  { call := CallResult.responded { StatusCode := 0, JobId := 42, JobUri := "ipp://printer/jobs/42" } }

/-- A successful-ok answer that carries the job id 0. -/
def jobZeroEvent : LoopEvent :=
  { call := CallResult.responded { StatusCode := 0, JobId := 0 } }

/-- A printer object whose credentials come from the ticket. -/
def ticketCredentialsPrinter : ippPrinter :=
  { Credentials := some { Username := "alice", Password := "secret" } }

/-- The attempt counter of `createJob` counts the Create-Job requests. -/
def createJobCounts (p0 : ippPrinter) (s : CreateJobState) : Prop :=
  0 ≤ s.createJobAttempts ∧
  createJobRequests s.p.trace = createJobRequests p0.trace + s.createJobAttempts.toNat

/-- An event that answers Create-Job with successful-ok and a job id outside
`1 .. 2^31 - 1`, the context being alive. -/
def invalidJobIdEvent (cfg : Config) (ev : LoopEvent) : Prop :=
  ev.ctxErr = none ∧
  ∃ resp, ev.call = CallResult.responded resp ∧ cfg.IsStatusOK resp.StatusCode = true ∧
    (resp.JobId ≤ 0 ∨ resp.JobId > MaxInt32)

/-- An event on which Create-Job fails with an error other than HTTP 401 that
`Temporary()` reports as temporary, the context being alive. -/
def temporaryErrorEvent (cfg : Config) (ev : LoopEvent) : Prop :=
  ev.ctxErr = none ∧
  ∃ err, ev.call = CallResult.failed err ∧ isHTTPStatus err StatusUnauthorized = false ∧
    ippJobOpError.Temporary cfg.os { error := err } = true

/-- An event that answers Create-Job with a status that is not OK and is
recoverable, the context being alive. -/
def recoverableStatusEvent (cfg : Config) (ev : LoopEvent) : Prop :=
  ev.ctxErr = none ∧
  ∃ resp, ev.call = CallResult.responded resp ∧ cfg.IsStatusOK resp.StatusCode = false ∧
    ippStatusRecoverable resp.StatusCode = true

/-- An event on which Create-Job fails with HTTP 401, the context being alive. -/
def unauthorisedErrorEvent (ev : LoopEvent) : Prop :=
  ev.ctxErr = none ∧
  ∃ err, ev.call = CallResult.failed err ∧ isHTTPStatus err StatusUnauthorized = true

/-- Four connection resets followed by a valid answer. -/
def fourResetsThenJob : List LoopEvent :=
  [connectionResetEvent, connectionResetEvent, connectionResetEvent, connectionResetEvent,
   job42Event]

/-- The attempt counter of `sendDocument` while the loop runs: every counted
attempt has issued a Send-Document request and the cap is respected. -/
def sendDocumentRunning (cfg : Config) (p0 : ippPrinter) (s : SendDocumentState) : Prop :=
  0 ≤ s.sendDocAttempts ∧
  s.sendDocAttempts ≤ max cfg.ippMaxPrintJobSendDocumentRetryAttempts 0 ∧
  sendDocumentRequests s.p.trace = sendDocumentRequests p0.trace + s.sendDocAttempts.toNat

/-- The attempt counter of `sendDocument` at any time, also when the call has
returned: either every counted attempt has issued a request, or the last count
exceeded the cap and issued none. -/
def sendDocumentCounted (cfg : Config) (p0 : ippPrinter) (s : SendDocumentState) : Prop :=
  0 ≤ s.sendDocAttempts ∧
  ((s.sendDocAttempts ≤ max cfg.ippMaxPrintJobSendDocumentRetryAttempts 0 ∧
      sendDocumentRequests s.p.trace = sendDocumentRequests p0.trace + s.sendDocAttempts.toNat) ∨
    (s.sendDocAttempts > cfg.ippMaxPrintJobSendDocumentRetryAttempts ∧
      s.sendDocAttempts ≤ max cfg.ippMaxPrintJobSendDocumentRetryAttempts 0 + 1 ∧
      sendDocumentRequests s.p.trace + 1 =
        sendDocumentRequests p0.trace + s.sendDocAttempts.toNat))

/-- The attempt counter of `PrintJob` while the loop runs. -/
def PrintJobRunning (cfg : Config) (p0 : ippPrinter) (s : PrintJobState) : Prop :=
  0 ≤ s.printJobRetryAttempts ∧
  s.printJobRetryAttempts ≤ max cfg.ippMaxPrintJobSendDocumentRetryAttempts 0 ∧
  printJobRequests s.p.trace ≤ printJobRequests p0.trace + s.printJobRetryAttempts.toNat

/-- The attempt counter of `PrintJob` at any time, also when the call has
returned. -/
def PrintJobCounted (cfg : Config) (p0 : ippPrinter) (s : PrintJobState) : Prop :=
  0 ≤ s.printJobRetryAttempts ∧
  printJobRequests s.p.trace ≤ printJobRequests p0.trace + s.printJobRetryAttempts.toNat ∧
  printJobRequests s.p.trace ≤
    printJobRequests p0.trace + cfg.ippMaxPrintJobSendDocumentRetryAttempts.toNat

/-- The credentials of the printer object are those it started with, or the
default pair installed in place of absent ones. -/
def credentialsKept (p0 p : ippPrinter) : Prop :=
  p.Credentials = p0.Credentials ∨
    (p0.Credentials = none ∧ p.Credentials = some defaultIppCredentials)

/-! ## Job template attributes -/

/-- The fields of `ipp.MediaType` that the client reads. -/
structure MediaType where
  Name : String := ""
  Width : Int := 0
  Height : Int := 0
  deriving DecidableEq, Repr

/-- The function `getIppMediaSizeFromName` of `mediasizemapping.go`; the table
`ippMediaSizeMap` and the value `defaultIppMediaSize` are parameters, their
entries being constants of the `ipp` package. -/
def getIppMediaSizeFromName (ippMediaSizeMap : String → Option MediaType)
    (defaultIppMediaSize : MediaType) (name : String) : MediaType :=
  match ippMediaSizeMap name with
  | some val => val
  | none => defaultIppMediaSize

/-- The values of `ippclient.Orientation` that `ippOrientation` can return: the
two named constants and the zero `ipp.Integer`. -/
inductive Orientation where
  | zero
  | OrientationPortrait
  | OrientationLandscape
  deriving DecidableEq, Repr

/-- The function `ippOrientation` of `pdl_overrides.go`. -/
def ippOrientation (orientation : String) : Orientation :=
  if orientation = OrientationPortrait then Orientation.OrientationPortrait
  else if orientation = OrientationLandscape then Orientation.OrientationLandscape
  else Orientation.zero

/-- The fields of `ippclient.PrintJobTemplateAttributes` that the client sets.
`MediaCol` is the map `media-size ↦ (x-dimension, y-dimension)`, `none` being
the nil map; an unset `Media` is the empty string. -/
structure PrintJobTemplateAttributes where
  AttributeCopies : Int := 0
  PrintColorMode : String := ""
  AttributesSides : String := ""
  Finishings : List Int := []
  MultiDocHandle : String := ""
  MediaCol : Option (Int × Int) := none
  Media : String := ""
  OrientationRequested : Orientation := Orientation.zero
  deriving DecidableEq, Repr

/-- The constant `ippclient.SeparateDocumentsCollatedCopies`, with the value the
specification gives. -/
def SeparateDocumentsCollatedCopies : String := "separate-documents-collated-copies"

/-- The function `applyPdlOverrides` of `pdl_overrides.go`. -/
def applyPdlOverrides (jobAttrs : PrintJobTemplateAttributes) (ticket : JobTicket) :
    PrintJobTemplateAttributes :=
  if ticket.OptionalPDLOverrides.Orientation ≠ "" then
    { jobAttrs with
      OrientationRequested := ippOrientation ticket.OptionalPDLOverrides.Orientation }
  else jobAttrs

/-- The tables and constants of other packages that `makeIPPJobAttributes` reads. -/
structure Tables where
  finishingsStringToEnumMap : String → Option Int
  stapleEnums : StapleEnums
  genericFinishings : Int → Option Int
  ippMediaSizeMap : String → Option MediaType
  defaultIppMediaSize : MediaType

/-- The function `makeIPPJobAttributes` of `operations.go`. -/
def makeIPPJobAttributes (tables : Tables) (ticketAttrs : JobTicket)
    (printerAttrs : PrinterAttributes) : PrintJobTemplateAttributes :=
  let mediaColSupported : Bool :=
    decide (printerAttrs.MediaColSupported ≠ none) ||
      decide ((printerAttrs.MediaColSupported.getD []).length ≠ 0)
  let jobAttrs : PrintJobTemplateAttributes :=
    { AttributeCopies := ticketAttrs.Copies,
      PrintColorMode := ticketAttrs.PrintColorMode,
      AttributesSides := ticketAttrs.Sides,
      Finishings := mapFinishings tables.finishingsStringToEnumMap tables.stapleEnums
        tables.genericFinishings ticketAttrs printerAttrs,
      MultiDocHandle := SeparateDocumentsCollatedCopies }
  let mediaSize := getIppMediaSizeFromName tables.ippMediaSizeMap tables.defaultIppMediaSize
    ticketAttrs.PaperName
  let jobAttrs :=
    if mediaColSupported then
      { jobAttrs with MediaCol := some (mediaSize.Width, mediaSize.Height) }
    else { jobAttrs with Media := mediaSize.Name }
  applyPdlOverrides jobAttrs ticketAttrs

/-- The ISO A4 size, in hundredths of a millimetre. -/
def isoA4 : MediaType := { Name := "iso_a4_210x297mm", Width := 21000, Height := 29700 }

/-- Sample tables: the finishings samples and a media table that knows A4. -/
def sampleTables : Tables :=
  { finishingsStringToEnumMap := sampleFinishingsStringToEnumMap,
    stapleEnums := ippStapleEnums,
    genericFinishings := sampleGenericFinishings,
    ippMediaSizeMap := fun name => if name = "A4" then some isoA4 else none,
    defaultIppMediaSize := isoA4 }

/-- A printer whose `media-col-supported` is an empty, non-nil list. -/
def emptyMediaColPrinter : PrinterAttributes :=
  { MediaColSupported := some [], PrinterIsAcceptingJobs := true }

/-! ## Device id check -/

/-- A compiled regular expression of Go's `regexp` package, as the client uses
it: the number of capture groups and `FindStringSubmatch`, which gives `none`
(the nil slice) when there is no match and otherwise the text of the leftmost
match followed by the texts of the capture groups. -/
structure Regexp where
  NumSubexp : Nat
  FindStringSubmatch : String → Option (List String)

/-- The method `MatchString`: whether the string contains a match. -/
def Regexp.MatchString (re : Regexp) (s : String) : Bool :=
  (re.FindStringSubmatch s).isSome

/-- The law of `FindStringSubmatch`: a non-nil result has one entry for the
whole match and one for each capture group. -/
def Regexp.WellFormed (re : Regexp) : Prop :=
  ∀ s m, re.FindStringSubmatch s = some m → m.length = re.NumSubexp + 1

/-- The statements `if snRegex.MatchString(s) { sn = snRegex.FindStringSubmatch(s)[2] }`
starting from the empty string: `none` is the run-time panic of an index out of
range. -/
def serialNumberOf (snRegex : Regexp) (s : String) : Option String :=
  if snRegex.MatchString s then
    match snRegex.FindStringSubmatch s with
    | some snMatch => snMatch[2]?
    | none => none
  else some ""

/-- The function `checkPrinterDeviceIdMatch` of `operations.go`. The parameter
`compile` is `regexp.Compile` (`none` when the pattern does not parse, on which
`regexp.MustCompile` panics); the result `none` is a run-time panic. -/
def checkPrinterDeviceIdMatch (compile : String → Option Regexp)
    (deviceIdRaw deviceIdSnRegex : String) (attributes : Option PrinterAttributes) :
    Option Bool :=
  match attributes with
  | none => some true
  | some attributes =>
    if deviceIdRaw ≠ "" then
      if attributes.PrinterDeviceID = deviceIdRaw then some true
      else if deviceIdSnRegex ≠ "" then
        match compile deviceIdSnRegex with
        | none => none
        | some snRegex =>
          match serialNumberOf snRegex deviceIdRaw with
          | none => none
          | some sn =>
            match serialNumberOf snRegex attributes.PrinterDeviceID with
            | none => none
            | some snFromPrinterAttrs => some (decide (sn ≠ "") && decide (sn = snFromPrinterAttrs))
      else some false
    else some true

/-- Capture group 2 of the leftmost match of the pattern `r` in `s`, when the
pattern compiles, matches and has such a group. -/
def captureGroup2 (compile : String → Option Regexp) (r s : String) : Option String :=
  match compile r with
  | none => none
  | some re =>
    match re.FindStringSubmatch s with
    | none => none
    | some m => m[2]?

/-- The characters before the first `;`, and whether a `;` follows them. -/
def beforeSemicolon : List Char → List Char × Bool
  | [] => ([], false)
  | c :: s =>
    if c = ';' then ([], true)
    else ((c :: (beforeSemicolon s).1), (beforeSemicolon s).2)

/-- The match of `(SN|SER):(.*?)(;|$)` that starts with the tag `tag` at the
head of `rest`, `rest` being what follows the tag and the colon: the lazy group
stops at the first `;` or at the end of the text and cannot cross a line break. -/
def serialMatchAt (tag : String) (rest : List Char) : Option (List String) :=
  let body := (beforeSemicolon rest).1
  let closing := if (beforeSemicolon rest).2 then ";" else ""
  if body.all (fun c => decide (c ≠ '\n')) then
    some [tag ++ ":" ++ String.mk body ++ closing, tag, String.mk body, closing]
  else none

/-- The leftmost match of `(SN|SER):(.*?)(;|$)` in a character list. -/
def serialFind : List Char → Option (List String)
  | [] => none
  | c :: s =>
    let here :=
      if startsWith (c :: s) "SN:".data then serialMatchAt "SN" ((c :: s).drop 3)
      else if startsWith (c :: s) "SER:".data then serialMatchAt "SER" ((c :: s).drop 4)
      else none
    match here with
    | some m => some m
    | none => serialFind s

/-- The pattern `(SN|SER):(.*?)(;|$)` of the tests, compiled. -/
def serialRegexp : Regexp :=
  { NumSubexp := 3, FindStringSubmatch := fun s => serialFind s.data }

/-- The leftmost match of `SN:(.*)` in a character list: the greedy group runs
to the end of the line. -/
def tagFind : List Char → Option (List String)
  | [] => none
  | c :: s =>
    if startsWith (c :: s) "SN:".data then
      let body := ((c :: s).drop 3).takeWhile (fun c => decide (c ≠ '\n'))
      some ["SN:" ++ String.mk body, String.mk body]
    else tagFind s

/-- The pattern `SN:(.*)`, with a single capture group, compiled. -/
def oneGroupRegexp : Regexp :=
  { NumSubexp := 1, FindStringSubmatch := fun s => tagFind s.data }

/-- A sample of `regexp.Compile` that knows the two patterns above. -/
def sampleCompile (pattern : String) : Option Regexp :=
  if pattern = "(SN|SER):(.*?)(;|$)" then some serialRegexp
  else if pattern = "SN:(.*)" then some oneGroupRegexp
  else none

/-- The device id of the printer in the tests. -/
def fujifilmDeviceId : String :=
  "MFG:FUJIFILM;CMD:PJL,RASTER;SN:TR4-000491;MDL:Apeos C325z/328df;CLS:PRINTER;"

/-- A printer that reports that device id. -/
def fujifilmPrinter : PrinterAttributes :=
  { PrinterDeviceID := fujifilmDeviceId, PrinterIsAcceptingJobs := true }

/-! ## Cancel-Job, backoff and status handling -/

/-- The method `(*ippPrinter).cancelJob` with the outcome of the Cancel-Job
request as input: the branches on an error and on a non-OK status only log. -/
def ippPrinter.cancelJobWith (cfg : Config) (outcome : CallResult) (p : ippPrinter)
    (jobID : Int) : ippPrinter :=
  let p := { p with monitor := p.monitor.unsetJobID }
  let p := p.act (Action.cancelJob jobID p.Credentials)
  match outcome with
  | CallResult.failed _ => p
  | CallResult.responded resp => if !cfg.IsStatusOK resp.StatusCode then p else p

def Action.isSleep : Action → Bool
  | Action.sleep _ => true
  | _ => false

/-- The number of backoff sleeps and of Cancel-Job requests in a trace. -/
def sleepCount (trace : List Action) : Nat := trace.countP Action.isSleep
def cancelJobRequests (trace : List Action) : Nat := trace.countP Action.isCancelJob

/-- An answer with the status client-error-bad-request, which is neither OK nor
recoverable. -/
def badRequestEvent : LoopEvent :=
  { call := CallResult.responded { StatusCode := 0x0400, StatusMessage := "client-error-bad-request" } }

/-- An iteration that finds the context cancelled. -/
def contextCancelledEvent : LoopEvent :=
  { ctxErr := some { message := "context canceled" } }

/-- A printer object whose monitor watches job 42. -/
def job42Printer : ippPrinter := { monitor := { jobID := 42 } }

/-- Six bad-request answers in a row. -/
def sixBadRequests : List LoopEvent :=
  [badRequestEvent, badRequestEvent, badRequestEvent, badRequestEvent, badRequestEvent,
   badRequestEvent]

/-! ## Document reader -/

/-- The document reader of `docreader.go` together with what it reads from:
`upstream` holds the bytes of the input stream not read yet, `tmpFile` the
contents of the temporary file and `offset` its file offset; `file` tells
whether the current reader is the `fileReader` (otherwise the `streamReader`
over `io.TeeReader(r, tmpFile)`); `drains` counts the runs of `io.Copy` over the
upstream. -/
structure DocReader where
  upstream : List UInt8 := []
  tmpFile : List UInt8 := []
  offset : Nat := 0
  isRead : Bool := false
  file : Bool := false
  drains : Nat := 0
  deriving DecidableEq, Repr

/-- The reader that `PrintJob` and `CreateSendDocument` construct over the input
`input` and an empty temporary file. -/
def DocReader.fresh (input : List UInt8) : DocReader := { upstream := input }

/-- The method `(*os.File).Write` at the current offset. -/
def fileWrite (content : List UInt8) (offset : Nat) (data : List UInt8) : List UInt8 :=
  content.take offset ++ data ++ content.drop (offset + data.length)

/-- One `Read` of at most `k` bytes: `streamReader.Read` marks the reader as
read, takes the bytes from the upstream and tees them into the temporary file;
the `fileReader` reads the temporary file at its offset. The bytes read are the
second component. -/
def DocReader.read (k : Nat) (r : DocReader) : DocReader × List UInt8 :=
  if r.file then
    let out := (r.tmpFile.drop r.offset).take k
    ({ r with offset := r.offset + out.length }, out)
  else
    let out := r.upstream.take k
    ({ r with isRead := true, upstream := r.upstream.drop k,
              tmpFile := fileWrite r.tmpFile r.offset out,
              offset := r.offset + out.length }, out)

/-- The methods `(*streamReader).Reset` and `(*fileReader).Reset`, without I/O
errors: an unread stream reader is returned as it is; a read one is drained by
`io.Copy` through the tee and replaced by the file reader at offset 0; the file
reader seeks to offset 0. -/
def DocReader.Reset (r : DocReader) : DocReader :=
  if r.file then { r with offset := 0 }
  else if !r.isRead then r
  else
    { r with upstream := [],
             tmpFile := fileWrite r.tmpFile r.offset r.upstream,
             offset := 0, file := true, drains := r.drains + 1 }

/-- What reading the current reader to its end yields. -/
def DocReader.contents (r : DocReader) : List UInt8 :=
  if r.file then r.tmpFile.drop r.offset else r.upstream

/-- Successive `Read` calls with buffers of the sizes `ks` on the current reader:
the reader afterwards and the bytes delivered, in order. -/
def DocReader.readChunks : DocReader → List Nat → DocReader × List UInt8
  | r, [] => (r, [])
  | r, k :: ks =>
    ((DocReader.readChunks (r.read k).1 ks).1, (r.read k).2 ++ (DocReader.readChunks (r.read k).1 ks).2)

/-- What an attempt does to the reader. -/
inductive DocOp where
  | read (k : Nat)
  | reset
  deriving DecidableEq, Repr

def DocReader.apply (r : DocReader) : DocOp → DocReader
  | DocOp.read k => (r.read k).1
  | DocOp.reset => r.Reset

/-- The reader after a sequence of reads and resets. -/
def DocReader.run (r : DocReader) (ops : List DocOp) : DocReader := ops.foldl DocReader.apply r

/-- The state of a reader over the input `input`: what has been taken from the
upstream is in the temporary file, once. -/
def DocReader.Consistent (input : List UInt8) (r : DocReader) : Prop :=
  (r.file = false →
    r.tmpFile ++ r.upstream = input ∧ r.offset = r.tmpFile.length ∧
      (r.isRead = false → r.tmpFile = []) ∧ r.drains = 0) ∧
  (r.file = true → r.tmpFile = input ∧ r.upstream = [] ∧ r.drains = 1)

/-! ## Printer readiness prober and checker -/

/-- The fields the client reads of `ippclient.PrinterAttributesResponse`; a nil
`PrinterAttributes` pointer is `none`. -/
structure PrinterAttributesResponse where
  StatusCode : Int := 0
  PrinterAttributes : Option PrinterAttributes := none
  deriving DecidableEq, Repr

/-- The outcome `(resp, err)` of `ippClient.GetPrinterAttributes`: either value
may be nil. -/
structure AttributesOutcome where
  resp : Option PrinterAttributesResponse := none
  err : Option GoError := none
  deriving DecidableEq, Repr

/-- The case that the `select` of `waitForPrinterReady` takes. -/
inductive SelectCase where
  | printerReadyTimeout
  | ctxDone (deadlineExceeded : Bool)
  | default
  deriving DecidableEq, Repr

/-- What the environment supplies to one iteration of `waitForPrinterReady`. -/
structure ReadyEvent where
  select : SelectCase := SelectCase.default
  outcome : AttributesOutcome := {}
  deriving DecidableEq, Repr

/-- How a call of `waitForPrinterReady` ends: with the returned pair, with a
run-time panic on a nil pointer, or still polling when the script ends. -/
inductive WaitResult where
  | returned (attrs : Option PrinterAttributes) (err : Option OperationError)
  | panicked
  | polling
  deriving DecidableEq, Repr

/-- The function `waitForPrinterReady` of `operations.go`, from the attempt
count `attempts`: how it ends and the number of Get-Printer-Attributes requests
made. Log output and the sleeps between attempts are left out. -/
def waitForPrinterReady : List ReadyEvent → Nat → WaitResult × Nat
  | [], attempts => (WaitResult.polling, attempts)
  | ev :: rest, attempts =>
    match ev.select with
    | SelectCase.printerReadyTimeout =>
      (WaitResult.returned none
        (some { ErrType := ErrPrintPrinterReadyTimeout, Err := "printer ready timeout" }),
       attempts)
    | SelectCase.ctxDone true =>
      (WaitResult.returned none
        (some { ErrType := ErrPrintJobCtxTimeout,
                Err := "context timeout while waiting for printer ready" }),
       attempts)
    | SelectCase.ctxDone false =>
      (WaitResult.returned none
        (some { ErrType := ErrPrintDefaultError,
                Err := "context done/error while waiting for printer ready" }),
       attempts)
    | SelectCase.default =>
      let attempts := attempts + 1
      let retry : Bool :=
        match ev.outcome.err with
        | some err => !err.isMalformedAttributes
        | none => false
      if retry then waitForPrinterReady rest attempts
      else
        match ev.outcome.resp with
        | none => (WaitResult.panicked, attempts)
        | some printerAttrsResponse =>
          match printerAttrsResponse.PrinterAttributes with
          | none => (WaitResult.panicked, attempts)
          | some attrs =>
            if !(isPrinterReady attrs).1 then waitForPrinterReady rest attempts
            else (WaitResult.returned (some attrs) none, attempts)

def ErrCheckPrinter : Int := 30
def ErrCheckPrinterPrinterNotReady : Int := 31
def ErrCheckPrinterErrorResponse : Int := 32
def ErrCheckPrinterNetwork : Int := 33
def ErrCheckPrinterDeviceIdMismatch : Int := 34

/-- How the retry loop of `checkPrinter` is left: by a `return`, by a run-time
panic on a nil response, or at its end (after a `break` or when the attempts are
used up) with the last response and error. Each carries the number of
Get-Printer-Attributes requests made. -/
inductive CheckLoopResult where
  | returned (err : OperationError) (requests : Nat)
  | panicked (requests : Nat)
  | left (resp : Option PrinterAttributesResponse) (err : Option GoError) (requests : Nat)
  deriving DecidableEq, Repr

/-- The loop `for attempt = 1; attempt <= *ippGetAttributeRetries; attempt++` of
`checkPrinter`: `remaining` counts the attempts still allowed, `outcomes` gives
the outcome of each attempt by its number. -/
def checkPrinterLoop (cfg : Config) (outcomes : Nat → AttributesOutcome) :
    Nat → Nat → Option PrinterAttributesResponse → Option GoError → CheckLoopResult
  | 0, attempt, resp, err => CheckLoopResult.left resp err (attempt - 1)
  | remaining + 1, attempt, _, _ =>
    match (outcomes attempt).err with
    | some err =>
      if err.isMalformedAttributes then
        CheckLoopResult.returned
          { ErrType := ErrCheckPrinterErrorResponse,
            Err := "get-printer-attributes failed err: " ++ err.message } attempt
      else checkPrinterLoop cfg outcomes remaining (attempt + 1) (outcomes attempt).resp (some err)
    | none =>
      match (outcomes attempt).resp with
      | none => CheckLoopResult.panicked attempt
      | some printerAttrsResponse =>
        if !cfg.IsStatusOK printerAttrsResponse.StatusCode then
          CheckLoopResult.returned
            { ErrType := ErrCheckPrinterPrinterNotReady,
              Err := "get-printer-attributes done, printer is not ready" } attempt
        else CheckLoopResult.left (some printerAttrsResponse) none attempt

/-- How a call of `checkPrinter` ends: the process exits in `usage()`, a
run-time panic, or the returned error (`none` for nil). -/
inductive CheckPrinterResult where
  | exited (code : Int)
  | panicked
  | returned (err : Option OperationError)
  deriving DecidableEq, Repr

/-- The outcome of `checkPrinter`: how it ends, the number of requests sent to
the printer, and the file system of the cache afterwards. -/
structure CheckPrinterRun (β : Type) where
  result : CheckPrinterResult
  requests : Nat
  fs : FileSystem β

/-- The part of `checkPrinter` after the cache lookup: the IPP client is
created, the printer is queried, the device id is verified and the cache is
updated when the printer is ready. Elapsed times and routing information are
left out of the messages. -/
def checkPrinterQuery {β : Type} (cfg : Config) (compile : String → Option Regexp)
    (codec : JsonCodec β) (printerURI : String) (newClientErr : Option GoError)
    (attribCache : Option PrinterAttributeCache) (fs : FileSystem β) (now : Int)
    (writeErr : Option String) (deviceId deviceSnRegex : String)
    (outcomes : Nat → AttributesOutcome) : CheckPrinterRun β :=
  match newClientErr with
  | some err =>
    { result := CheckPrinterResult.returned
        (some { ErrType := ErrCheckPrinter,
                Err := "failed to create ipp client, err: " ++ err.message }),
      requests := 0, fs := fs }
  | none =>
    match checkPrinterLoop cfg outcomes cfg.ippGetAttributeRetries.toNat 1 none none with
    | CheckLoopResult.returned err requests =>
      { result := CheckPrinterResult.returned (some err), requests := requests, fs := fs }
    | CheckLoopResult.panicked requests =>
      { result := CheckPrinterResult.panicked, requests := requests, fs := fs }
    | CheckLoopResult.left resp err requests =>
      match err, resp with
      | some err, _ =>
        { result := CheckPrinterResult.returned
            (some { ErrType := ErrCheckPrinterNetwork,
                    Err := "get-printer-attributes failed err: " ++ err.message }),
          requests := requests, fs := fs }
      | none, none =>
        { result := CheckPrinterResult.returned
            (some { ErrType := ErrCheckPrinterNetwork,
                    Err := "get-printer-attributes failed err: <nil>" }),
          requests := requests, fs := fs }
      | none, some printerAttrsResponse =>
        match (if deviceId ≠ "" then
                checkPrinterDeviceIdMatch compile deviceId deviceSnRegex
                  printerAttrsResponse.PrinterAttributes
              else some true) with
        | none => { result := CheckPrinterResult.panicked, requests := requests, fs := fs }
        | some false =>
          { result := CheckPrinterResult.returned
              (some { ErrType := ErrCheckPrinterDeviceIdMismatch,
                      Err := "printer device Id does not match the criteria" }),
            requests := requests, fs := fs }
        | some true =>
          match attribCache with
          | none =>
            { result := CheckPrinterResult.returned none, requests := requests, fs := fs }
          | some _ =>
            match printerAttrsResponse.PrinterAttributes with
            | none => { result := CheckPrinterResult.panicked, requests := requests, fs := fs }
            | some attrs =>
              if (isPrinterReady attrs).1 then
                { result := CheckPrinterResult.returned none, requests := requests,
                  fs := (SetPrinterAttributes codec attribCache fs now writeErr printerURI
                          (some attrs)).2 }
              else
                { result := CheckPrinterResult.returned none, requests := requests, fs := fs }

/-- The function `checkPrinter` of `operations.go`. -/
def checkPrinter {β : Type} (cfg : Config) (compile : String → Option Regexp)
    (codec : JsonCodec β) (printerURI : String) (newClientErr : Option GoError)
    (attribCache : Option PrinterAttributeCache) (fs : FileSystem β) (now : Int)
    (writeErr : Option String) (deviceId deviceSnRegex : String)
    (outcomes : Nat → AttributesOutcome) : CheckPrinterRun β :=
  if printerURI = "" then { result := CheckPrinterResult.exited 2, requests := 0, fs := fs }
  else
    let query := checkPrinterQuery cfg compile codec printerURI newClientErr attribCache fs now
      writeErr deviceId deviceSnRegex outcomes
    match attribCache with
    | none => query
    | some _ =>
      match GetPrinterAttributes codec attribCache fs now printerURI with
      | (printerAttrs, none) =>
        match (if deviceId ≠ "" then
                checkPrinterDeviceIdMatch compile deviceId deviceSnRegex printerAttrs
              else some false) with
        | none => { result := CheckPrinterResult.panicked, requests := 0, fs := fs }
        | some true => { result := CheckPrinterResult.returned none, requests := 0, fs := fs }
        | some false => query
      | (_, some _) => query

/-- A malformed-attributes error that comes with the attributes of a ready
printer. -/
def malformedButReadyEvent : ReadyEvent :=
  { outcome :=
      { resp := some { PrinterAttributes := some readyPrinter },
        err := some { message := "malformed attributes", isMalformedAttributes := true } } }

/-- A printer that cannot be reached: every attempt fails with a timeout. -/
def unreachablePrinter (_ : Nat) : AttributesOutcome :=
  { err := some { message := "dial tcp: i/o timeout" } }

/-- The file system after the attributes of `readyPrinter` were cached at time 0
for the URI `ipp://printer/ipp/print`. -/
def cachedFileSystem : FileSystem cacheElement :=
  (SetPrinterAttributes identityCodec (some twoSecondCache) (FileSystem.empty cacheElement) 0
    none "ipp://printer/ipp/print" (some readyPrinter)).2

/-- The number of Get-Printer-Attributes requests made when the retry loop of
`checkPrinter` is left. -/
def CheckLoopResult.requestCount : CheckLoopResult → Nat
  | CheckLoopResult.returned _ requests => requests
  | CheckLoopResult.panicked requests => requests
  | CheckLoopResult.left _ _ requests => requests

/-- The file system after the attributes of `fujifilmPrinter` were cached at time
0 for the URI `ipp://printer/ipp/print`. -/
def fujifilmFileSystem : FileSystem cacheElement :=
  (SetPrinterAttributes identityCodec (some twoSecondCache) (FileSystem.empty cacheElement) 0
    none "ipp://printer/ipp/print" (some fujifilmPrinter)).2

/-! ## Loop lemmas -/

theorem spooledFormatLoop_eq_none {f : String} {l : List String} :
    spooledFormatLoop f l = none ↔ ∀ x ∈ l, trimSpace x ≠ f := by
  induction l with
  | nil => simp [spooledFormatLoop]
  | cons a l ih =>
    by_cases h : f = trimSpace a
    · simp [spooledFormatLoop, h]
    · have h' : trimSpace a ≠ f := fun e => h e.symm
      simp [spooledFormatLoop, h, h', ih]

theorem spooledFormatLoop_split {f : String} {l : List String}
    (h : ∃ x ∈ l, trimSpace x = f) :
    ∃ pre s post, l = pre ++ s :: post ∧ (∀ x ∈ pre, trimSpace x ≠ f) ∧
      trimSpace s = f ∧ spooledFormatLoop f l = some s := by
  induction l with
  | nil => simp at h
  | cons a l ih =>
    by_cases ha : f = trimSpace a
    · exact ⟨[], a, l, rfl, by simp, ha.symm, by simp [spooledFormatLoop, ha]⟩
    · have ha' : trimSpace a ≠ f := fun e => ha e.symm
      have h' : ∃ x ∈ l, trimSpace x = f := by
        obtain ⟨x, hx, hxf⟩ := h
        rcases List.mem_cons.1 hx with rfl | hx
        · exact absurd hxf ha'
        · exact ⟨x, hx, hxf⟩
      obtain ⟨pre, s, post, hl, hpre, hs, hloop⟩ := ih h'
      refine ⟨a :: pre, s, post, by simp [hl], ?_, hs, by simp [spooledFormatLoop, ha, hloop]⟩
      intro x hx
      rcases List.mem_cons.1 hx with rfl | hx
      · exact ha'
      · exact hpre x hx

theorem altInnerLoop_eq_true {s : String} {alts : List String} :
    altInnerLoop s alts = true ↔ ∃ n ∈ alts, trimSpace n = trimSpace s := by
  induction alts with
  | nil => simp [altInnerLoop]
  | cons a l ih =>
    by_cases h : trimSpace a = trimSpace s
    · simp [altInnerLoop, h]
    · simp [altInnerLoop, h, ih]

theorem altFormatLoop_eq_none {alts l : List String} :
    altFormatLoop alts l = none ↔ ∀ x ∈ l, ∀ n ∈ alts, trimSpace n ≠ trimSpace x := by
  induction l with
  | nil => simp [altFormatLoop]
  | cons a l ih =>
    by_cases h : altInnerLoop a alts = true
    · have h' := altInnerLoop_eq_true.1 h
      simp only [altFormatLoop, h, if_true, List.mem_cons, forall_eq_or_imp]
      constructor
      · intro e; cases e
      · rintro ⟨hx, -⟩
        obtain ⟨n, hn, e⟩ := h'
        exact absurd e (hx n hn)
    · have h' : ∀ n ∈ alts, trimSpace n ≠ trimSpace a := by
        intro n hn e
        exact h (altInnerLoop_eq_true.2 ⟨n, hn, e⟩)
      simp only [altFormatLoop, h, List.mem_cons, forall_eq_or_imp, ih]
      simp only [Bool.false_eq_true, if_false, ih]
      exact ⟨fun hl => ⟨h', hl⟩, fun hl => hl.2⟩

theorem altFormatLoop_split {alts l : List String}
    (h : ∃ x ∈ l, ∃ n ∈ alts, trimSpace n = trimSpace x) :
    ∃ pre s post, l = pre ++ s :: post ∧
      (∀ x ∈ pre, ∀ n ∈ alts, trimSpace n ≠ trimSpace x) ∧
      (∃ n ∈ alts, trimSpace n = trimSpace s) ∧ altFormatLoop alts l = some s := by
  induction l with
  | nil => simp at h
  | cons a l ih =>
    by_cases ha : altInnerLoop a alts = true
    · exact ⟨[], a, l, rfl, by simp, altInnerLoop_eq_true.1 ha, by simp [altFormatLoop, ha]⟩
    · have ha' : ∀ n ∈ alts, trimSpace n ≠ trimSpace a := by
        intro n hn e
        exact ha (altInnerLoop_eq_true.2 ⟨n, hn, e⟩)
      have h' : ∃ x ∈ l, ∃ n ∈ alts, trimSpace n = trimSpace x := by
        obtain ⟨x, hx, n, hn, e⟩ := h
        rcases List.mem_cons.1 hx with rfl | hx
        · exact absurd e (ha' n hn)
        · exact ⟨x, hx, n, hn, e⟩
      obtain ⟨pre, s, post, hl, hpre, hs, hloop⟩ := ih h'
      refine ⟨a :: pre, s, post, by simp [hl], ?_, hs, by simp [altFormatLoop, ha, hloop]⟩
      intro x hx
      rcases List.mem_cons.1 hx with rfl | hx
      · exact ha'
      · exact hpre x hx

/-- When no supported format matches the spooled format, `mapDocumentFormat`
is decided by the alternate search and the PDF fallback. -/
theorem mapDocumentFormat_of_no_primary {t : JobTicket} {p : PrinterAttributes}
    (hno : ∀ x ∈ p.DocumentFormatSupported, trimSpace x ≠ trimSpace t.DocumentFormat) :
    mapDocumentFormat t p =
      match altFormatLoop t.AltDocumentFormat p.DocumentFormatSupported with
      | some s => s
      | none => if trimSpace t.DocumentFormat = "application/pdf" then
          trimSpace t.DocumentFormat else "" := by
  have h1 := spooledFormatLoop_eq_none.2 hno
  unfold mapDocumentFormat
  simp only [h1]
  by_cases hlen : t.AltDocumentFormat.length > 0
  · simp only [hlen, if_true]
  · have hnil : t.AltDocumentFormat = [] := by
      cases hA : t.AltDocumentFormat with
      | nil => rfl
      | cons a l => simp [hA] at hlen
    have h2 : altFormatLoop [] p.DocumentFormatSupported = none :=
      altFormatLoop_eq_none.2 (by simp)
    simp [hnil, h2]

theorem mapDocumentFormat_primary_first_aux (t : JobTicket) (p : PrinterAttributes)
    (h : ∃ x ∈ p.DocumentFormatSupported, trimSpace x = trimSpace t.DocumentFormat) :
    ∃ pre s post, p.DocumentFormatSupported = pre ++ s :: post ∧
      (∀ x ∈ pre, trimSpace x ≠ trimSpace t.DocumentFormat) ∧
      trimSpace s = trimSpace t.DocumentFormat ∧
      mapDocumentFormat t p = s := by
  obtain ⟨pre, s, post, hl, hpre, hs, hloop⟩ := spooledFormatLoop_split h
  exact ⟨pre, s, post, hl, hpre, hs, by simp [mapDocumentFormat, hloop]⟩

/-! ## Document format selection -/

/-- C1: when some supported format trimmed-equals the trimmed ticket format,
`mapDocumentFormat` returns the first such entry of `DocumentFormatSupported`,
exactly as listed, whatever the alternate formats are. -/
theorem mapDocumentFormat_primary_first (t : JobTicket) (p : PrinterAttributes)
    (h : ∃ x ∈ p.DocumentFormatSupported, trimSpace x = trimSpace t.DocumentFormat) :
    ∃ pre s post, p.DocumentFormatSupported = pre ++ s :: post ∧
      (∀ x ∈ pre, trimSpace x ≠ trimSpace t.DocumentFormat) ∧
      trimSpace s = trimSpace t.DocumentFormat ∧
      mapDocumentFormat t p = s :=
  mapDocumentFormat_primary_first_aux t p h

theorem mapDocumentFormat_primary_first_witness :
    (∃ x ∈ ["application/octet-stream", " application/vnd.hp-PCL", "application/vnd.hp-PCL"],
        trimSpace x = trimSpace "application/vnd.hp-PCL") ∧
    ∃ pre s post,
      ["application/octet-stream", " application/vnd.hp-PCL", "application/vnd.hp-PCL"] =
        pre ++ s :: post ∧
      (∀ x ∈ pre, trimSpace x ≠ trimSpace "application/vnd.hp-PCL") ∧
      trimSpace s = trimSpace "application/vnd.hp-PCL" ∧
      mapDocumentFormat
        { DocumentFormat := "application/vnd.hp-PCL",
          AltDocumentFormat := ["application/octet-stream"] }
        { DocumentFormatSupported :=
            ["application/octet-stream", " application/vnd.hp-PCL", "application/vnd.hp-PCL"] }
        = s :=
  ⟨⟨" application/vnd.hp-PCL", by decide, by decide⟩,
   mapDocumentFormat_primary_first
    { DocumentFormat := "application/vnd.hp-PCL",
      AltDocumentFormat := ["application/octet-stream"] }
    { DocumentFormatSupported :=
        ["application/octet-stream", " application/vnd.hp-PCL", "application/vnd.hp-PCL"] }
    ⟨" application/vnd.hp-PCL", by decide, by decide⟩⟩

/-- C2: when no supported format matches the primary format and some supported
format trimmed-equals an alternate format, `mapDocumentFormat` returns the
first entry, in the printer's order, that trimmed-equals some alternate. -/
theorem mapDocumentFormat_alt_first (t : JobTicket) (p : PrinterAttributes)
    (hno : ∀ x ∈ p.DocumentFormatSupported, trimSpace x ≠ trimSpace t.DocumentFormat)
    (halt : ∃ x ∈ p.DocumentFormatSupported, ∃ n ∈ t.AltDocumentFormat,
      trimSpace n = trimSpace x) :
    ∃ pre s post, p.DocumentFormatSupported = pre ++ s :: post ∧
      (∀ x ∈ pre, ∀ n ∈ t.AltDocumentFormat, trimSpace n ≠ trimSpace x) ∧
      (∃ n ∈ t.AltDocumentFormat, trimSpace n = trimSpace s) ∧
      mapDocumentFormat t p = s := by
  obtain ⟨pre, s, post, hl, hpre, hs, hloop⟩ := altFormatLoop_split halt
  refine ⟨pre, s, post, hl, hpre, hs, ?_⟩
  rw [mapDocumentFormat_of_no_primary hno, hloop]

theorem mapDocumentFormat_alt_first_witness :
    (∀ x ∈ pclPrinter.DocumentFormatSupported,
        trimSpace x ≠ trimSpace pclxlTicket.DocumentFormat) ∧
    (∃ x ∈ pclPrinter.DocumentFormatSupported, ∃ n ∈ pclxlTicket.AltDocumentFormat,
        trimSpace n = trimSpace x) ∧
    ∃ pre s post, pclPrinter.DocumentFormatSupported = pre ++ s :: post ∧
      (∀ x ∈ pre, ∀ n ∈ pclxlTicket.AltDocumentFormat, trimSpace n ≠ trimSpace x) ∧
      (∃ n ∈ pclxlTicket.AltDocumentFormat, trimSpace n = trimSpace s) ∧
      mapDocumentFormat pclxlTicket pclPrinter = s :=
  ⟨by decide, by decide,
   mapDocumentFormat_alt_first pclxlTicket pclPrinter (by decide) (by decide)⟩

theorem altFormatLoop_eq_find (alts l : List String) :
    altFormatLoop alts l =
      l.find? fun s => alts.any fun n => decide (trimSpace n = trimSpace s) := by
  induction l with
  | nil => rfl
  | cons a l ih =>
    have hinner : altInnerLoop a alts =
        alts.any fun n => decide (trimSpace n = trimSpace a) := by
      rw [Bool.eq_iff_iff, altInnerLoop_eq_true]
      simp
    simp only [altFormatLoop, List.find?_cons, hinner, ih]
    cases alts.any fun n => decide (trimSpace n = trimSpace a) <;> simp

/-- C3 (as stated, refuted): with alternates `[pcl6, octet-stream]` and a printer
listing `[octet-stream, pcl6]`, the earliest supported alternate of the ticket is
`pcl6`, yet `mapDocumentFormat` returns `octet-stream`. -/
theorem mapDocumentFormat_not_ticket_order :
    (∀ x ∈ octetFirstPrinter.DocumentFormatSupported,
        trimSpace x ≠ trimSpace preferPcl6Ticket.DocumentFormat) ∧
    earliestSupportedAlt preferPcl6Ticket octetFirstPrinter = some "application/pcl6" ∧
    mapDocumentFormat preferPcl6Ticket octetFirstPrinter = "application/octet-stream" ∧
    trimSpace (mapDocumentFormat preferPcl6Ticket octetFirstPrinter) ≠
      trimSpace "application/pcl6" := by
  decide

/-- C3 (amended): when the primary format is unsupported and some alternate is
supported, `mapDocumentFormat` follows the printer's order: it returns the
earliest entry of `DocumentFormatSupported` that trimmed-equals some entry of
`AltDocumentFormat`, so the result trimmed-equals a supported alternate. -/
theorem mapDocumentFormat_alt_printer_order (t : JobTicket) (p : PrinterAttributes)
    (hno : ∀ x ∈ p.DocumentFormatSupported, trimSpace x ≠ trimSpace t.DocumentFormat)
    (halt : ∃ x ∈ p.DocumentFormatSupported, ∃ n ∈ t.AltDocumentFormat,
      trimSpace n = trimSpace x) :
    earliestAltSupported t p = some (mapDocumentFormat t p) ∧
    mapDocumentFormat t p ∈ p.DocumentFormatSupported ∧
    ∃ n ∈ t.AltDocumentFormat, trimSpace n = trimSpace (mapDocumentFormat t p) := by
  obtain ⟨pre, s, post, hl, -, hs, hloop⟩ := altFormatLoop_split halt
  have hres : mapDocumentFormat t p = s := by
    rw [mapDocumentFormat_of_no_primary hno, hloop]
  refine ⟨?_, ?_, ?_⟩
  · rw [hres, ← hloop, altFormatLoop_eq_find]; rfl
  · rw [hres, hl]; simp
  · rw [hres]; exact hs

theorem mapDocumentFormat_alt_printer_order_witness :
    (∀ x ∈ octetFirstPrinter.DocumentFormatSupported,
        trimSpace x ≠ trimSpace preferPcl6Ticket.DocumentFormat) ∧
    (∃ x ∈ octetFirstPrinter.DocumentFormatSupported,
        ∃ n ∈ preferPcl6Ticket.AltDocumentFormat, trimSpace n = trimSpace x) ∧
    earliestAltSupported preferPcl6Ticket octetFirstPrinter =
      some (mapDocumentFormat preferPcl6Ticket octetFirstPrinter) ∧
    mapDocumentFormat preferPcl6Ticket octetFirstPrinter ∈
      octetFirstPrinter.DocumentFormatSupported ∧
    ∃ n ∈ preferPcl6Ticket.AltDocumentFormat,
      trimSpace n = trimSpace (mapDocumentFormat preferPcl6Ticket octetFirstPrinter) :=
  ⟨by decide, by decide,
   mapDocumentFormat_alt_printer_order preferPcl6Ticket octetFirstPrinter
     (by decide) (by decide)⟩

/-- C4 (as stated, refuted): a ticket format `"application/pdf "` is not the
string `"application/pdf"` and matches nothing on a PostScript-only printer, yet
the result is neither empty nor the ticket's format; and a blank ticket format
matches an empty supported entry, yet the result is empty. -/
theorem mapDocumentFormat_empty_iff_fails :
    ((∀ x ∈ postscriptPrinter.DocumentFormatSupported,
        trimSpace x ≠ trimSpace paddedPdfTicket.DocumentFormat) ∧
      (∀ x ∈ postscriptPrinter.DocumentFormatSupported,
        ∀ n ∈ paddedPdfTicket.AltDocumentFormat, trimSpace n ≠ trimSpace x) ∧
      paddedPdfTicket.DocumentFormat ≠ "application/pdf" ∧
      mapDocumentFormat paddedPdfTicket postscriptPrinter = "application/pdf" ∧
      mapDocumentFormat paddedPdfTicket postscriptPrinter ≠ "" ∧
      mapDocumentFormat paddedPdfTicket postscriptPrinter ≠ paddedPdfTicket.DocumentFormat) ∧
    ((∃ x ∈ emptyFormatPrinter.DocumentFormatSupported,
        trimSpace x = trimSpace blankFormatTicket.DocumentFormat) ∧
      validate { blankFormatTicket with
        PrintColorMode := "color", Sides := "one-sided", PaperName := "A4",
        PaperWidthMM := 210, PaperHeightMM := 297 } = none ∧
      mapDocumentFormat blankFormatTicket emptyFormatPrinter = "") := by
  decide

/-- C4 (amended): `mapDocumentFormat` returns the empty string whenever no
supported format trimmed-equals the trimmed primary format, none trimmed-equals
an alternate, and the trimmed primary format is not `"application/pdf"`; for a
printer that lists no empty-string format these are the only empty results; with
no match and a trimmed primary format `"application/pdf"` it returns that
trimmed format; and `printJob` reports `ErrPrintDocFormatMismatch = 11` exactly
on the empty result. -/
theorem mapDocumentFormat_empty_iff (t : JobTicket) (p : PrinterAttributes) :
    ((∀ x ∈ p.DocumentFormatSupported, trimSpace x ≠ trimSpace t.DocumentFormat) ∧
      (∀ x ∈ p.DocumentFormatSupported, ∀ n ∈ t.AltDocumentFormat,
        trimSpace n ≠ trimSpace x) ∧
      trimSpace t.DocumentFormat ≠ "application/pdf" →
      mapDocumentFormat t p = "") ∧
    ("" ∉ p.DocumentFormatSupported →
      (mapDocumentFormat t p = "" ↔
        (∀ x ∈ p.DocumentFormatSupported, trimSpace x ≠ trimSpace t.DocumentFormat) ∧
        (∀ x ∈ p.DocumentFormatSupported, ∀ n ∈ t.AltDocumentFormat,
          trimSpace n ≠ trimSpace x) ∧
        trimSpace t.DocumentFormat ≠ "application/pdf")) ∧
    ((∀ x ∈ p.DocumentFormatSupported, trimSpace x ≠ trimSpace t.DocumentFormat) ∧
      (∀ x ∈ p.DocumentFormatSupported, ∀ n ∈ t.AltDocumentFormat,
        trimSpace n ≠ trimSpace x) ∧
      trimSpace t.DocumentFormat = "application/pdf" →
      mapDocumentFormat t p = trimSpace t.DocumentFormat ∧
      mapDocumentFormat t p = "application/pdf") ∧
    (printJobSelectDocFormat t p = Except.error 11 ↔ mapDocumentFormat t p = "") := by
  have hfallback : ∀ (hno : ∀ x ∈ p.DocumentFormatSupported,
        trimSpace x ≠ trimSpace t.DocumentFormat)
      (_ : ∀ x ∈ p.DocumentFormatSupported, ∀ n ∈ t.AltDocumentFormat,
        trimSpace n ≠ trimSpace x),
      mapDocumentFormat t p =
        if trimSpace t.DocumentFormat = "application/pdf" then
          trimSpace t.DocumentFormat else "" := by
    intro hno hnoalt
    rw [mapDocumentFormat_of_no_primary hno, altFormatLoop_eq_none.2 hnoalt]
  have hempty : (∀ x ∈ p.DocumentFormatSupported,
        trimSpace x ≠ trimSpace t.DocumentFormat) ∧
      (∀ x ∈ p.DocumentFormatSupported, ∀ n ∈ t.AltDocumentFormat,
        trimSpace n ≠ trimSpace x) ∧
      trimSpace t.DocumentFormat ≠ "application/pdf" →
      mapDocumentFormat t p = "" := by
    rintro ⟨hno, hnoalt, hpdf⟩
    rw [hfallback hno hnoalt, if_neg hpdf]
  refine ⟨hempty, fun hne => ⟨fun hres => ?_, hempty⟩, ?_, ?_⟩
  · have hno : ∀ x ∈ p.DocumentFormatSupported,
        trimSpace x ≠ trimSpace t.DocumentFormat := by
      by_contra hex
      push_neg at hex
      obtain ⟨pre, s, post, hl, -, -, hr⟩ := mapDocumentFormat_primary_first_aux t p hex
      apply hne
      rw [hl, ← hres, hr]; simp
    have hnoalt : ∀ x ∈ p.DocumentFormatSupported, ∀ n ∈ t.AltDocumentFormat,
        trimSpace n ≠ trimSpace x := by
      by_contra hex
      push_neg at hex
      obtain ⟨pre, s, post, hl, -, -, hloop⟩ := altFormatLoop_split hex
      apply hne
      have hr : mapDocumentFormat t p = s := by
        rw [mapDocumentFormat_of_no_primary hno, hloop]
      rw [hl, ← hres, hr]; simp
    refine ⟨hno, hnoalt, fun hpdf => ?_⟩
    rw [hfallback hno hnoalt, if_pos hpdf, hpdf] at hres
    exact absurd hres (by decide)
  · rintro ⟨hno, hnoalt, hpdf⟩
    rw [hfallback hno hnoalt, if_pos hpdf]
    exact ⟨rfl, hpdf⟩
  · unfold printJobSelectDocFormat
    by_cases h : mapDocumentFormat t p = ""
    · simp [h, ErrPrintDocFormatMismatch]
    · simp [h]

theorem mapDocumentFormat_empty_iff_witness :
    "" ∉ postscriptPrinter.DocumentFormatSupported ∧
    mapDocumentFormat mismatchTicket postscriptPrinter = "" ∧
    printJobSelectDocFormat mismatchTicket postscriptPrinter = Except.error 11 :=
  have h := mapDocumentFormat_empty_iff mismatchTicket postscriptPrinter
  have hres : mapDocumentFormat mismatchTicket postscriptPrinter = "" :=
    (h.2.1 (by decide)).2 ⟨by decide, by decide, by decide⟩
  ⟨by decide, hres, h.2.2.2.2 hres⟩

/-! ## Ticket validation -/

theorem GetPrintJobAttributes_of_valid {t : JobTicket} (path : String)
    (h : validate t = none) : GetPrintJobAttributes path (Except.ok t) = Except.ok t := by
  simp only [GetPrintJobAttributes, h]

theorem GetPrintJobAttributes_of_invalid {t : JobTicket} {err : String} (path : String)
    (h : validate t = some err) :
    GetPrintJobAttributes path (Except.ok t) =
      Except.error ("invalid job ticket: " ++ err) := by
  simp only [GetPrintJobAttributes, h]

/-- C5: `validate` returns an error whenever `Copies < 1`, or the colour mode,
sides, paper name or document format is empty, or a paper dimension is zero;
`GetPrintJobAttributes` then fails too. -/
theorem validate_rejects (t : JobTicket)
    (h : t.Copies < 1 ∨ t.PrintColorMode = "" ∨ t.Sides = "" ∨ t.PaperName = "" ∨
      t.PaperWidthMM = 0 ∨ t.PaperHeightMM = 0 ∨ t.DocumentFormat = "") :
    (∃ err, validate t = some err) ∧
    ∀ path, ∃ err, GetPrintJobAttributes path (Except.ok t) = Except.error err := by
  have hv : ∃ err, validate t = some err := by
    unfold validate
    by_cases h1 : t.PrintColorMode = ""
    · exact ⟨_, if_pos h1⟩
    · by_cases h2 : t.Sides = ""
      · exact ⟨_, by rw [if_neg h1, if_pos h2]⟩
      · by_cases h3 : t.Copies < 1
        · exact ⟨_, by rw [if_neg h1, if_neg h2, if_pos h3]⟩
        · by_cases h4 : t.PaperName = "" ∨ t.PaperHeightMM = 0 ∨ t.PaperWidthMM = 0
          · exact ⟨_, by rw [if_neg h1, if_neg h2, if_neg h3, if_pos h4]⟩
          · by_cases h5 : t.DocumentFormat = ""
            · exact ⟨_, by rw [if_neg h1, if_neg h2, if_neg h3, if_neg h4, if_pos h5]⟩
            · exfalso
              rcases h with h | h | h | h | h | h | h
              · exact h3 h
              · exact h1 h
              · exact h2 h
              · exact h4 (Or.inl h)
              · exact h4 (Or.inr (Or.inr h))
              · exact h4 (Or.inr (Or.inl h))
              · exact h5 h
  refine ⟨hv, fun path => ?_⟩
  obtain ⟨err, herr⟩ := hv
  exact ⟨_, GetPrintJobAttributes_of_invalid path herr⟩

theorem validate_rejects_witness :
    zeroCopiesTicket.Copies < 1 ∧ (∃ err, validate zeroCopiesTicket = some err) ∧
    ∀ path, ∃ err,
      GetPrintJobAttributes path (Except.ok zeroCopiesTicket) = Except.error err :=
  ⟨by decide, validate_rejects zeroCopiesTicket (Or.inl (by decide))⟩

/-- C6 (as stated, refuted): a ticket whose orientation is `"upside-down"`,
neither empty nor portrait nor landscape, is accepted by `validate` and returned
by `GetPrintJobAttributes`. -/
theorem validate_accepts_other_orientation :
    upsideDownTicket.OptionalPDLOverrides.Orientation ≠ "" ∧
    upsideDownTicket.OptionalPDLOverrides.Orientation ≠ OrientationPortrait ∧
    upsideDownTicket.OptionalPDLOverrides.Orientation ≠ OrientationLandscape ∧
    validate upsideDownTicket = none ∧
    GetPrintJobAttributes "ticket.json" (Except.ok upsideDownTicket) =
      Except.ok upsideDownTicket :=
  ⟨by decide, by decide, by decide, by decide,
   GetPrintJobAttributes_of_valid "ticket.json" (by decide)⟩

/-- C6 (amended): `validate` does not look at the orientation override: a ticket
is accepted or rejected, with the same error, whatever its
`OptionalPDLOverrides` are, and `GetPrintJobAttributes` returns exactly the
tickets that `validate` accepts. -/
theorem validate_ignores_orientation (t : JobTicket) (o : PDLOverrides) :
    validate { t with OptionalPDLOverrides := o } = validate t ∧
    ∀ path, (GetPrintJobAttributes path (Except.ok { t with OptionalPDLOverrides := o }) =
        Except.ok { t with OptionalPDLOverrides := o } ↔ validate t = none) := by
  have hv : validate { t with OptionalPDLOverrides := o } = validate t := rfl
  refine ⟨hv, fun path => ?_⟩
  cases hval : validate t with
  | none =>
    exact ⟨fun _ => rfl, fun _ => GetPrintJobAttributes_of_valid path (hv.trans hval)⟩
  | some err =>
    rw [GetPrintJobAttributes_of_invalid path (hv.trans hval)]
    exact ⟨fun h => (by cases h), fun h => (by cases h)⟩

/-! ## Printer readiness -/

theorem startsWith_iff (s sub : List Char) :
    startsWith s sub = true ↔ ∃ after, s = sub ++ after := by
  induction s generalizing sub with
  | nil =>
    cases sub with
    | nil => simp [startsWith]
    | cons d sub => simp [startsWith]
  | cons c s ih =>
    cases sub with
    | nil => simp [startsWith]
    | cons d sub =>
      simp only [startsWith, Bool.and_eq_true, beq_iff_eq, ih, List.cons_append,
        List.cons.injEq]
      constructor
      · rintro ⟨rfl, after, rfl⟩
        exact ⟨after, rfl, rfl⟩
      · rintro ⟨after, rfl, rfl⟩
        exact ⟨rfl, after, rfl⟩

theorem containsChars_iff (s sub : List Char) :
    containsChars s sub = true ↔ ∃ before after, s = before ++ sub ++ after := by
  induction s with
  | nil =>
    rw [containsChars, startsWith_iff]
    constructor
    · rintro ⟨after, h⟩
      exact ⟨[], after, by simpa using h⟩
    · rintro ⟨before, after, h⟩
      have h' := congrArg List.length h
      simp only [List.length_nil, List.length_append] at h'
      have hb : before = [] := List.length_eq_zero.1 (by omega)
      have ha : after = [] := List.length_eq_zero.1 (by omega)
      subst hb; subst ha
      exact ⟨[], by simpa using h⟩
  | cons c s ih =>
    rw [containsChars, Bool.or_eq_true, startsWith_iff, ih]
    constructor
    · rintro (⟨after, h⟩ | ⟨before, after, h⟩)
      · exact ⟨[], after, by simpa using h⟩
      · exact ⟨c :: before, after, by simp [h]⟩
    · rintro ⟨before, after, h⟩
      cases before with
      | nil => exact Or.inl ⟨after, by simpa using h⟩
      | cons b before =>
        simp only [List.cons_append, List.cons.injEq] at h
        exact Or.inr ⟨before, after, h.2⟩

theorem stringsContains_iff (s sub : String) :
    stringsContains s sub = true ↔ IsSubstring sub s := by
  unfold stringsContains IsSubstring
  exact containsChars_iff s.data sub.data

theorem isSpoolAreaFull_iff (reasons : List String) :
    isSpoolAreaFull reasons = true ↔ ∃ r ∈ reasons, IsSubstring "spool-area-full" r := by
  induction reasons with
  | nil => simp [isSpoolAreaFull]
  | cons a l ih =>
    have hstep : isSpoolAreaFull (a :: l) =
        (stringsContains a "spool-area-full" || isSpoolAreaFull l) := by
      simp only [isSpoolAreaFull]
      cases stringsContains a "spool-area-full" <;> simp
    rw [hstep, Bool.or_eq_true, stringsContains_iff, ih]
    constructor
    · rintro (h | ⟨r, hr, e⟩)
      · exact ⟨a, List.mem_cons_self a l, h⟩
      · exact ⟨r, List.mem_cons_of_mem a hr, e⟩
    · rintro ⟨r, hr, e⟩
      rcases List.mem_cons.1 hr with hra | hr
      · exact Or.inl (hra ▸ e)
      · exact Or.inr ⟨r, hr, e⟩

/-- C7: `isPrinterReady` reports ready exactly when the printer is accepting
jobs and no state reason contains `"spool-area-full"` as a substring; a reason
such as `"spool-area-full-report"`, not equal to it, already makes the printer
not ready. -/
theorem isPrinterReady_iff (p : PrinterAttributes) :
    ((isPrinterReady p).1 = true ↔
      p.PrinterIsAcceptingJobs = true ∧
      ∀ r ∈ p.PrinterStateReasons, ¬ IsSubstring "spool-area-full" r) ∧
    (isPrinterReady { p with
        PrinterIsAcceptingJobs := true,
        PrinterStateReasons := ["spool-area-full-report"] }).1 = false := by
  constructor
  · unfold isPrinterReady
    cases hacc : p.PrinterIsAcceptingJobs with
    | false => simp
    | true =>
      cases hfull : isSpoolAreaFull p.PrinterStateReasons with
      | false =>
        have h := (isSpoolAreaFull_iff p.PrinterStateReasons).not.1 (by simp [hfull])
        push_neg at h
        simpa using h
      | true =>
        obtain ⟨r, hr, e⟩ := (isSpoolAreaFull_iff p.PrinterStateReasons).1 hfull
        simp only [Bool.not_true, Bool.false_eq_true, if_false, if_true, true_and, false_iff]
        exact fun hall => hall r hr e
  · rfl

/-! ## Supported operations -/

theorem operationFound_iff (op : Int) (supported : List Int) :
    operationFound op supported = true ↔ op ∈ supported := by
  induction supported with
  | nil => simp [operationFound]
  | cons k l ih =>
    by_cases h : k = op
    · simp [operationFound, h]
    · have h' : ¬ op = k := fun e => h e.symm
      simp [operationFound, h, h', ih]

theorem requiredOpsLoop_iff (supported req : List Int) :
    requiredOpsLoop supported req = true ↔ ∀ op ∈ req, op ∈ supported := by
  induction req with
  | nil => simp [requiredOpsLoop]
  | cons op l ih =>
    by_cases h : operationFound op supported = true
    · have h' := (operationFound_iff op supported).1 h
      simp [requiredOpsLoop, h, h', ih]
    · have h' : op ∉ supported := fun e => h ((operationFound_iff op supported).2 e)
      simp [requiredOpsLoop, h, h']

/-- C8: `operationsSupported` is true exactly when the required list is
non-empty and each required operation code occurs in `OperationsSupported`; for
the required operations Create-Job (5) and Send-Document (6) it is true exactly
when the printer lists both, and it is false for a nil `OperationsSupported`. -/
theorem operationsSupported_iff (p : PrinterAttributes) (requiredOps : List Int) :
    (operationsSupported p requiredOps = true ↔
      requiredOps ≠ [] ∧ ∀ op ∈ requiredOps, op ∈ p.OperationsSupported) ∧
    preferredJobOperations = [5, 6] ∧
    (operationsSupported p preferredJobOperations = true ↔
      5 ∈ p.OperationsSupported ∧ 6 ∈ p.OperationsSupported) ∧
    operationsSupported { p with OperationsSupported := [] } preferredJobOperations = false := by
  have hgen : ∀ (q : PrinterAttributes) (req : List Int),
      operationsSupported q req = true ↔
        req ≠ [] ∧ ∀ op ∈ req, op ∈ q.OperationsSupported := by
    intro q req
    unfold operationsSupported
    cases req with
    | nil => simp
    | cons a l => simp [requiredOpsLoop_iff]
  refine ⟨hgen p requiredOps, rfl, ?_, ?_⟩
  · rw [hgen]
    simp [preferredJobOperations, OperationCreateJob, OperationSendDocument]
  · rfl

/-! ## Finishings -/

/-- C9: with pairwise different stapling constants,
`evaluateFinishingsForLandscape` maps top-left to bottom-left, bottom-left to
bottom-right, top-right to top-left, bottom-right to top-right, and returns
every other value unchanged. -/
theorem evaluateFinishingsForLandscape_spec (c : StapleEnums) (hc : c.Distinct) :
    evaluateFinishingsForLandscape c c.FinishingsStapleTopLeft =
      c.FinishingsStapleBottomLeft ∧
    evaluateFinishingsForLandscape c c.FinishingsStapleBottomLeft =
      c.FinishingsStapleBottomRight ∧
    evaluateFinishingsForLandscape c c.FinishingsStapleTopRight =
      c.FinishingsStapleTopLeft ∧
    evaluateFinishingsForLandscape c c.FinishingsStapleBottomRight =
      c.FinishingsStapleTopRight ∧
    ∀ enum : Int, enum ≠ c.FinishingsStapleTopLeft → enum ≠ c.FinishingsStapleBottomLeft →
      enum ≠ c.FinishingsStapleTopRight → enum ≠ c.FinishingsStapleBottomRight →
      evaluateFinishingsForLandscape c enum = enum := by
  obtain ⟨h12, h13, h14, h23, h24, h34⟩ := hc
  refine ⟨?_, ?_, ?_, ?_, ?_⟩
  · simp [evaluateFinishingsForLandscape]
  · simp [evaluateFinishingsForLandscape, h12.symm]
  · simp [evaluateFinishingsForLandscape, h13.symm, h23.symm]
  · simp [evaluateFinishingsForLandscape, h14.symm, h24.symm, h34.symm]
  · intro enum e1 e2 e3 e4
    simp [evaluateFinishingsForLandscape, e1, e2, e3, e4]

theorem evaluateFinishingsForLandscape_spec_witness :
    ippStapleEnums.Distinct ∧
    evaluateFinishingsForLandscape ippStapleEnums 20 = 21 ∧
    evaluateFinishingsForLandscape ippStapleEnums 21 = 23 ∧
    evaluateFinishingsForLandscape ippStapleEnums 22 = 20 ∧
    evaluateFinishingsForLandscape ippStapleEnums 23 = 22 ∧
    ∀ enum : Int, enum ≠ 20 → enum ≠ 21 → enum ≠ 22 → enum ≠ 23 →
      evaluateFinishingsForLandscape ippStapleEnums enum = enum :=
  ⟨by decide, evaluateFinishingsForLandscape_spec ippStapleEnums (by decide)⟩

theorem supportedFinishingMap_foldl (l : List Int) (m : Int → Bool) (k : Int) :
    l.foldl (fun m supportedFinishing => fun k =>
        if k = supportedFinishing then true else m k) m k = true ↔
      k ∈ l ∨ m k = true := by
  induction l generalizing m with
  | nil => simp
  | cons a l ih =>
    rw [List.foldl_cons, ih]
    by_cases h : k = a
    · simp [h]
    · simp [h]

theorem supportedFinishingMap_iff (finishingsSupported : List Int) (k : Int) :
    supportedFinishingMap finishingsSupported k = true ↔ k ∈ finishingsSupported := by
  unfold supportedFinishingMap
  rw [supportedFinishingMap_foldl]
  simp

/-- C10: `getSupportedFinishingsEnum` returns `(r, true)` when the requested
value `r` is supported; otherwise `(g, true)` when the generic table maps `r`
to a supported `g`; otherwise `(0, false)`. The directly supported value wins
over the generic fallback. -/
theorem getSupportedFinishingsEnum_spec (genericFinishings : Int → Option Int)
    (r : Int) (S : List Int) :
    getSupportedFinishingsEnum genericFinishings r S =
      if r ∈ S then (r, true)
      else match genericFinishings r with
        | some g => if g ∈ S then (g, true) else (0, false)
        | none => (0, false) := by
  unfold getSupportedFinishingsEnum
  by_cases hr : r ∈ S
  · have h := (supportedFinishingMap_iff S r).2 hr
    simp only [h, if_true, hr]
  · have h : ¬ supportedFinishingMap S r = true :=
      fun e => hr ((supportedFinishingMap_iff S r).1 e)
    simp only [h, if_false, hr]
    cases hg : genericFinishings r with
    | none => rfl
    | some g =>
      by_cases hgS : g ∈ S
      · have h2 := (supportedFinishingMap_iff S g).2 hgS
        simp [h2, hgS]
      · have h2 : ¬ supportedFinishingMap S g = true :=
          fun e => hgS ((supportedFinishingMap_iff S g).1 e)
        simp [h2, hgS]


/-! ## `mapFinishings` -/

theorem mapFinishingsLoop_eq (tbl : String → Option Int) (c : StapleEnums)
    (g : Int → Option Int) (t : JobTicket) (p : PrinterAttributes)
    (names : List String) (acc : List Int) :
    mapFinishingsLoop tbl c g t.OptionalPDLOverrides.Orientation p.FinishingsSupported
        names acc =
      acc ++ names.filterMap (finishingContribution tbl c g t p) := by
  induction names generalizing acc with
  | nil => simp [mapFinishingsLoop]
  | cons name rest ih =>
    unfold mapFinishingsLoop
    cases htbl : tbl name with
    | none =>
      have hc : finishingContribution tbl c g t p name = none := by
        simp [finishingContribution, htbl]
      simp only [ih, List.filterMap_cons, hc]
    | some enum =>
      simp only []
      cases hr : getSupportedFinishingsEnum g
          (if t.OptionalPDLOverrides.Orientation = OrientationLandscape then
            evaluateFinishingsForLandscape c enum else enum) p.FinishingsSupported with
      | mk v ok =>
        have hr' : getSupportedFinishingsEnum g
            (if t.OptionalPDLOverrides.Orientation = "landscape" then
              evaluateFinishingsForLandscape c enum else enum) p.FinishingsSupported =
            (v, ok) := hr
        cases ok with
        | true =>
          have hc : finishingContribution tbl c g t p name = some v := by
            simp [finishingContribution, htbl, hr']
          simp only [ih, List.filterMap_cons, hc, List.append_assoc, List.singleton_append]
        | false =>
          have hc : finishingContribution tbl c g t p name = none := by
            simp [finishingContribution, htbl, hr']
          simp only [ih, List.filterMap_cons, hc]

theorem getSupportedFinishingsEnum_mem (g : Int → Option Int) (r v : Int) (S : List Int)
    (h : getSupportedFinishingsEnum g r S = (v, true)) : v ∈ S := by
  unfold getSupportedFinishingsEnum at h
  by_cases hr : supportedFinishingMap S r = true
  · simp [hr] at h
    exact h ▸ (supportedFinishingMap_iff S r).1 hr
  · cases hg : g r with
    | none => simp [hr, hg] at h
    | some gv =>
      by_cases hgv : supportedFinishingMap S gv = true
      · simp [hr, hg, hgv] at h
        exact h ▸ (supportedFinishingMap_iff S gv).1 hgv
      · simp [hr, hg, hgv] at h

/-- C11: `mapFinishings` returns, in the order of the ticket's `Finishings`, one
value for each name that is in the name-to-enum table and whose enum, rotated by
`evaluateFinishingsForLandscape` exactly for a landscape ticket, is accepted by
`getSupportedFinishingsEnum`; other names contribute nothing, every returned
value is in the printer's `FinishingsSupported`, and the result is no longer
than the ticket's list. A landscape top-left staple on a printer with
bottom-left and generic staple gives bottom-left. -/
theorem mapFinishings_spec (tbl : String → Option Int) (c : StapleEnums)
    (g : Int → Option Int) (t : JobTicket) (p : PrinterAttributes) :
    mapFinishings tbl c g t p = t.Finishings.filterMap (finishingContribution tbl c g t p) ∧
    (∀ v ∈ mapFinishings tbl c g t p, v ∈ p.FinishingsSupported) ∧
    (mapFinishings tbl c g t p).length ≤ t.Finishings.length ∧
    mapFinishings sampleFinishingsStringToEnumMap ippStapleEnums sampleGenericFinishings
      landscapeStapleTicket bottomLeftStaplePrinter = [21] := by
  have heq : mapFinishings tbl c g t p =
      t.Finishings.filterMap (finishingContribution tbl c g t p) := by
    unfold mapFinishings
    rw [mapFinishingsLoop_eq]
    simp
  refine ⟨heq, ?_, ?_, by decide⟩
  · intro v hv
    rw [heq, List.mem_filterMap] at hv
    obtain ⟨name, -, hname⟩ := hv
    unfold finishingContribution at hname
    cases htbl : tbl name with
    | none => simp [htbl] at hname
    | some enum =>
      simp only [htbl] at hname
      generalize (if t.OptionalPDLOverrides.Orientation = "landscape" then
        evaluateFinishingsForLandscape c enum else enum) = req at hname
      by_cases hok : (getSupportedFinishingsEnum g req p.FinishingsSupported).2 = true
      · simp only [hok, if_true, Option.some.injEq] at hname
        exact getSupportedFinishingsEnum_mem g req v p.FinishingsSupported
          (Prod.ext hname hok)
      · simp [hok] at hname
  · rw [heq]
    exact List.length_filterMap_le _ _

/-! ## Monitor delay -/

theorem monitorDelay_afterCalls_five :
    fibonnacciDelay.afterCalls 5 monitorDelay =
      { lastValues := [3 * Second, 5 * Second], maxDelay := 5 * Second } := by
  decide

theorem monitorDelay_capped_step :
    ({ lastValues := [3 * Second, 5 * Second], maxDelay := 5 * Second } :
        fibonnacciDelay).nextDelay =
      ({ lastValues := [3 * Second, 5 * Second], maxDelay := 5 * Second }, 5 * Second) := by
  decide

theorem monitorDelay_afterCalls_ge_five (k : Nat) :
    fibonnacciDelay.afterCalls (5 + k) monitorDelay =
      { lastValues := [3 * Second, 5 * Second], maxDelay := 5 * Second } := by
  induction k with
  | zero => exact monitorDelay_afterCalls_five
  | succ k ih =>
    show (fibonnacciDelay.afterCalls (5 + k) monitorDelay).nextDelay.1 = _
    rw [ih, monitorDelay_capped_step]

/-- C17: from the delay state that the monitor constructs (cap 5 s), the calls
of `nextDelay` return 1 s, 1 s, 2 s, 3 s, 5 s and then 5 s for every later call;
from the sixth call on the stored pair of last values stays `[3 s, 5 s]`. -/
theorem nextDelay_sequence :
    fibonnacciDelay.nthDelay 1 monitorDelay = 1 * Second ∧
    fibonnacciDelay.nthDelay 2 monitorDelay = 1 * Second ∧
    fibonnacciDelay.nthDelay 3 monitorDelay = 2 * Second ∧
    fibonnacciDelay.nthDelay 4 monitorDelay = 3 * Second ∧
    fibonnacciDelay.nthDelay 5 monitorDelay = 5 * Second ∧
    ∀ n : Nat, 6 ≤ n →
      fibonnacciDelay.nthDelay n monitorDelay = 5 * Second ∧
      fibonnacciDelay.nthDelay n monitorDelay = monitorDelay.maxDelay ∧
      (fibonnacciDelay.afterCalls n monitorDelay).lastValues =
        (fibonnacciDelay.afterCalls (n - 1) monitorDelay).lastValues ∧
      (fibonnacciDelay.afterCalls n monitorDelay).lastValues = [3 * Second, 5 * Second] := by
  refine ⟨by decide, by decide, by decide, by decide, by decide, ?_⟩
  intro n hn
  obtain ⟨k, rfl⟩ : ∃ k, n = 5 + (k + 1) := ⟨n - 6, by omega⟩
  have hprev : 5 + (k + 1) - 1 = 5 + k := by omega
  have hd : fibonnacciDelay.nthDelay (5 + (k + 1)) monitorDelay = 5 * Second := by
    unfold fibonnacciDelay.nthDelay
    rw [hprev, monitorDelay_afterCalls_ge_five, monitorDelay_capped_step]
  refine ⟨hd, hd, ?_, ?_⟩
  · rw [hprev, monitorDelay_afterCalls_ge_five, monitorDelay_afterCalls_ge_five]
  · rw [monitorDelay_afterCalls_ge_five]

/-! ## Temporary errors -/

/-- C18 (as stated, refuted): an error whose wrapped cause has a `Temporary()`
method reporting false is not temporary although its retry flag is set. -/
theorem Temporary_ignores_retry_flag :
    retryFlaggedPermanentError.retry = true ∧
    ippJobOpError.Temporary Platform.unix retryFlaggedPermanentError = false ∧
    ippJobOpError.Temporary Platform.windows retryFlaggedPermanentError = false := by
  decide

/-- C18 (amended): `Temporary()` is true exactly when the wrapped error is
ECONNRESET or ECONNABORTED (on Windows also WSAECONNRESET or WSAECONNABORTED),
or the wrapped error has a `Temporary()` method that reports true, or the
wrapped error has no `Temporary()` method and the retry flag is set. -/
theorem Temporary_iff (os : Platform) (e : ippJobOpError) :
    (ippJobOpError.Temporary os e = true ↔
      isTemporarySyscallErr os e.error = true ∨
      e.error.temporaryMethod = some true ∨
      (e.error.temporaryMethod = none ∧ e.retry = true)) ∧
    (isTemporarySyscallErr Platform.unix e.error = true ↔
      e.error.isECONNRESET = true ∨ e.error.isECONNABORTED = true) ∧
    (isTemporarySyscallErr Platform.windows e.error = true ↔
      e.error.isECONNRESET = true ∨ e.error.isECONNABORTED = true ∨
      e.error.isWSAECONNRESET = true ∨ e.error.isWSAECONNABORTED = true) := by
  refine ⟨?_, ?_, ?_⟩
  · unfold ippJobOpError.Temporary
    cases hs : isTemporarySyscallErr os e.error with
    | true => simp
    | false =>
      cases hm : e.error.temporaryMethod with
      | none => cases hr : e.retry <;> simp
      | some b => cases b <;> simp
  · simp [isTemporarySyscallErr]
  · simp [isTemporarySyscallErr, or_assoc]

/-! ## Printer attribute cache -/

theorem cacheFilePath_ne_empty (dir uri : String) : cacheFilePath dir uri ≠ "" := by
  intro h
  have hlen := congrArg String.length h
  simp only [cacheFilePath, String.length_append] at hlen
  have h1 : "/".length = 1 := by decide
  have h0 : "".length = 0 := by decide
  omega

theorem GetPrinterAttributes_of_info {β : Type} (codec : JsonCodec β)
    (c : PrinterAttributeCache) (fs : FileSystem β) (now : Int) (uri : String) (m : Int)
    (hdir : c.cacheDir ≠ "") (huri : uri ≠ "")
    (hstat : fs.stat (cacheFilePath c.cacheDir uri) = StatResult.info m) :
    GetPrinterAttributes codec (some c) fs now uri =
      if now > m + c.cacheExpiry then (none, some CacheError.ErrCacheExpired)
      else
        match readPrinterAttributesFromFile codec fs (cacheFilePath c.cacheDir uri) with
        | Except.error err =>
          (none, some (CacheError.other
            ("getPrinterAttributes: failed to read file " ++ cacheFilePath c.cacheDir uri ++
              ", " ++ err)))
        | Except.ok cacheElem =>
          if cacheElem.PrinterUri ≠ uri then
            (none, some (CacheError.other
              ("getPrinterAttributes: cache element URI mispatch in=" ++ uri ++
                ", element uri=" ++ cacheElem.PrinterUri)))
          else (some cacheElem.IppAttributes, none) := by
  unfold GetPrinterAttributes
  simp only [hdir, huri, if_false, cacheFilePath_ne_empty, hstat, isExpired]
  by_cases hnow : now > m + c.cacheExpiry
  · simp only [hnow, if_true]
  · simp only [hnow, if_false]

theorem set_then_get_aux {β : Type} (codec : JsonCodec β) (c : PrinterAttributeCache)
    (fs : FileSystem β) (tw tg : Int) (writeErr : Option String) (u : String)
    (a : PrinterAttributes)
    (hdir : c.cacheDir ≠ "") (hu : u ≠ "")
    (hcodec : ∀ b, codec.marshal { PrinterUri := u, IppAttributes := a } = Except.ok b →
      codec.unmarshal b = Except.ok { PrinterUri := u, IppAttributes := a })
    (hset : (SetPrinterAttributes codec (some c) fs tw writeErr u (some a)).1 = none)
    (hfresh : ¬ tg > tw + c.cacheExpiry) :
    GetPrinterAttributes codec (some c)
        (SetPrinterAttributes codec (some c) fs tw writeErr u (some a)).2 tg u =
      (some a, none) := by
  have hpath := cacheFilePath_ne_empty c.cacheDir u
  unfold SetPrinterAttributes at hset ⊢
  simp only [hdir, hu, if_false, hpath, writePrinterAttributesToFile] at hset ⊢
  cases hm : codec.marshal { PrinterUri := u, IppAttributes := a } with
  | error err => simp [hm] at hset
  | ok b =>
    cases hw : writeErr with
    | some err => simp [hm, hw] at hset
    | none =>
      simp only [hm, hw]
      rw [GetPrinterAttributes_of_info codec c _ tg u tw hdir hu (by simp [FileSystem.writeFile])]
      simp only [hfresh, if_false, readPrinterAttributesFromFile, FileSystem.writeFile,
        if_true, hcodec b hm]
      simp

/-- C20 (as stated, refuted): an entry written at time 0 into a cache of two
seconds is not reported expired at time exactly two seconds, by `isExpired` or by
`GetPrinterAttributes`, which then returns it. -/
theorem isExpired_boundary_not_expired :
    isExpired (some twoSecondCache) (StatResult.info 0) (0 + twoSecondCache.cacheExpiry) =
      (false, none) ∧
    GetPrinterAttributes identityCodec (some twoSecondCache)
        (SetPrinterAttributes identityCodec (some twoSecondCache)
          (FileSystem.empty cacheElement) 0 none "ipps://10.50.20.54:631/ipp/print"
          (some readyPrinter)).2 (0 + twoSecondCache.cacheExpiry)
        "ipps://10.50.20.54:631/ipp/print" =
      (some readyPrinter, none) := by
  refine ⟨by decide, ?_⟩
  exact set_then_get_aux identityCodec twoSecondCache (FileSystem.empty cacheElement) 0
    (0 + twoSecondCache.cacheExpiry) none "ipps://10.50.20.54:631/ipp/print" readyPrinter
    (by decide) (by decide) (fun b hb => by cases hb; rfl) rfl (by decide)

/-- C20 (amended): for an existing entry with modification time `m` and a cache
with expiry `e`, `isExpired` reports the entry expired exactly when
`now > m + e`, and `GetPrinterAttributes` then returns `ErrCacheExpired`; an
entry whose age equals the expiry is not expired. -/
theorem isExpired_iff {β : Type} (codec : JsonCodec β) (c : PrinterAttributeCache)
    (fs : FileSystem β) (now m : Int) (uri : String) :
    isExpired (some c) (StatResult.info m) now = (decide (now > m + c.cacheExpiry), none) ∧
    ((isExpired (some c) (StatResult.info m) now).1 = true ↔ now > m + c.cacheExpiry) ∧
    isExpired (some c) (StatResult.info m) (m + c.cacheExpiry) = (false, none) ∧
    (c.cacheDir ≠ "" → uri ≠ "" →
      fs.stat (cacheFilePath c.cacheDir uri) = StatResult.info m →
      (GetPrinterAttributes codec (some c) fs now uri = (none, some CacheError.ErrCacheExpired) ↔
        now > m + c.cacheExpiry)) := by
  have h1 : isExpired (some c) (StatResult.info m) now =
      (decide (now > m + c.cacheExpiry), none) := by
    unfold isExpired
    by_cases h : now > m + c.cacheExpiry <;> simp [h]
  refine ⟨h1, by rw [h1]; simp, by simp [isExpired], ?_⟩
  intro hdir huri hstat
  rw [GetPrinterAttributes_of_info codec c fs now uri m hdir huri hstat]
  by_cases h : now > m + c.cacheExpiry
  · simp [h]
  · simp only [h, if_false, iff_false]
    cases readPrinterAttributesFromFile codec fs (cacheFilePath c.cacheDir uri) with
    | error err => simp
    | ok e =>
      by_cases hu : e.PrinterUri ≠ uri
      · simp [hu]
      · simp [hu]

/-! ## Monitor -/

/-- C16: `checkJobStatus` finalises and records errors by the classification of
the Get-Job-Attributes outcome: tag-not-found, HTTP 404 and job-state completed
finalise without error; canceled finalises with type 18; aborted finalises with
type 19 and the message `jobID <id> aborted; reasons: <reasons>`; HTTP 401
without credentials only installs the default pair; HTTP 401 with credentials
finalises with type 20; a temporary error changes nothing; any other error
finalises with type 20; any other job state changes nothing. -/
theorem checkJobStatus_classification (os : Platform) (js : JobStateEnums)
    (hjs : js.Distinct) (m : monitor) (jobID : Int) :
    (∀ err : GoError,
      err.isJobAttributesTagNotFound = true ∨
        (err.isJobAttributesTagNotFound = false ∧ isHTTPStatus err 404 = true) →
      (m.checkJobStatus os js jobID (Except.error err)).jobFinalisedCloses =
          m.jobFinalisedCloses + 1 ∧
        (m.checkJobStatus os js jobID (Except.error err)).errs = m.errs ∧
        (m.checkJobStatus os js jobID (Except.error err)).ippCreds = m.ippCreds) ∧
    (∀ err : GoError, err.isJobAttributesTagNotFound = false →
      isHTTPStatus err 404 = false → isHTTPStatus err 401 = true →
      (m.ippCreds = none →
        (m.checkJobStatus os js jobID (Except.error err)).jobFinalisedCloses =
            m.jobFinalisedCloses ∧
          (m.checkJobStatus os js jobID (Except.error err)).errs = m.errs ∧
          (m.checkJobStatus os js jobID (Except.error err)).ippCreds =
            some { Username := "papercut-ipp-client", Password := "papercut" }) ∧
      (m.ippCreds ≠ none →
        (m.checkJobStatus os js jobID (Except.error err)).jobFinalisedCloses =
            m.jobFinalisedCloses + 1 ∧
          (m.checkJobStatus os js jobID (Except.error err)).errs =
            m.errs ++ [OperationError.mk 20
              ("failed to monitor job progress: " ++ err.message)] ∧
          (m.checkJobStatus os js jobID (Except.error err)).ippCreds = m.ippCreds)) ∧
    (∀ err : GoError, err.isJobAttributesTagNotFound = false →
      isHTTPStatus err 404 = false → isHTTPStatus err 401 = false →
      (ippJobOpError.Temporary os { error := err } = true →
        (m.checkJobStatus os js jobID (Except.error err)).jobFinalisedCloses =
            m.jobFinalisedCloses ∧
          (m.checkJobStatus os js jobID (Except.error err)).errs = m.errs ∧
          (m.checkJobStatus os js jobID (Except.error err)).ippCreds = m.ippCreds) ∧
      (ippJobOpError.Temporary os { error := err } = false →
        (m.checkJobStatus os js jobID (Except.error err)).jobFinalisedCloses =
            m.jobFinalisedCloses + 1 ∧
          (m.checkJobStatus os js jobID (Except.error err)).errs =
            m.errs ++ [OperationError.mk 20
              ("failed to monitor job progress: " ++ err.message)] ∧
          (m.checkJobStatus os js jobID (Except.error err)).ippCreds = m.ippCreds)) ∧
    (∀ jres : JobAttributes,
      (m.checkJobStatus os js jobID (Except.ok jres)).ippCreds = m.ippCreds ∧
      (jres.JobState = js.JobStateCompleted →
        (m.checkJobStatus os js jobID (Except.ok jres)).jobFinalisedCloses =
            m.jobFinalisedCloses + 1 ∧
          (m.checkJobStatus os js jobID (Except.ok jres)).errs = m.errs) ∧
      (jres.JobState = js.JobStateCanceled →
        (m.checkJobStatus os js jobID (Except.ok jres)).jobFinalisedCloses =
            m.jobFinalisedCloses + 1 ∧
          (m.checkJobStatus os js jobID (Except.ok jres)).errs =
            m.errs ++ [OperationError.mk 18
              ("jobID " ++ toString m.jobID ++ " canceled; reasons: " ++
                fmtStrings jres.JobStateReasons)]) ∧
      (jres.JobState = js.JobStateAborted →
        (m.checkJobStatus os js jobID (Except.ok jres)).jobFinalisedCloses =
            m.jobFinalisedCloses + 1 ∧
          (m.checkJobStatus os js jobID (Except.ok jres)).errs =
            m.errs ++ [OperationError.mk 19
              ("jobID " ++ toString m.jobID ++ " aborted; reasons: " ++
                fmtStrings jres.JobStateReasons)]) ∧
      (jres.JobState ≠ js.JobStateCompleted → jres.JobState ≠ js.JobStateCanceled →
        jres.JobState ≠ js.JobStateAborted →
        (m.checkJobStatus os js jobID (Except.ok jres)).jobFinalisedCloses =
            m.jobFinalisedCloses ∧
          (m.checkJobStatus os js jobID (Except.ok jres)).errs = m.errs)) := by
  obtain ⟨h12, h13, h23⟩ := hjs
  refine ⟨?_, ?_, ?_, ?_⟩
  · rintro err (h | ⟨h1, h2⟩)
    · simp [monitor.checkJobStatus, monitor.closeJobFinalised, h]
    · have h2' : isHTTPStatus err StatusNotFound = true := h2
      simp [monitor.checkJobStatus, monitor.closeJobFinalised, h1, h2']
  · intro err h1 h2 h3
    have h2' : isHTTPStatus err StatusNotFound = false := h2
    have h3' : isHTTPStatus err StatusUnauthorized = true := h3
    constructor
    · intro hc
      simp [monitor.checkJobStatus, h1, h2', h3', hc, defaultIppCredentials]
    · intro hc
      simp [monitor.checkJobStatus, monitor.closeJobFinalised, h1, h2', h3', hc,
        ErrPrintMonitorFailedToMonitor]
  · intro err h1 h2 h3
    have h2' : isHTTPStatus err StatusNotFound = false := h2
    have h3' : isHTTPStatus err StatusUnauthorized = false := h3
    constructor
    · intro ht
      simp [monitor.checkJobStatus, h1, h2', h3', ht]
    · intro ht
      simp [monitor.checkJobStatus, monitor.closeJobFinalised, h1, h2', h3', ht,
        ErrPrintMonitorFailedToMonitor]
  · intro jres
    refine ⟨?_, ?_, ?_, ?_, ?_⟩
    · simp only [monitor.checkJobStatus, monitor.closeJobFinalised]
      split_ifs <;> rfl
    · intro h
      simp [monitor.checkJobStatus, monitor.closeJobFinalised, h]
    · intro h
      simp [monitor.checkJobStatus, monitor.closeJobFinalised, h, h12.symm,
        ErrPrintJobCancelled]
    · intro h
      simp [monitor.checkJobStatus, monitor.closeJobFinalised, h, h13.symm, h23.symm,
        ErrPrintJobAborted]
    · intro h1 h2 h3
      simp [monitor.checkJobStatus, h1, h2, h3]

theorem checkJobStatus_classification_witness :
    ippJobStateEnums.Distinct ∧
    (watchingMonitor.checkJobStatus Platform.unix ippJobStateEnums 7
        (Except.ok mediaJamAborted)).jobFinalisedCloses = 1 ∧
    (watchingMonitor.checkJobStatus Platform.unix ippJobStateEnums 7
        (Except.ok mediaJamAborted)).errs =
      [{ ErrType := 19, Err := "jobID 7 aborted; reasons: [media-jam]" }] :=
  have h := (checkJobStatus_classification Platform.unix ippJobStateEnums (by decide)
    watchingMonitor 7).2.2.2 mediaJamAborted
  ⟨by decide, (h.2.2.2.1 rfl).1, (h.2.2.2.1 rfl).2.trans (by decide)⟩

/-! ## Retry loops -/

theorem runLoop_invariant {σ ρ : Type} (step : LoopEvent → σ → Step σ ρ) (I : σ → Prop)
    (hnext : ∀ ev s s', I s → step ev s = Step.next s' → I s')
    (hdone : ∀ ev s s' r, I s → step ev s = Step.done s' r → I s') :
    ∀ (events : List LoopEvent) (s : σ), I s → I (runLoop step events s).1 := by
  intro events
  induction events with
  | nil => intro s hs; exact hs
  | cons ev rest ih =>
    intro s hs
    unfold runLoop
    cases hstep : step ev s with
    | next s' => exact ih s' (hnext ev s s' hs hstep)
    | done s' r => exact hdone ev s s' r hs hstep

theorem runLoop_result {σ ρ : Type} (step : LoopEvent → σ → Step σ ρ) (I : σ → Prop)
    (Q : σ → ρ → Prop)
    (hnext : ∀ ev s s', I s → step ev s = Step.next s' → I s')
    (hdone : ∀ ev s s' r, I s → step ev s = Step.done s' r → Q s' r) :
    ∀ (events : List LoopEvent) (s : σ) (r : ρ), I s →
      (runLoop step events s).2 = some r → Q (runLoop step events s).1 r := by
  intro events
  induction events with
  | nil => intro s r _ h; simp [runLoop] at h
  | cons ev rest ih =>
    intro s r hs h
    unfold runLoop at h ⊢
    cases hstep : step ev s with
    | next s' =>
      simp only [hstep] at h ⊢
      exact ih s' r (hnext ev s s' hs hstep) h
    | done s' r' =>
      simp only [hstep, Option.some.injEq] at h ⊢
      exact h ▸ hdone ev s s' r' hs hstep

theorem runLoop_returns {σ ρ : Type} (step : LoopEvent → σ → Step σ ρ) (μ : σ → Nat)
    (hnext : ∀ ev s s', step ev s = Step.next s' → μ s' < μ s) :
    ∀ (events : List LoopEvent) (s : σ), μ s < events.length →
      ∃ r, (runLoop step events s).2 = some r := by
  intro events
  induction events with
  | nil => intro s h; simp at h
  | cons ev rest ih =>
    intro s h
    unfold runLoop
    cases hstep : step ev s with
    | next s' =>
      have := hnext ev s s' hstep
      exact ih s' (by simp only [List.length_cons] at h; omega)
    | done s' r => exact ⟨r, rfl⟩

theorem createJobIssue_facts (cfg : Config) (ev : LoopEvent) (s : CreateJobState) :
    (createJobIssue cfg ev s).createJobAttempts = s.createJobAttempts + 1 ∧
    (createJobIssue cfg ev s).p.Credentials = s.p.Credentials ∧
    createJobRequests (createJobIssue cfg ev s).p.trace = createJobRequests s.p.trace + 1 := by
  unfold createJobIssue
  by_cases hb : (decide (s.createJobAttempts > 0) && !s.skipBackoff) = true
  · simp [hb, ippPrinter.act, createJobRequests, List.countP_append, Action.isCreateJob]
  · simp [hb, ippPrinter.act, createJobRequests, List.countP_append, Action.isCreateJob]

theorem createJobClassify_next {cfg : Config} {call : CallResult} {s s' : CreateJobState}
    (h : createJobClassify cfg call s = Step.next s') :
    s'.createJobAttempts = s.createJobAttempts ∧ s'.p.trace = s.p.trace ∧
    (s'.p.Credentials = s.p.Credentials ∨
      (s.p.Credentials = none ∧ s'.p.Credentials = some defaultIppCredentials ∧
        ∃ err, call = CallResult.failed err ∧ isHTTPStatus err StatusUnauthorized = true)) := by
  unfold createJobClassify at h
  cases call with
  | failed err =>
    simp only at h
    split_ifs at h with h1 h2 h3 h4
    · injection h with h; subst h
      exact ⟨rfl, rfl, Or.inr ⟨h2, rfl, err, rfl, h1⟩⟩
    · injection h with h; subst h; exact ⟨rfl, rfl, Or.inl rfl⟩
    · injection h with h; subst h; exact ⟨rfl, rfl, Or.inl rfl⟩
  | responded resp =>
    simp only at h
    split_ifs at h
    · injection h with h; subst h; exact ⟨rfl, rfl, Or.inl rfl⟩
    · injection h with h; subst h; exact ⟨rfl, rfl, Or.inl rfl⟩

theorem createJobClassify_done {cfg : Config} {call : CallResult} {s s' : CreateJobState}
    {r : Option IppResponse × Option GoError}
    (h : createJobClassify cfg call s = Step.done s' r) :
    s' = s ∧
    (∀ resp, r = (some resp, none) →
      call = CallResult.responded resp ∧ 0 < resp.JobId ∧ resp.JobId ≤ MaxInt32) := by
  unfold createJobClassify at h
  cases call with
  | failed err =>
    simp only at h
    split_ifs at h
    all_goals
      injection h with h1 h2
      subst h1 h2
      exact ⟨rfl, fun resp hr => by cases hr⟩
  | responded resp =>
    simp only at h
    split_ifs at h with h1 h2 h3
    · injection h with h1 h2
      subst h1 h2
      exact ⟨rfl, fun resp hr => by cases hr⟩
    · injection h with h1 h2
      subst h1 h2
      exact ⟨rfl, fun resp hr => by cases hr⟩
    · injection h with h4 h5
      subst h4 h5
      refine ⟨rfl, fun resp' hr => ?_⟩
      injection hr with hr1 _
      injection hr1 with hr1
      subst hr1
      refine ⟨rfl, ?_, ?_⟩ <;> omega

theorem createJobStep_counts (cfg : Config) (p0 : ippPrinter) (ev : LoopEvent)
    (s : CreateJobState) (hs : createJobCounts p0 s) :
    (∀ s', createJobStep cfg ev s = Step.next s' → createJobCounts p0 s') ∧
    (∀ s' r, createJobStep cfg ev s = Step.done s' r → createJobCounts p0 s') := by
  obtain ⟨h0, hc⟩ := hs
  obtain ⟨ha, -, ht⟩ := createJobIssue_facts cfg ev s
  have hissue : createJobCounts p0 (createJobIssue cfg ev s) := by
    refine ⟨by omega, ?_⟩
    rw [ht, hc, ha]
    omega
  unfold createJobStep
  cases hctx : ev.ctxErr with
  | some err =>
    simp only
    refine ⟨fun s' h => (by cases h), fun s' r h => ?_⟩
    injection h with h1 _
    subst h1
    exact ⟨h0, hc⟩
  | none =>
    simp only
    refine ⟨fun s' h => ?_, fun s' r h => ?_⟩
    · obtain ⟨h1, h2, -⟩ := createJobClassify_next h
      unfold createJobCounts at hissue ⊢
      rw [h1, h2]
      exact hissue
    · obtain ⟨h1, -⟩ := createJobClassify_done h
      subst h1
      exact hissue

theorem createJob_counts (cfg : Config) (events : List LoopEvent) (p : ippPrinter) :
    createJobCounts p (createJob cfg events p).1 := by
  unfold createJob
  apply runLoop_invariant (createJobStep cfg) (createJobCounts p)
  · intro ev s s' hs h
    exact (createJobStep_counts cfg p ev s hs).1 s' h
  · intro ev s s' r hs h
    exact (createJobStep_counts cfg p ev s hs).2 s' r h
  · exact ⟨le_refl _, by simp⟩

theorem createJobStep_invalid {cfg : Config} {ev : LoopEvent} (s : CreateJobState)
    (hev : invalidJobIdEvent cfg ev) :
    createJobStep cfg ev s =
      if s.createJobAttempts + 1 < cfg.maxCreateJobAttempts then
        Step.next (createJobIssue cfg ev s)
      else
        Step.done (createJobIssue cfg ev s)
          (none, some (errorf ("failed to create job:invalid job-id " ++
            toString (match ev.call with
              | CallResult.responded resp => resp.JobId
              | CallResult.failed _ => 0)))) := by
  obtain ⟨hctx, resp, hcall, hok, hinv⟩ := hev
  unfold createJobStep
  simp only [hctx, hcall, createJobClassify, hok, Bool.not_true, Bool.false_eq_true, if_false,
    hinv, if_true, (createJobIssue_facts cfg ev s).1]

/-- C12: whenever `createJob` returns a response with a nil error, its job id is
in `1 .. 2^31 - 1`; a successful-ok response with a job id outside that range is
retried when the attempt count is below `maxCreateJobAttempts`, and otherwise
makes `createJob` return an error without a response. -/
theorem createJob_job_id_valid (cfg : Config) :
    (∀ (events : List LoopEvent) (p : ippPrinter) (resp : IppResponse),
      (createJob cfg events p).2 = some (some resp, none) →
      1 ≤ resp.JobId ∧ resp.JobId ≤ 2 ^ 31 - 1) ∧
    (∀ (ev : LoopEvent) (rest : List LoopEvent) (s : CreateJobState) (resp : IppResponse),
      ev.ctxErr = none → ev.call = CallResult.responded resp →
      cfg.IsStatusOK resp.StatusCode = true →
      (resp.JobId ≤ 0 ∨ resp.JobId > 2 ^ 31 - 1) →
      (s.createJobAttempts + 1 < cfg.maxCreateJobAttempts →
        runLoop (createJobStep cfg) (ev :: rest) s =
          runLoop (createJobStep cfg) rest (createJobIssue cfg ev s)) ∧
      (¬ s.createJobAttempts + 1 < cfg.maxCreateJobAttempts →
        ∃ err, (runLoop (createJobStep cfg) (ev :: rest) s).2 = some (none, some err))) := by
  constructor
  · intro events p resp h
    have hq := runLoop_result (createJobStep cfg) (fun _ => True)
      (fun _ r => ∀ resp, r = (some resp, none) → 0 < resp.JobId ∧ resp.JobId ≤ MaxInt32)
      (fun _ _ _ _ _ => trivial)
      (fun ev s s' r _ hstep => by
        unfold createJobStep at hstep
        cases hctx : ev.ctxErr with
        | some err =>
          simp only [hctx] at hstep
          injection hstep with _ h2
          subst h2
          intro resp hr
          cases hr
        | none =>
          simp only [hctx] at hstep
          intro resp hr
          exact ((createJobClassify_done hstep).2 resp hr).2)
      events { p := p, createJobAttempts := 0, skipBackoff := false } _ trivial h resp rfl
    have hmax : MaxInt32 = 2 ^ 31 - 1 := by decide
    rw [hmax] at hq
    omega
  · intro ev rest s resp hctx hcall hok hinv
    have hev : invalidJobIdEvent cfg ev :=
      ⟨hctx, resp, hcall, hok, by
        have hmax : MaxInt32 = 2 ^ 31 - 1 := by decide
        rw [hmax]; exact hinv⟩
    constructor
    · intro hlt
      rw [runLoop, createJobStep_invalid s hev, if_pos hlt]
    · intro hge
      rw [runLoop, createJobStep_invalid s hev, if_neg hge]
      exact ⟨_, rfl⟩

theorem createJob_job_id_valid_witness :
    (createJob {} [jobZeroEvent, job42Event] {}).2 =
      some (some { StatusCode := 0, JobId := 42, JobUri := "ipp://printer/jobs/42" }, none) ∧
    ((1 : Int) ≤ 42 ∧ (42 : Int) ≤ 2 ^ 31 - 1) ∧
    ∃ err, (createJob {} [jobZeroEvent, jobZeroEvent, jobZeroEvent, job42Event] {}).2 =
      some (none, some err) :=
  ⟨by decide,
   (createJob_job_id_valid {}).1 [jobZeroEvent, job42Event] {}
     { StatusCode := 0, JobId := 42, JobUri := "ipp://printer/jobs/42" } (by decide),
   ⟨_, rfl⟩⟩

theorem createJob_resets (cfg : Config) (n : Nat) (s : CreateJobState) :
    (runLoop (createJobStep cfg) (List.replicate n connectionResetEvent) s).2 = none ∧
    (runLoop (createJobStep cfg) (List.replicate n connectionResetEvent) s).1.createJobAttempts =
      s.createJobAttempts + n := by
  induction n generalizing s with
  | zero => simp [runLoop]
  | succ n ih =>
    have hstep : createJobStep cfg connectionResetEvent s =
        Step.next (createJobIssue cfg connectionResetEvent s) := by
      unfold createJobStep
      have ht : ippJobOpError.Temporary cfg.os
          { error := { message := "connection reset by peer", isECONNRESET := true } } = true := by
        cases cfg.os <;> rfl
      simp [connectionResetEvent, createJobClassify, isHTTPStatus, ht]
    rw [List.replicate_succ, runLoop, hstep]
    simp only
    obtain ⟨h1, h2⟩ := ih (createJobIssue cfg connectionResetEvent s)
    refine ⟨h1, ?_⟩
    rw [h2, (createJobIssue_facts cfg connectionResetEvent s).1]
    push_cast
    ring

theorem createJob_invalid_ids (cfg : Config) :
    ∀ (events : List LoopEvent) (s : CreateJobState),
      (∀ ev ∈ events, invalidJobIdEvent cfg ev) →
      (runLoop (createJobStep cfg) events s).1.createJobAttempts ≤
          max (s.createJobAttempts + 1) cfg.maxCreateJobAttempts ∧
        (max 1 (cfg.maxCreateJobAttempts - s.createJobAttempts).toNat ≤ events.length →
          ∃ err, (runLoop (createJobStep cfg) events s).2 = some (none, some err)) := by
  intro events
  induction events with
  | nil =>
    intro s _
    refine ⟨?_, fun h => ?_⟩
    · simp only [runLoop]; omega
    · simp only [List.length_nil] at h; omega
  | cons ev rest ih =>
    intro s hall
    have hev := hall ev (List.mem_cons_self ev rest)
    have hrest : ∀ e ∈ rest, invalidJobIdEvent cfg e :=
      fun e he => hall e (List.mem_cons_of_mem ev he)
    have ha := (createJobIssue_facts cfg ev s).1
    rw [runLoop, createJobStep_invalid s hev]
    by_cases hlt : s.createJobAttempts + 1 < cfg.maxCreateJobAttempts
    · simp only [hlt, if_true]
      obtain ⟨h1, h2⟩ := ih (createJobIssue cfg ev s) hrest
      rw [ha] at h1 h2
      refine ⟨by omega, fun hlen => h2 ?_⟩
      simp only [List.length_cons] at hlen
      omega
    · simp only [hlt, if_false]
      exact ⟨by rw [ha]; omega, fun _ => ⟨_, rfl⟩⟩

theorem createJobStep_uncapped {cfg : Config} {ev : LoopEvent} (s : CreateJobState)
    (hev : temporaryErrorEvent cfg ev ∨ recoverableStatusEvent cfg ev) :
    createJobStep cfg ev s = Step.next (createJobIssue cfg ev s) := by
  rcases hev with ⟨hctx, err, hcall, h401, htemp⟩ | ⟨hctx, resp, hcall, hok, hrec⟩
  · unfold createJobStep
    simp only [hctx, hcall, createJobClassify, h401, htemp, if_true, Bool.false_eq_true,
      if_false]
  · unfold createJobStep
    simp only [hctx, hcall, createJobClassify, hok, hrec, Bool.not_false, if_true]

theorem createJob_uncapped (cfg : Config) :
    ∀ (events : List LoopEvent) (s : CreateJobState),
      (∀ ev ∈ events, temporaryErrorEvent cfg ev ∨ recoverableStatusEvent cfg ev) →
      (runLoop (createJobStep cfg) events s).2 = none ∧
        (runLoop (createJobStep cfg) events s).1.createJobAttempts =
          s.createJobAttempts + events.length := by
  intro events
  induction events with
  | nil => intro s _; simp [runLoop]
  | cons ev rest ih =>
    intro s hall
    rw [runLoop, createJobStep_uncapped s (hall ev (List.mem_cons_self ev rest))]
    simp only
    obtain ⟨h1, h2⟩ := ih (createJobIssue cfg ev s)
      (fun e he => hall e (List.mem_cons_of_mem ev he))
    refine ⟨h1, ?_⟩
    rw [h2, (createJobIssue_facts cfg ev s).1, List.length_cons]
    push_cast
    ring

theorem createJobStep_unauthorised (cfg : Config) (ev : LoopEvent) (s : CreateJobState)
    (err : GoError) (hctx : ev.ctxErr = none) (hcall : ev.call = CallResult.failed err)
    (h401 : isHTTPStatus err StatusUnauthorized = true) :
    createJobStep cfg ev s =
      if s.p.Credentials = none then
        Step.next
          { p := { (createJobIssue cfg ev s).p with Credentials := some defaultIppCredentials },
            createJobAttempts := s.createJobAttempts + 1, skipBackoff := true }
      else if s.createJobAttempts + 1 ≤ cfg.ippMaxUnauthorisedAttempts then
        Step.next (createJobIssue cfg ev s)
      else
        Step.done (createJobIssue cfg ev s)
          (none, some (errorf ("failed to create job: " ++ err.message))) := by
  obtain ⟨ha, hc, -⟩ := createJobIssue_facts cfg ev s
  unfold createJobStep
  simp only [hctx, hcall, createJobClassify, h401, if_true, hc, ha]

theorem createJob_unauthorised (cfg : Config) :
    ∀ (events : List LoopEvent) (s : CreateJobState),
      (∀ ev ∈ events, unauthorisedErrorEvent ev) →
      (runLoop (createJobStep cfg) events s).1.createJobAttempts ≤
          max (s.createJobAttempts + (if s.p.Credentials = none then 2 else 1))
            (cfg.ippMaxUnauthorisedAttempts + 1) ∧
        ((if s.p.Credentials = none then
            1 + max 1 (cfg.ippMaxUnauthorisedAttempts - s.createJobAttempts).toNat
          else max 1 (cfg.ippMaxUnauthorisedAttempts + 1 - s.createJobAttempts).toNat) ≤
            events.length →
          ∃ err, (runLoop (createJobStep cfg) events s).2 = some (none, some err)) := by
  intro events
  induction events with
  | nil =>
    intro s _
    refine ⟨?_, fun h => ?_⟩
    · simp only [runLoop]
      split_ifs <;> omega
    · simp only [List.length_nil] at h
      split_ifs at h <;> omega
  | cons ev rest ih =>
    intro s hall
    obtain ⟨hctx, err, hcall, h401⟩ := hall ev (List.mem_cons_self ev rest)
    have hrest : ∀ e ∈ rest, unauthorisedErrorEvent e :=
      fun e he => hall e (List.mem_cons_of_mem ev he)
    obtain ⟨ha, hc, -⟩ := createJobIssue_facts cfg ev s
    rw [runLoop, createJobStep_unauthorised cfg ev s err hctx hcall h401]
    by_cases hnil : s.p.Credentials = none
    · simp only [hnil, if_true]
      obtain ⟨h1, h2⟩ := ih
        { p := { (createJobIssue cfg ev s).p with Credentials := some defaultIppCredentials },
          createJobAttempts := s.createJobAttempts + 1, skipBackoff := true } hrest
      simp only [reduceCtorEq, if_false] at h1 h2
      refine ⟨by omega, fun hlen => h2 ?_⟩
      simp only [List.length_cons] at hlen
      omega
    · simp only [hnil, if_false]
      by_cases hle : s.createJobAttempts + 1 ≤ cfg.ippMaxUnauthorisedAttempts
      · simp only [hle, if_true]
        obtain ⟨h1, h2⟩ := ih (createJobIssue cfg ev s) hrest
        have hnil' : ¬ (createJobIssue cfg ev s).p.Credentials = none := by rw [hc]; exact hnil
        simp only [hnil', if_false, ha] at h1 h2
        refine ⟨by omega, fun hlen => h2 ?_⟩
        simp only [List.length_cons] at hlen
        omega
      · simp only [hle, if_false]
        exact ⟨by rw [ha]; omega, fun _ => ⟨_, rfl⟩⟩

/-- C14 (as stated, refuted): with the default flags (`maxCreateJobAttempts = 3`),
four connection resets followed by a valid answer make `createJob` issue five
Create-Job requests before it returns. -/
theorem createJob_exceeds_maxCreateJobAttempts :
    ({} : Config).maxCreateJobAttempts = 3 ∧
    createJobRequests (createJob {} fourResetsThenJob {}).1.p.trace = 5 ∧
    (createJob {} fourResetsThenJob {}).2 =
      some (some { StatusCode := 0, JobId := 42, JobUri := "ipp://printer/jobs/42" }, none) := by
  decide

/-- C14 (amended): every Create-Job request of `createJob` is counted by the
attempt counter; `maxCreateJobAttempts` bounds only the retries after
successful-ok answers with an invalid job id: when every answer is of that kind
at most `max 1 maxCreateJobAttempts` requests are issued and `createJob` then
returns an error. Temporary errors and recoverable non-OK statuses are retried
without a bound: after any number of them `createJob` is still running and has
issued one request for each. An HTTP 401 is governed by
`ippMaxUnauthorisedAttempts`: without credentials it installs the default pair
and goes round again, with credentials it goes round again exactly while the
attempt number is at most `ippMaxUnauthorisedAttempts` and returns an error
otherwise, so that when every answer is a 401 at most
`max 2 (ippMaxUnauthorisedAttempts + 1)` requests are issued (five with the
default flags). -/
theorem createJob_request_bound (cfg : Config) (p : ippPrinter) :
    (∀ events : List LoopEvent,
      createJobRequests (createJob cfg events p).1.p.trace =
        createJobRequests p.trace + (createJob cfg events p).1.createJobAttempts.toNat) ∧
    (∀ events : List LoopEvent, (∀ ev ∈ events, invalidJobIdEvent cfg ev) →
      createJobRequests (createJob cfg events p).1.p.trace ≤
          createJobRequests p.trace + max 1 cfg.maxCreateJobAttempts.toNat ∧
        (max 1 cfg.maxCreateJobAttempts.toNat ≤ events.length →
          ∃ err, (createJob cfg events p).2 = some (none, some err))) ∧
    (∀ n : Nat,
      (createJob cfg (List.replicate n connectionResetEvent) p).2 = none ∧
      createJobRequests (createJob cfg (List.replicate n connectionResetEvent) p).1.p.trace =
        createJobRequests p.trace + n) ∧
    (∀ events : List LoopEvent,
      (∀ ev ∈ events, temporaryErrorEvent cfg ev ∨ recoverableStatusEvent cfg ev) →
      (createJob cfg events p).2 = none ∧
      createJobRequests (createJob cfg events p).1.p.trace =
        createJobRequests p.trace + events.length) ∧
    (∀ (ev : LoopEvent) (s : CreateJobState) (err : GoError), ev.ctxErr = none →
      ev.call = CallResult.failed err → isHTTPStatus err StatusUnauthorized = true →
      createJobStep cfg ev s =
        if s.p.Credentials = none then
          Step.next
            { p := { (createJobIssue cfg ev s).p with Credentials := some defaultIppCredentials },
              createJobAttempts := s.createJobAttempts + 1, skipBackoff := true }
        else if s.createJobAttempts + 1 ≤ cfg.ippMaxUnauthorisedAttempts then
          Step.next (createJobIssue cfg ev s)
        else
          Step.done (createJobIssue cfg ev s)
            (none, some (errorf ("failed to create job: " ++ err.message)))) ∧
    (∀ events : List LoopEvent, (∀ ev ∈ events, unauthorisedErrorEvent ev) →
      createJobRequests (createJob cfg events p).1.p.trace ≤
          createJobRequests p.trace + max 2 (cfg.ippMaxUnauthorisedAttempts + 1).toNat ∧
        (max 2 (cfg.ippMaxUnauthorisedAttempts + 1).toNat ≤ events.length →
          ∃ err, (createJob cfg events p).2 = some (none, some err))) ∧
    createJobRequests (createJob {} (List.replicate 6 unauthorizedEvent) {}).1.p.trace = 5 ∧
    (createJob {} (List.replicate 6 unauthorizedEvent) {}).2 =
      some (none, some (errorf "failed to create job: http status 401")) := by
  refine ⟨fun events => (createJob_counts cfg events p).2, fun events hall => ?_, fun n => ?_,
    fun events hall => ?_, createJobStep_unauthorised cfg, fun events hall => ?_,
    by decide, by decide⟩
  · obtain ⟨h1, h2⟩ := createJob_invalid_ids cfg events
      { p := p, createJobAttempts := 0, skipBackoff := false } hall
    have hc := (createJob_counts cfg events p).2
    have h0 := (createJob_counts cfg events p).1
    simp only at h1 h2
    refine ⟨?_, fun hlen => h2 ?_⟩
    · rw [hc]
      unfold createJob at h0 ⊢
      omega
    · simp only [sub_zero]
      exact hlen
  · obtain ⟨h1, h2⟩ := createJob_resets cfg n
      { p := p, createJobAttempts := 0, skipBackoff := false }
    refine ⟨h1, ?_⟩
    rw [(createJob_counts cfg _ p).2]
    unfold createJob
    rw [h2]
    simp
  · obtain ⟨h1, h2⟩ := createJob_uncapped cfg events
      { p := p, createJobAttempts := 0, skipBackoff := false } hall
    refine ⟨h1, ?_⟩
    rw [(createJob_counts cfg _ p).2]
    unfold createJob
    rw [h2]
    simp
  · obtain ⟨h1, h2⟩ := createJob_unauthorised cfg events
      { p := p, createJobAttempts := 0, skipBackoff := false } hall
    have hc := (createJob_counts cfg events p).2
    simp only [sub_zero, zero_add] at h1 h2
    refine ⟨?_, fun hlen => h2 ?_⟩
    · rw [hc]
      unfold createJob
      split_ifs at h1 <;> omega
    · split_ifs <;> omega

theorem runLoop_post {σ ρ : Type} (step : LoopEvent → σ → Step σ ρ) (I J : σ → Prop)
    (hI : ∀ s, I s → J s)
    (hnext : ∀ ev s s', I s → step ev s = Step.next s' → I s')
    (hdone : ∀ ev s s' r, I s → step ev s = Step.done s' r → J s') :
    ∀ (events : List LoopEvent) (s : σ), I s → J (runLoop step events s).1 := by
  intro events
  induction events with
  | nil => intro s hs; exact hI s hs
  | cons ev rest ih =>
    intro s hs
    unfold runLoop
    cases hstep : step ev s with
    | next s' => exact ih s' (hnext ev s s' hs hstep)
    | done s' r => exact hdone ev s s' r hs hstep

theorem sendDocumentRequests_act (p : ippPrinter) (a : Action) :
    sendDocumentRequests (p.act a).trace =
      sendDocumentRequests p.trace + (if a.isSendDocument then 1 else 0) := by
  cases h : a.isSendDocument <;>
    simp [ippPrinter.act, sendDocumentRequests, List.countP_append, h]

theorem printJobRequests_act (p : ippPrinter) (a : Action) :
    printJobRequests (p.act a).trace =
      printJobRequests p.trace + (if a.isPrintJob then 1 else 0) := by
  cases h : a.isPrintJob <;>
    simp [ippPrinter.act, printJobRequests, List.countP_append, h]

theorem sendDocumentPrepare_facts (cfg : Config) (ev : LoopEvent) (s : SendDocumentState) :
    (sendDocumentPrepare cfg ev s).sendDocAttempts = s.sendDocAttempts + 1 ∧
    (sendDocumentPrepare cfg ev s).p.Credentials = s.p.Credentials ∧
    sendDocumentRequests (sendDocumentPrepare cfg ev s).p.trace =
      sendDocumentRequests s.p.trace := by
  unfold sendDocumentPrepare
  refine ⟨rfl, ?_, ?_⟩
  · simp only
    split_ifs <;> rfl
  · simp only
    split_ifs <;> simp [sendDocumentRequests_act, Action.isSendDocument]

theorem sendDocumentClassify_facts {cfg : Config} {jobID : Int} {call : CallResult}
    {s : SendDocumentState} :
    (∀ s', sendDocumentClassify cfg jobID call s = Step.next s' →
      s'.sendDocAttempts = s.sendDocAttempts ∧
      sendDocumentRequests s'.p.trace = sendDocumentRequests s.p.trace ∧
      (s'.p.Credentials = s.p.Credentials ∨
        (s.p.Credentials = none ∧ s'.p.Credentials = some defaultIppCredentials ∧
          ∃ err, call = CallResult.failed err ∧
            isHTTPStatus err StatusUnauthorized = true))) ∧
    (∀ s' r, sendDocumentClassify cfg jobID call s = Step.done s' r →
      s'.sendDocAttempts = s.sendDocAttempts ∧
      sendDocumentRequests s'.p.trace = sendDocumentRequests s.p.trace ∧
      s'.p.Credentials = s.p.Credentials) := by
  have hcancel : sendDocumentRequests (s.p.cancelJob jobID).trace =
      sendDocumentRequests s.p.trace := by
    simp [ippPrinter.cancelJob, ippPrinter.act, sendDocumentRequests, List.countP_append,
      Action.isSendDocument]
  have hcc : (s.p.cancelJob jobID).Credentials = s.p.Credentials := rfl
  constructor
  · intro s' h
    unfold sendDocumentClassify at h
    cases call with
    | failed err =>
      simp only at h
      split_ifs at h with h1 h2 h3 h4
      · injection h with h; subst h
        exact ⟨rfl, rfl, Or.inr ⟨h2, rfl, err, rfl, h1⟩⟩
      · injection h with h; subst h; exact ⟨rfl, rfl, Or.inl rfl⟩
      · injection h with h; subst h; exact ⟨rfl, hcancel, Or.inl hcc⟩
    | responded resp =>
      simp only at h
      split_ifs at h
      · injection h with h; subst h; exact ⟨rfl, hcancel, Or.inl hcc⟩
  · intro s' r h
    unfold sendDocumentClassify at h
    cases call with
    | failed err =>
      simp only at h
      split_ifs at h
      all_goals
        injection h with h1 h2
        subst h1
        exact ⟨rfl, hcancel, hcc⟩
    | responded resp =>
      simp only at h
      split_ifs at h
      · injection h with h1 h2
        subst h1
        exact ⟨rfl, hcancel, hcc⟩
      · injection h with h1 h2
        subst h1
        exact ⟨rfl, rfl, rfl⟩

theorem sendDocumentStep_counts (cfg : Config) (jobID : Int) (p0 : ippPrinter)
    (ev : LoopEvent) (s : SendDocumentState) (hs : sendDocumentRunning cfg p0 s) :
    (∀ s', sendDocumentStep cfg jobID ev s = Step.next s' →
      sendDocumentRunning cfg p0 s' ∧ s'.sendDocAttempts = s.sendDocAttempts + 1) ∧
    (∀ s' r, sendDocumentStep cfg jobID ev s = Step.done s' r →
      sendDocumentCounted cfg p0 s') := by
  obtain ⟨h0, hcap, hc⟩ := hs
  obtain ⟨ha, -, ht⟩ := sendDocumentPrepare_facts cfg ev s
  have hreset : sendDocumentRequests (s.p.act Action.reset).trace =
      sendDocumentRequests s.p.trace := by
    simp [sendDocumentRequests_act, Action.isSendDocument]
  unfold sendDocumentStep
  cases hctx : ev.ctxErr with
  | some err =>
    simp only
    refine ⟨fun s' h => (by cases h), fun s' r h => ?_⟩
    injection h with h1 _
    subst h1
    exact ⟨h0, Or.inl ⟨hcap, hc⟩⟩
  | none =>
    simp only
    cases hre : (if s.sendDocAttempts > 0 then ev.resetErr else none) with
    | some err =>
      simp only
      refine ⟨fun s' h => (by cases h), fun s' r h => ?_⟩
      injection h with h1 _
      subst h1
      exact ⟨h0, Or.inl ⟨hcap, by rw [hreset]; exact hc⟩⟩
    | none =>
      simp only
      by_cases hex : (sendDocumentPrepare cfg ev s).sendDocAttempts >
          cfg.ippMaxPrintJobSendDocumentRetryAttempts
      · simp only [hex, if_true]
        refine ⟨fun s' h => (by cases h), fun s' r h => ?_⟩
        injection h with h1 _
        subst h1
        refine ⟨by omega, Or.inr ⟨hex, by omega, ?_⟩⟩
        rw [ht, hc, ha]
        omega
      · simp only [hex, if_false]
        have hsent : sendDocumentRequests
            ((sendDocumentPrepare cfg ev s).p.act
              (Action.sendDocument (sendDocumentPrepare cfg ev s).p.Credentials)).trace =
            sendDocumentRequests p0.trace + (s.sendDocAttempts + 1).toNat := by
          rw [sendDocumentRequests_act, ht, hc]
          simp only [Action.isSendDocument, if_true]
          omega
        refine ⟨fun s' h => ?_, fun s' r h => ?_⟩
        · obtain ⟨h1, h2, -⟩ := sendDocumentClassify_facts.1 s' h
          simp only at h1 h2
          rw [ha] at h1
          exact ⟨⟨by omega, by omega, by rw [h2, hsent, h1]⟩, h1⟩
        · obtain ⟨h1, h2, -⟩ := sendDocumentClassify_facts.2 s' r h
          simp only at h1 h2
          rw [ha] at h1
          exact ⟨by omega, Or.inl ⟨by omega, by rw [h2, hsent, h1]⟩⟩

theorem sendDocument_counted (cfg : Config) (jobID : Int) (events : List LoopEvent)
    (p : ippPrinter) : sendDocumentCounted cfg p (sendDocument cfg jobID events p).1 := by
  unfold sendDocument
  apply runLoop_post (sendDocumentStep cfg jobID) (sendDocumentRunning cfg p)
    (sendDocumentCounted cfg p)
  · intro s hs
    exact ⟨hs.1, Or.inl ⟨hs.2.1, hs.2.2⟩⟩
  · intro ev s s' hs h
    exact ((sendDocumentStep_counts cfg jobID p ev s hs).1 s' h).1
  · intro ev s s' r hs h
    exact (sendDocumentStep_counts cfg jobID p ev s hs).2 s' r h
  · exact ⟨le_refl _, by simp, by simp⟩

theorem sendDocumentStep_next {cfg : Config} {jobID : Int} {ev : LoopEvent}
    {s s' : SendDocumentState} (h : sendDocumentStep cfg jobID ev s = Step.next s') :
    s'.sendDocAttempts = s.sendDocAttempts + 1 ∧
    s'.sendDocAttempts ≤ cfg.ippMaxPrintJobSendDocumentRetryAttempts := by
  have ha := (sendDocumentPrepare_facts cfg ev s).1
  unfold sendDocumentStep at h
  cases hctx : ev.ctxErr with
  | some err => simp [hctx] at h
  | none =>
    simp only [hctx] at h
    cases hre : (if s.sendDocAttempts > 0 then ev.resetErr else none) with
    | some err => simp [hre] at h
    | none =>
      simp only [hre] at h
      by_cases hex : (sendDocumentPrepare cfg ev s).sendDocAttempts >
          cfg.ippMaxPrintJobSendDocumentRetryAttempts
      · simp [hex] at h
      · simp only [hex, if_false] at h
        obtain ⟨h1, -, -⟩ := sendDocumentClassify_facts.1 s' h
        simp only at h1
        exact ⟨by rw [h1, ha], by rw [h1]; omega⟩

theorem sendDocumentStep_exceeded (cfg : Config) (jobID : Int) (ev : LoopEvent)
    (s : SendDocumentState) (hctx : ev.ctxErr = none)
    (hreset : s.sendDocAttempts > 0 → ev.resetErr = none)
    (hex : s.sendDocAttempts + 1 > cfg.ippMaxPrintJobSendDocumentRetryAttempts) :
    ∃ err, sendDocumentStep cfg jobID ev s =
        Step.done (sendDocumentPrepare cfg ev s) (none, some err) ∧
      sendDocumentRequests (sendDocumentPrepare cfg ev s).p.trace =
        sendDocumentRequests s.p.trace := by
  obtain ⟨ha, -, ht⟩ := sendDocumentPrepare_facts cfg ev s
  have hre : (if s.sendDocAttempts > 0 then ev.resetErr else none) = none := by
    by_cases h : s.sendDocAttempts > 0
    · simp [h, hreset h]
    · simp [h]
  have hex' : (sendDocumentPrepare cfg ev s).sendDocAttempts >
      cfg.ippMaxPrintJobSendDocumentRetryAttempts := by rw [ha]; exact hex
  refine ⟨errorf ("failed to send document, err: max operation retry attempts " ++
    toString cfg.ippMaxPrintJobSendDocumentRetryAttempts ++ " exceeded"), ?_, ht⟩
  unfold sendDocumentStep
  simp only [hctx, hre, hex', if_true]

theorem PrintJobPrepare_facts (cfg : Config) (ev : LoopEvent) (s : PrintJobState) :
    (PrintJobPrepare cfg ev s).printJobRetryAttempts = s.printJobRetryAttempts + 1 ∧
    printJobRequests (PrintJobPrepare cfg ev s).p.trace = printJobRequests s.p.trace := by
  unfold PrintJobPrepare
  refine ⟨rfl, ?_⟩
  simp only
  split_ifs <;> simp [printJobRequests_act, Action.isPrintJob]

theorem printJob_facts (p : ippPrinter) (ev : LoopEvent) :
    printJobRequests (p.printJob ev).1.trace ≤ printJobRequests p.trace + 1 ∧
    printJobRequests p.trace ≤ printJobRequests (p.printJob ev).1.trace := by
  unfold ippPrinter.printJob
  cases ev.ctxErr with
  | some err => simp
  | none => simp [printJobRequests_act, Action.isPrintJob]

theorem PrintJobClassify_facts {cfg : Config} {call : CallResult} {s : PrintJobState} :
    (∀ s', PrintJobClassify cfg call s = Step.next s' →
      s'.printJobRetryAttempts = s.printJobRetryAttempts ∧ s'.p = s.p) ∧
    (∀ s' r, PrintJobClassify cfg call s = Step.done s' r →
      s'.printJobRetryAttempts = s.printJobRetryAttempts ∧ s'.p.trace = s.p.trace) := by
  constructor
  · intro s' h
    unfold PrintJobClassify at h
    cases call with
    | failed err =>
      simp only at h
      split_ifs at h
      all_goals
        injection h with h
        subst h
        exact ⟨rfl, rfl⟩
    | responded resp =>
      simp only at h
      split_ifs at h
      injection h with h
      subst h
      exact ⟨rfl, rfl⟩
  · intro s' r h
    unfold PrintJobClassify at h
    cases call with
    | failed err =>
      simp only at h
      split_ifs at h
      all_goals
        injection h with h1 h2
        subst h1
        exact ⟨rfl, rfl⟩
    | responded resp =>
      simp only at h
      split_ifs at h
      injection h with h1 h2
      subst h1
      exact ⟨rfl, rfl⟩

theorem PrintJobStep_counts (cfg : Config) (p0 : ippPrinter) (ev : LoopEvent)
    (s : PrintJobState) (hs : PrintJobRunning cfg p0 s) :
    (∀ s', PrintJobStep cfg ev s = Step.next s' →
      PrintJobRunning cfg p0 s' ∧ s'.printJobRetryAttempts = s.printJobRetryAttempts + 1 ∧
      s'.printJobRetryAttempts ≤ cfg.ippMaxPrintJobSendDocumentRetryAttempts) ∧
    (∀ s' r, PrintJobStep cfg ev s = Step.done s' r → PrintJobCounted cfg p0 s') := by
  obtain ⟨h0, hcap, hc⟩ := hs
  obtain ⟨ha, ht⟩ := PrintJobPrepare_facts cfg ev s
  have hreset : printJobRequests (s.p.act Action.reset).trace = printJobRequests s.p.trace := by
    simp [printJobRequests_act, Action.isPrintJob]
  unfold PrintJobStep
  cases hre : (if s.isRetry then ev.resetErr else none) with
  | some err =>
    simp only
    refine ⟨fun s' h => (by cases h), fun s' r h => ?_⟩
    injection h with h1 _
    subst h1
    exact ⟨h0, by rw [hreset]; exact hc, by rw [hreset]; omega⟩
  | none =>
    simp only
    by_cases hex : (PrintJobPrepare cfg ev s).printJobRetryAttempts >
        cfg.ippMaxPrintJobSendDocumentRetryAttempts
    · simp only [hex, if_true]
      refine ⟨fun s' h => (by cases h), fun s' r h => ?_⟩
      injection h with h1 _
      subst h1
      rw [ha] at hex
      exact ⟨by omega, by rw [ht, ha]; omega, by rw [ht]; omega⟩
    · simp only [hex, if_false]
      obtain ⟨hp1, -⟩ := printJob_facts (PrintJobPrepare cfg ev s).p ev
      rw [ht] at hp1
      rw [ha] at hex
      refine ⟨fun s' h => ?_, fun s' r h => ?_⟩
      · obtain ⟨h1, h2⟩ := PrintJobClassify_facts.1 s' h
        simp only at h1 h2
        rw [ha] at h1
        exact ⟨⟨by omega, by omega, by rw [h2, h1]; omega⟩, h1, by omega⟩
      · obtain ⟨h1, h2⟩ := PrintJobClassify_facts.2 s' r h
        simp only at h1 h2
        rw [ha] at h1
        have h2' : printJobRequests s'.p.trace =
            printJobRequests ((PrintJobPrepare cfg ev s).p.printJob ev).1.trace := by
          rw [h2]
        exact ⟨by omega, by rw [h2', h1]; omega, by rw [h2']; omega⟩

theorem PrintJobStep_next {cfg : Config} {ev : LoopEvent} {s s' : PrintJobState}
    (h : PrintJobStep cfg ev s = Step.next s') :
    s'.printJobRetryAttempts = s.printJobRetryAttempts + 1 ∧
    s'.printJobRetryAttempts ≤ cfg.ippMaxPrintJobSendDocumentRetryAttempts := by
  have ha := (PrintJobPrepare_facts cfg ev s).1
  unfold PrintJobStep at h
  cases hre : (if s.isRetry then ev.resetErr else none) with
  | some err => simp [hre] at h
  | none =>
    simp only [hre] at h
    by_cases hex : (PrintJobPrepare cfg ev s).printJobRetryAttempts >
        cfg.ippMaxPrintJobSendDocumentRetryAttempts
    · simp [hex] at h
    · simp only [hex, if_false] at h
      obtain ⟨h1, -⟩ := PrintJobClassify_facts.1 s' h
      simp only at h1
      exact ⟨by rw [h1, ha], by rw [h1]; omega⟩

theorem PrintJobStep_exceeded (cfg : Config) (ev : LoopEvent) (s : PrintJobState)
    (hreset : s.isRetry = true → ev.resetErr = none)
    (hex : s.printJobRetryAttempts + 1 > cfg.ippMaxPrintJobSendDocumentRetryAttempts) :
    ∃ msg, PrintJobStep cfg ev s =
        Step.done (PrintJobPrepare cfg ev s) (none, some { ErrType := 17, Err := msg }) ∧
      printJobRequests (PrintJobPrepare cfg ev s).p.trace = printJobRequests s.p.trace := by
  obtain ⟨ha, ht⟩ := PrintJobPrepare_facts cfg ev s
  have hre : (if s.isRetry then ev.resetErr else none) = none := by
    by_cases h : s.isRetry = true
    · simp [h, hreset h]
    · simp [h]
  have hex' : (PrintJobPrepare cfg ev s).printJobRetryAttempts >
      cfg.ippMaxPrintJobSendDocumentRetryAttempts := by rw [ha]; exact hex
  refine ⟨"ipp Print-Job failed, err: max operation retry attempts " ++
    toString cfg.ippMaxPrintJobSendDocumentRetryAttempts ++ " exceeded", ?_, ht⟩
  unfold PrintJobStep
  simp only [hre, hex', if_true, ErrPrintIPPPrintJob]

theorem PrintJob_counted (cfg : Config) (events : List LoopEvent) (p : ippPrinter) :
    PrintJobCounted cfg p (PrintJob cfg none events p).1 := by
  unfold PrintJob
  simp only
  apply runLoop_post (PrintJobStep cfg) (PrintJobRunning cfg p) (PrintJobCounted cfg p)
  · intro s hs
    obtain ⟨h0, h1, h2⟩ := hs
    exact ⟨h0, h2, by omega⟩
  · intro ev s s' hs h
    exact ((PrintJobStep_counts cfg p ev s hs).1 s' h).1
  · intro ev s s' r hs h
    exact (PrintJobStep_counts cfg p ev s hs).2 s' r h
  · exact ⟨le_refl _, by simp, by simp⟩

/-- C13: a call of `sendDocument` issues at most
`ippMaxPrintJobSendDocumentRetryAttempts` Send-Document requests and a call of
`PrintJob` at most that many Print-Job requests; the attempt counter grows by
one with each request (in `sendDocument` it equals the number of requests,
plus one when the cap stopped the call); when the counter exceeds the cap the
call returns an error without issuing a request, for `PrintJob` an
`OperationError` of type 17; and either call returns once it has been given one
event more than the cap. -/
theorem retry_attempts_capped (cfg : Config) (jobID : Int) (p : ippPrinter) :
    (∀ events : List LoopEvent,
      sendDocumentRequests (sendDocument cfg jobID events p).1.p.trace ≤
          sendDocumentRequests p.trace + cfg.ippMaxPrintJobSendDocumentRetryAttempts.toNat ∧
        (sendDocumentRequests (sendDocument cfg jobID events p).1.p.trace =
            sendDocumentRequests p.trace +
              (sendDocument cfg jobID events p).1.sendDocAttempts.toNat ∨
          ((sendDocument cfg jobID events p).1.sendDocAttempts >
              cfg.ippMaxPrintJobSendDocumentRetryAttempts ∧
            sendDocumentRequests (sendDocument cfg jobID events p).1.p.trace + 1 =
              sendDocumentRequests p.trace +
                (sendDocument cfg jobID events p).1.sendDocAttempts.toNat)) ∧
        (cfg.ippMaxPrintJobSendDocumentRetryAttempts.toNat < events.length →
          ∃ r, (sendDocument cfg jobID events p).2 = some r)) ∧
    (∀ events : List LoopEvent,
      printJobRequests (PrintJob cfg none events p).1.p.trace ≤
          printJobRequests p.trace + cfg.ippMaxPrintJobSendDocumentRetryAttempts.toNat ∧
        printJobRequests (PrintJob cfg none events p).1.p.trace ≤
          printJobRequests p.trace +
            (PrintJob cfg none events p).1.printJobRetryAttempts.toNat ∧
        (cfg.ippMaxPrintJobSendDocumentRetryAttempts.toNat < events.length →
          ∃ r, (PrintJob cfg none events p).2 = some r)) ∧
    (∀ (ev : LoopEvent) (s : SendDocumentState), ev.ctxErr = none →
      (s.sendDocAttempts > 0 → ev.resetErr = none) →
      s.sendDocAttempts + 1 > cfg.ippMaxPrintJobSendDocumentRetryAttempts →
      ∃ s' err, sendDocumentStep cfg jobID ev s = Step.done s' (none, some err) ∧
        s'.sendDocAttempts = s.sendDocAttempts + 1 ∧
        sendDocumentRequests s'.p.trace = sendDocumentRequests s.p.trace) ∧
    (∀ (ev : LoopEvent) (s : PrintJobState), (s.isRetry = true → ev.resetErr = none) →
      s.printJobRetryAttempts + 1 > cfg.ippMaxPrintJobSendDocumentRetryAttempts →
      ∃ s' msg, PrintJobStep cfg ev s =
          Step.done s' (none, some { ErrType := 17, Err := msg }) ∧
        s'.printJobRetryAttempts = s.printJobRetryAttempts + 1 ∧
        printJobRequests s'.p.trace = printJobRequests s.p.trace) := by
  refine ⟨fun events => ?_, fun events => ?_, fun ev s hctx hreset hex => ?_,
    fun ev s hreset hex => ?_⟩
  · obtain ⟨h0, hcases⟩ := sendDocument_counted cfg jobID events p
    refine ⟨?_, ?_, fun hlen => ?_⟩
    · rcases hcases with ⟨h1, h2⟩ | ⟨h1, h2, h3⟩ <;> omega
    · rcases hcases with ⟨-, h2⟩ | ⟨h1, -, h3⟩
      · exact Or.inl h2
      · exact Or.inr ⟨h1, h3⟩
    · unfold sendDocument
      apply runLoop_returns (sendDocumentStep cfg jobID)
        (fun s => (cfg.ippMaxPrintJobSendDocumentRetryAttempts - s.sendDocAttempts).toNat)
      · intro ev s s' h
        obtain ⟨h1, h2⟩ := sendDocumentStep_next h
        omega
      · simp only [sub_zero]
        exact hlen
  · obtain ⟨h0, h1, h2⟩ := PrintJob_counted cfg events p
    refine ⟨h2, h1, fun hlen => ?_⟩
    unfold PrintJob
    simp only
    apply runLoop_returns (PrintJobStep cfg)
      (fun s => (cfg.ippMaxPrintJobSendDocumentRetryAttempts - s.printJobRetryAttempts).toNat)
    · intro ev s s' h
      obtain ⟨h1, h2⟩ := PrintJobStep_next h
      omega
    · simp only [sub_zero]
      exact hlen
  · obtain ⟨err, h1, h2⟩ := sendDocumentStep_exceeded cfg jobID ev s hctx hreset hex
    exact ⟨_, err, h1, (sendDocumentPrepare_facts cfg ev s).1, h2⟩
  · obtain ⟨msg, h1, h2⟩ := PrintJobStep_exceeded cfg ev s hreset hex
    exact ⟨_, msg, h1, (PrintJobPrepare_facts cfg ev s).1, h2⟩

theorem createJobStep_credentials {cfg : Config} {ev : LoopEvent} {s : CreateJobState} :
    (∀ s', createJobStep cfg ev s = Step.next s' →
      s'.p.Credentials = s.p.Credentials ∨
        (s.p.Credentials = none ∧ s'.p.Credentials = some defaultIppCredentials ∧
          ∃ err, ev.call = CallResult.failed err ∧
            isHTTPStatus err StatusUnauthorized = true)) ∧
    (∀ s' r, createJobStep cfg ev s = Step.done s' r → s'.p.Credentials = s.p.Credentials) := by
  have hc := (createJobIssue_facts cfg ev s).2.1
  unfold createJobStep
  cases hctx : ev.ctxErr with
  | some err =>
    simp only
    refine ⟨fun s' h => (by cases h), fun s' r h => ?_⟩
    injection h with h1 _
    subst h1
    rfl
  | none =>
    simp only
    refine ⟨fun s' h => ?_, fun s' r h => ?_⟩
    · obtain ⟨-, -, h3⟩ := createJobClassify_next h
      rw [hc] at h3
      exact h3
    · obtain ⟨h1, -⟩ := createJobClassify_done h
      subst h1
      exact hc

theorem sendDocumentStep_credentials {cfg : Config} {jobID : Int} {ev : LoopEvent}
    {s : SendDocumentState} :
    (∀ s', sendDocumentStep cfg jobID ev s = Step.next s' →
      s'.p.Credentials = s.p.Credentials ∨
        (s.p.Credentials = none ∧ s'.p.Credentials = some defaultIppCredentials ∧
          ∃ err, ev.call = CallResult.failed err ∧
            isHTTPStatus err StatusUnauthorized = true)) ∧
    (∀ s' r, sendDocumentStep cfg jobID ev s = Step.done s' r →
      s'.p.Credentials = s.p.Credentials) := by
  have hc := (sendDocumentPrepare_facts cfg ev s).2.1
  unfold sendDocumentStep
  cases hctx : ev.ctxErr with
  | some err =>
    simp only
    refine ⟨fun s' h => (by cases h), fun s' r h => ?_⟩
    injection h with h1 _
    subst h1
    rfl
  | none =>
    simp only
    cases hre : (if s.sendDocAttempts > 0 then ev.resetErr else none) with
    | some err =>
      simp only
      refine ⟨fun s' h => (by cases h), fun s' r h => ?_⟩
      injection h with h1 _
      subst h1
      rfl
    | none =>
      simp only
      by_cases hex : (sendDocumentPrepare cfg ev s).sendDocAttempts >
          cfg.ippMaxPrintJobSendDocumentRetryAttempts
      · simp only [hex, if_true]
        refine ⟨fun s' h => (by cases h), fun s' r h => ?_⟩
        injection h with h1 _
        subst h1
        exact hc
      · simp only [hex, if_false]
        refine ⟨fun s' h => ?_, fun s' r h => ?_⟩
        · obtain ⟨-, -, h3⟩ := sendDocumentClassify_facts.1 s' h
          simp only [ippPrinter.act] at h3
          rw [hc] at h3
          exact h3
        · obtain ⟨-, -, h3⟩ := sendDocumentClassify_facts.2 s' r h
          simp only [ippPrinter.act] at h3
          rw [hc] at h3
          exact h3

theorem credentialsKept_step {p0 p p' : ippPrinter} (h : credentialsKept p0 p)
    (hstep : p'.Credentials = p.Credentials ∨
      (p.Credentials = none ∧ p'.Credentials = some defaultIppCredentials)) :
    credentialsKept p0 p' := by
  unfold credentialsKept at h ⊢
  rcases hstep with h1 | ⟨h1, h2⟩
  · rw [h1]; exact h
  · rcases h with h3 | ⟨h3, h4⟩
    · exact Or.inr ⟨by rw [← h3]; exact h1, h2⟩
    · exact Or.inr ⟨h3, h2⟩

/-- C15 (the code at the failing input): `createJob` and `sendDocument` install
the default pair only on an HTTP 401 met without credentials and never replace
credentials that were supplied; `PrintJob`, given the ticket credentials
`alice`, answers the first HTTP 401 by issuing its second Print-Job request with
the default pair, which it has put in place of the ticket's credentials. -/
theorem PrintJob_replaces_supplied_credentials (cfg : Config) (jobID : Int) :
    (∀ (events : List LoopEvent) (p : ippPrinter),
      credentialsKept p (createJob cfg events p).1.p ∧
      credentialsKept p (sendDocument cfg jobID events p).1.p) ∧
    (∀ (ev : LoopEvent) (s s' : CreateJobState), createJobStep cfg ev s = Step.next s' →
      s'.p.Credentials ≠ s.p.Credentials →
      s.p.Credentials = none ∧ s'.p.Credentials = some defaultIppCredentials ∧
        ∃ err, ev.call = CallResult.failed err ∧ isHTTPStatus err 401 = true) ∧
    (∀ (ev : LoopEvent) (s s' : SendDocumentState),
      sendDocumentStep cfg jobID ev s = Step.next s' →
      s'.p.Credentials ≠ s.p.Credentials →
      s.p.Credentials = none ∧ s'.p.Credentials = some defaultIppCredentials ∧
        ∃ err, ev.call = CallResult.failed err ∧ isHTTPStatus err 401 = true) ∧
    ticketCredentialsPrinter.Credentials = some { Username := "alice", Password := "secret" } ∧
    (PrintJob {} none [unauthorizedEvent, job42Event] ticketCredentialsPrinter).1.p.trace =
      [Action.printJob (some { Username := "alice", Password := "secret" }), Action.reset,
       Action.printJob (some { Username := "papercut-ipp-client", Password := "papercut" })] ∧
    (PrintJob {} none [unauthorizedEvent, job42Event] ticketCredentialsPrinter).1.p.Credentials =
      some { Username := "papercut-ipp-client", Password := "papercut" } ∧
    (createJob {} [unauthorizedEvent, job42Event] ticketCredentialsPrinter).1.p.trace =
      [Action.createJob (some { Username := "alice", Password := "secret" }), Action.sleep 5,
       Action.createJob (some { Username := "alice", Password := "secret" })] := by
  refine ⟨fun events p => ⟨?_, ?_⟩, fun ev s s' h hne => ?_, fun ev s s' h hne => ?_,
    by decide, by decide, by decide, by decide⟩
  · unfold createJob
    have := runLoop_invariant (createJobStep cfg) (fun s => credentialsKept p s.p)
      (fun ev s s' hs h => credentialsKept_step hs (by
        rcases createJobStep_credentials.1 s' h with h1 | ⟨h1, h2, -⟩
        · exact Or.inl h1
        · exact Or.inr ⟨h1, h2⟩))
      (fun ev s s' r hs h =>
        credentialsKept_step hs (Or.inl (createJobStep_credentials.2 s' r h)))
      events { p := p, createJobAttempts := 0, skipBackoff := false } (Or.inl rfl)
    exact this
  · unfold sendDocument
    have := runLoop_invariant (sendDocumentStep cfg jobID) (fun s => credentialsKept p s.p)
      (fun ev s s' hs h => credentialsKept_step hs (by
        rcases sendDocumentStep_credentials.1 s' h with h1 | ⟨h1, h2, -⟩
        · exact Or.inl h1
        · exact Or.inr ⟨h1, h2⟩))
      (fun ev s s' r hs h =>
        credentialsKept_step hs (Or.inl (sendDocumentStep_credentials.2 s' r h)))
      events { p := p, sendDocAttempts := 0, skipBackoff := false } (Or.inl rfl)
    exact this
  · rcases createJobStep_credentials.1 s' h with h1 | h1
    · exact absurd h1 hne
    · exact h1
  · rcases sendDocumentStep_credentials.1 s' h with h1 | h1
    · exact absurd h1 hne
    · exact h1

/-! ## Job template attributes -/

theorem applyPdlOverrides_media (j : PrintJobTemplateAttributes) (t : JobTicket) :
    (applyPdlOverrides j t).MediaCol = j.MediaCol ∧ (applyPdlOverrides j t).Media = j.Media := by
  unfold applyPdlOverrides
  split_ifs <;> exact ⟨rfl, rfl⟩

/-- C28 (the code at the failing input): `makeIPPJobAttributes` sets `MediaCol`
and leaves `Media` unset exactly when `MediaColSupported` is not nil, and sets
`Media` to the mapped size name otherwise; so for an empty, non-nil
`MediaColSupported` it sets `MediaCol` and leaves `Media` unset. -/
theorem makeIPPJobAttributes_media (tables : Tables) (t : JobTicket) (p : PrinterAttributes) :
    (p.MediaColSupported ≠ none →
      (makeIPPJobAttributes tables t p).MediaCol =
          some ((getIppMediaSizeFromName tables.ippMediaSizeMap tables.defaultIppMediaSize
                  t.PaperName).Width,
                (getIppMediaSizeFromName tables.ippMediaSizeMap tables.defaultIppMediaSize
                  t.PaperName).Height) ∧
        (makeIPPJobAttributes tables t p).Media = "") ∧
    (p.MediaColSupported = none →
      (makeIPPJobAttributes tables t p).MediaCol = none ∧
        (makeIPPJobAttributes tables t p).Media =
          (getIppMediaSizeFromName tables.ippMediaSizeMap tables.defaultIppMediaSize
            t.PaperName).Name) ∧
    emptyMediaColPrinter.MediaColSupported = some [] ∧
    (makeIPPJobAttributes sampleTables a4Ticket emptyMediaColPrinter).MediaCol =
      some (21000, 29700) ∧
    (makeIPPJobAttributes sampleTables a4Ticket emptyMediaColPrinter).Media = "" := by
  refine ⟨fun h => ?_, fun h => ?_, rfl, by decide, by decide⟩
  · unfold makeIPPJobAttributes
    simp only [applyPdlOverrides_media]
    simp [h]
  · unfold makeIPPJobAttributes
    simp only [applyPdlOverrides_media]
    simp [h]

/-! ## Device id check -/

theorem serialNumberOf_eq (re : Regexp) (s : String) :
    serialNumberOf re s =
      match re.FindStringSubmatch s with
      | some m => m[2]?
      | none => some "" := by
  unfold serialNumberOf Regexp.MatchString
  cases re.FindStringSubmatch s <;> simp

/-- C21: for a non-empty device id `d`, a pattern `r` and attributes with
device id `p`, `checkPrinterDeviceIdMatch` returns true exactly when `p = d`, or
`r` is non-empty and capture group 2 of the leftmost match of `r` in `d` and in
`p` exist, are equal and are not empty; with an empty device id or nil
attributes it returns true. -/
theorem checkPrinterDeviceIdMatch_iff (compile : String → Option Regexp) (d r : String)
    (attrs : PrinterAttributes) :
    (d ≠ "" →
      (checkPrinterDeviceIdMatch compile d r (some attrs) = some true ↔
        attrs.PrinterDeviceID = d ∨
          (r ≠ "" ∧ ∃ sn, captureGroup2 compile r d = some sn ∧
            captureGroup2 compile r attrs.PrinterDeviceID = some sn ∧ sn ≠ ""))) ∧
    checkPrinterDeviceIdMatch compile "" r (some attrs) = some true ∧
    checkPrinterDeviceIdMatch compile d r none = some true := by
  refine ⟨fun hd => ?_, ?_, rfl⟩
  · unfold checkPrinterDeviceIdMatch captureGroup2
    simp only [hd, ne_eq, not_false_eq_true, if_true]
    by_cases hp : attrs.PrinterDeviceID = d
    · simp [hp]
    · by_cases hr : r = ""
      · simp [hp, hr]
      · simp only [hp, hr, if_false, not_false_eq_true, if_true, false_or, true_and]
        cases hc : compile r with
        | none => simp
        | some re =>
          simp only [serialNumberOf_eq]
          cases hfd : re.FindStringSubmatch d with
          | none =>
            simp only
            cases hfp : re.FindStringSubmatch attrs.PrinterDeviceID with
            | none => simp
            | some mp =>
              simp only
              cases hmp : mp[2]? with
              | none => simp
              | some g => simp
          | some md =>
            simp only
            cases hmd : md[2]? with
            | none => simp
            | some sn =>
              simp only
              cases hfp : re.FindStringSubmatch attrs.PrinterDeviceID with
              | none =>
                simp only [Option.some.injEq, Bool.and_eq_true, decide_eq_true_eq]
                constructor
                · rintro ⟨h1, h2⟩
                  exact absurd h2 h1
                · rintro ⟨g, -, h, -⟩
                  cases h
              | some mp =>
                simp only
                cases hmp : mp[2]? with
                | none => simp
                | some g =>
                  simp only [Option.some.injEq, Bool.and_eq_true, decide_eq_true_eq]
                  constructor
                  · rintro ⟨h1, h2⟩
                    exact ⟨sn, rfl, h2.symm, h1⟩
                  · rintro ⟨g', h1, h2, h3⟩
                    subst h1
                    exact ⟨h3, h2.symm⟩
  · simp [checkPrinterDeviceIdMatch]

theorem checkPrinterDeviceIdMatch_iff_witness :
    checkPrinterDeviceIdMatch sampleCompile "SN:TR4-000491" "(SN|SER):(.*?)(;|$)"
        (some fujifilmPrinter) = some true ∧
    captureGroup2 sampleCompile "(SN|SER):(.*?)(;|$)" "SN:TR4-000491" = some "TR4-000491" ∧
    captureGroup2 sampleCompile "(SN|SER):(.*?)(;|$)" fujifilmDeviceId = some "TR4-000491" :=
  ⟨((checkPrinterDeviceIdMatch_iff sampleCompile "SN:TR4-000491" "(SN|SER):(.*?)(;|$)"
      fujifilmPrinter).1 (by decide)).2
    (Or.inr ⟨by decide, "TR4-000491", by decide, by decide, by decide⟩),
   by decide, by decide⟩

/-- C30 (the code at the failing input): with the pattern `SN:(.*)`, which
compiles and has one capture group, and two different device ids that it
matches, `checkPrinterDeviceIdMatch` fails at run time on the index 2; for a
pattern with at least two capture groups it always returns a boolean. -/
theorem checkPrinterDeviceIdMatch_index_out_of_range :
    sampleCompile "SN:(.*)" = some oneGroupRegexp ∧
    oneGroupRegexp.FindStringSubmatch "SN:TR4-000491" = some ["SN:TR4-000491", "TR4-000491"] ∧
    checkPrinterDeviceIdMatch sampleCompile "SN:TR4-000491" "SN:(.*)"
        (some { PrinterDeviceID := "SN:TR4-000492" }) = none ∧
    ∀ (compile : String → Option Regexp) (d r : String) (attrs : Option PrinterAttributes)
      (re : Regexp), compile r = some re → re.WellFormed → 2 ≤ re.NumSubexp →
      ∃ b, checkPrinterDeviceIdMatch compile d r attrs = some b := by
  refine ⟨by simp [sampleCompile], by decide, by decide, ?_⟩
  intro compile d r attrs re hc hwf h2
  have hsn : ∀ s, ∃ sn, serialNumberOf re s = some sn := by
    intro s
    rw [serialNumberOf_eq]
    cases hf : re.FindStringSubmatch s with
    | none => exact ⟨"", rfl⟩
    | some m =>
      have hlen := hwf s m hf
      have hlt : 2 < m.length := by omega
      exact ⟨m[2], by simp [List.getElem?_eq_getElem hlt]⟩
  unfold checkPrinterDeviceIdMatch
  cases attrs with
  | none => exact ⟨true, rfl⟩
  | some a =>
    simp only
    split_ifs with h1 h2' h3
    · exact ⟨true, rfl⟩
    · obtain ⟨sn, hsn1⟩ := hsn d
      obtain ⟨sn', hsn2⟩ := hsn a.PrinterDeviceID
      simp only [hc, hsn1, hsn2]
      exact ⟨_, rfl⟩
    · exact ⟨false, rfl⟩
    · exact ⟨true, rfl⟩

/-! ## Cache entries of different URIs -/

theorem SetPrinterAttributes_success {β : Type} {codec : JsonCodec β}
    {c : PrinterAttributeCache} {fs : FileSystem β} {tw : Int} {writeErr : Option String}
    {u : String} {a : PrinterAttributes}
    (hset : (SetPrinterAttributes codec (some c) fs tw writeErr u (some a)).1 = none) :
    c.cacheDir ≠ "" ∧ u ≠ "" ∧
    ∃ b, codec.marshal { PrinterUri := u, IppAttributes := a } = Except.ok b ∧
      (SetPrinterAttributes codec (some c) fs tw writeErr u (some a)).2 =
        fs.writeFile (cacheFilePath c.cacheDir u) b tw := by
  have hpath := cacheFilePath_ne_empty c.cacheDir u
  unfold SetPrinterAttributes at hset ⊢
  by_cases hdir : c.cacheDir = ""
  · simp [hdir] at hset
  · by_cases hu : u = ""
    · simp [hdir, hu] at hset
    · simp only [hdir, hu, if_false, hpath, writePrinterAttributesToFile] at hset ⊢
      cases hm : codec.marshal { PrinterUri := u, IppAttributes := a } with
      | error err => simp [hm] at hset
      | ok b =>
        cases hw : writeErr with
        | some err => simp [hm, hw] at hset
        | none => exact ⟨hdir, hu, b, rfl, rfl⟩

/-- C19 (the code for every encoder and decoder): after `SetPrinterAttributes(u, a)`
has succeeded at time `tw`, the file holds the bytes `b` that `json.Marshal`
produced for the element, and `GetPrinterAttributes(u)` at any time not after
`tw + cacheExpiry` returns what `json.Unmarshal` yields from `b`, unchecked and
unrepaired: the decoded attributes when the decoded URI is `u`, an error
otherwise. So it returns `a` and no error exactly when decoding `b` gives back
the URI `u` and the attributes `a`; the cache does nothing for attributes that
the JSON encoding does not give back. -/
theorem set_then_get_returns_decoded {β : Type} (codec : JsonCodec β)
    (c : PrinterAttributeCache) (fs : FileSystem β) (tw tg : Int) (writeErr : Option String)
    (u : String) (a : PrinterAttributes)
    (hset : (SetPrinterAttributes codec (some c) fs tw writeErr u (some a)).1 = none)
    (hfresh : ¬ tg > tw + c.cacheExpiry) :
    ∃ b, codec.marshal { PrinterUri := u, IppAttributes := a } = Except.ok b ∧
      (∀ e, codec.unmarshal b = Except.ok e → e.PrinterUri = u →
        GetPrinterAttributes codec (some c)
            (SetPrinterAttributes codec (some c) fs tw writeErr u (some a)).2 tg u =
          (some e.IppAttributes, none)) ∧
      (∀ e, codec.unmarshal b = Except.ok e → e.PrinterUri ≠ u →
        (GetPrinterAttributes codec (some c)
            (SetPrinterAttributes codec (some c) fs tw writeErr u (some a)).2 tg u).1 = none ∧
        (GetPrinterAttributes codec (some c)
            (SetPrinterAttributes codec (some c) fs tw writeErr u (some a)).2 tg u).2 ≠ none) ∧
      (∀ err, codec.unmarshal b = Except.error err →
        (GetPrinterAttributes codec (some c)
            (SetPrinterAttributes codec (some c) fs tw writeErr u (some a)).2 tg u).1 = none ∧
        (GetPrinterAttributes codec (some c)
            (SetPrinterAttributes codec (some c) fs tw writeErr u (some a)).2 tg u).2 ≠ none) ∧
      (GetPrinterAttributes codec (some c)
          (SetPrinterAttributes codec (some c) fs tw writeErr u (some a)).2 tg u =
            (some a, none) ↔
        ∃ e, codec.unmarshal b = Except.ok e ∧ e.PrinterUri = u ∧ e.IppAttributes = a) := by
  obtain ⟨hdir, hu, b, hm, hfs⟩ := SetPrinterAttributes_success hset
  refine ⟨b, hm, ?_⟩
  rw [hfs, GetPrinterAttributes_of_info codec c _ tg u tw hdir hu (by simp [FileSystem.writeFile])]
  simp only [hfresh, if_false, readPrinterAttributesFromFile, FileSystem.writeFile, if_true]
  cases hd : codec.unmarshal b with
  | error err =>
    refine ⟨fun e he => (by cases he), fun e he => (by cases he), fun err' _ => ?_, ?_⟩
    · simp
    · simp
  | ok e0 =>
    by_cases hne : e0.PrinterUri = u
    · refine ⟨fun e he hu' => ?_, fun e he hu' => ?_, fun err he => (by cases he), ?_⟩
      · cases he
        simp [hne]
      · cases he
        exact absurd hne hu'
      · simp only [hne, ne_eq, not_true_eq_false, if_false]
        constructor
        · intro h
          injection h with h1 _
          injection h1 with h1
          exact ⟨e0, rfl, hne, h1⟩
        · rintro ⟨e, he, -, ha⟩
          cases he
          rw [ha]
    · refine ⟨fun e he hu' => ?_, fun e he hu' => ?_, fun err he => (by cases he), ?_⟩
      · cases he
        exact absurd hu' hne
      · simp [hne]
      · simp only [ne_eq, hne, not_false_eq_true, if_true]
        constructor
        · intro h
          injection h with h1 _
          cases h1
        · rintro ⟨e, he, hu', -⟩
          cases he
          exact absurd hu' hne

theorem set_then_get_returns_decoded_witness :
    ∃ b, identityCodec.marshal
        { PrinterUri := "ipps://10.50.20.54:631/ipp/print", IppAttributes := readyPrinter } =
          Except.ok b ∧
      GetPrinterAttributes identityCodec (some twoSecondCache)
          (SetPrinterAttributes identityCodec (some twoSecondCache)
            (FileSystem.empty cacheElement) 0 none "ipps://10.50.20.54:631/ipp/print"
            (some readyPrinter)).2 (1 * Second) "ipps://10.50.20.54:631/ipp/print" =
        (some readyPrinter, none) := by
  obtain ⟨b, hb, h1, -, -, -⟩ := set_then_get_returns_decoded identityCodec twoSecondCache
    (FileSystem.empty cacheElement) 0 (1 * Second) none "ipps://10.50.20.54:631/ipp/print"
    readyPrinter rfl (by decide)
  refine ⟨b, hb, ?_⟩
  cases hb
  exact h1 _ rfl rfl

/-- C29: after `SetPrinterAttributes(u', a)` has succeeded, for every other URI
`u`: when both URIs share one cache file, `GetPrinterAttributes(u)` returns an
error and no attributes; when they do not, it returns what it returned before
the write. The URIs `ipp://a.b/x` and `ipp://a_b/x` share a file name. -/
theorem get_other_uri {β : Type} (codec : JsonCodec β) (c : PrinterAttributeCache)
    (fs : FileSystem β) (tw tg : Int) (writeErr : Option String) (u u' : String)
    (a : PrinterAttributes) (hne : u ≠ u')
    (hcodec : ∀ b, codec.marshal { PrinterUri := u', IppAttributes := a } = Except.ok b →
      codec.unmarshal b = Except.ok { PrinterUri := u', IppAttributes := a })
    (hset : (SetPrinterAttributes codec (some c) fs tw writeErr u' (some a)).1 = none) :
    (convertURItoFileName u = convertURItoFileName u' →
      (GetPrinterAttributes codec (some c)
          (SetPrinterAttributes codec (some c) fs tw writeErr u' (some a)).2 tg u).1 = none ∧
        (GetPrinterAttributes codec (some c)
          (SetPrinterAttributes codec (some c) fs tw writeErr u' (some a)).2 tg u).2 ≠ none) ∧
    (cacheFilePath c.cacheDir u ≠ cacheFilePath c.cacheDir u' →
      GetPrinterAttributes codec (some c)
          (SetPrinterAttributes codec (some c) fs tw writeErr u' (some a)).2 tg u =
        GetPrinterAttributes codec (some c) fs tg u) ∧
    convertURItoFileName "ipp://a.b/x" = convertURItoFileName "ipp://a_b/x" := by
  obtain ⟨hdir, hu', b, hm, hfs⟩ := SetPrinterAttributes_success hset
  rw [hfs]
  refine ⟨fun hname => ?_, fun hpath => ?_, by decide⟩
  · have hpath : cacheFilePath c.cacheDir u = cacheFilePath c.cacheDir u' := by
      unfold cacheFilePath
      rw [hname]
    by_cases hu : u = ""
    · subst hu
      simp [GetPrinterAttributes, hdir]
    · rw [GetPrinterAttributes_of_info codec c _ tg u tw hdir hu
        (by simp [FileSystem.writeFile, hpath])]
      by_cases hexp : tg > tw + c.cacheExpiry
      · simp [hexp]
      · have hne' : ¬ u' = u := fun e => hne e.symm
        simp [hexp, readPrinterAttributesFromFile, FileSystem.writeFile, hpath, hcodec b hm,
          hne']
  · unfold GetPrinterAttributes
    simp only [FileSystem.writeFile, hpath, if_false, readPrinterAttributesFromFile]

theorem get_other_uri_witness :
    (GetPrinterAttributes identityCodec (some twoSecondCache)
        (SetPrinterAttributes identityCodec (some twoSecondCache)
          (FileSystem.empty cacheElement) 0 none "ipp://a_b/x" (some readyPrinter)).2
        (1 * Second) "ipp://a.b/x").1 = none ∧
    (GetPrinterAttributes identityCodec (some twoSecondCache)
        (SetPrinterAttributes identityCodec (some twoSecondCache)
          (FileSystem.empty cacheElement) 0 none "ipp://a_b/x" (some readyPrinter)).2
        (1 * Second) "ipp://a.b/x").2 ≠ none :=
  (get_other_uri identityCodec twoSecondCache (FileSystem.empty cacheElement) 0 (1 * Second)
    none "ipp://a.b/x" "ipp://a_b/x" readyPrinter (by decide)
    (fun b hb => by cases hb; rfl) rfl).1 (by decide)

/-! ## Cancel-Job, backoff and status handling -/

/-- C26 (the code at the failing input): `PrintJob` retries after every non-OK
IPP status, recoverable or not: after six bad-request answers (0x0400) it has
issued five Print-Job requests and fails only because the attempts are used up,
while `createJob` and `sendDocument` stop at the first such answer. -/
theorem PrintJob_retries_unrecoverable_status (cfg : Config) :
    (∀ (resp : IppResponse) (s : PrintJobState), cfg.IsStatusOK resp.StatusCode = false →
      PrintJobClassify cfg (CallResult.responded resp) s = Step.next s) ∧
    ippStatusRecoverable 0x0400 = false ∧
    printJobRequests (PrintJob {} none sixBadRequests {}).1.p.trace = 5 ∧
    (PrintJob {} none sixBadRequests {}).2 =
      some (none, some { ErrType := 17,
                         Err := "ipp Print-Job failed, err: max operation retry attempts 5 exceeded" }) ∧
    createJobRequests (createJob {} sixBadRequests {}).1.p.trace = 1 ∧
    (createJob {} sixBadRequests {}).2 =
      some (some { StatusCode := 0x0400, StatusMessage := "client-error-bad-request" },
        some (errorf "create job request failed with status client-error-bad-request")) ∧
    sendDocumentRequests (sendDocument {} 42 sixBadRequests {}).1.p.trace = 1 := by
  refine ⟨fun resp s h => ?_, by decide, by decide, by decide, by decide, by decide, by decide⟩
  simp [PrintJobClassify, h]

theorem sleepCount_act (p : ippPrinter) (a : Action) :
    sleepCount (p.act a).trace = sleepCount p.trace + (if a.isSleep then 1 else 0) := by
  cases h : a.isSleep <;> simp [ippPrinter.act, sleepCount, List.countP_append, h]

theorem PrintJobStep_swapped {cfg : Config} {ev : LoopEvent} {s : PrintJobState}
    (hrd : s.retryWithDefaultCredentials = true) :
    (∀ s', PrintJobStep cfg ev s = Step.next s' →
      s'.retryWithDefaultCredentials = true ∧ sleepCount s'.p.trace = sleepCount s.p.trace) ∧
    (∀ s' r, PrintJobStep cfg ev s = Step.done s' r →
      sleepCount s'.p.trace = sleepCount s.p.trace) := by
  have hprep : (PrintJobPrepare cfg ev s).retryWithDefaultCredentials = true ∧
      sleepCount (PrintJobPrepare cfg ev s).p.trace = sleepCount s.p.trace := by
    unfold PrintJobPrepare
    refine ⟨hrd, ?_⟩
    simp only [hrd, Bool.not_true, Bool.and_false, Bool.false_eq_true, if_false, if_true]
    split_ifs <;> simp [sleepCount_act, Action.isSleep]
  have hpj : sleepCount ((PrintJobPrepare cfg ev s).p.printJob ev).1.trace =
      sleepCount s.p.trace := by
    rw [← hprep.2]
    unfold ippPrinter.printJob
    cases ev.ctxErr with
    | some err => rfl
    | none => simp [sleepCount_act, Action.isSleep]
  have hreset : sleepCount (s.p.act Action.reset).trace = sleepCount s.p.trace := by
    simp [sleepCount_act, Action.isSleep]
  unfold PrintJobStep
  cases hre : (if s.isRetry then ev.resetErr else none) with
  | some err =>
    simp only
    refine ⟨fun s' h => (by cases h), fun s' r h => ?_⟩
    injection h with h1 _
    subst h1
    exact hreset
  | none =>
    simp only
    by_cases hex : (PrintJobPrepare cfg ev s).printJobRetryAttempts >
        cfg.ippMaxPrintJobSendDocumentRetryAttempts
    · simp only [hex, if_true]
      refine ⟨fun s' h => (by cases h), fun s' r h => ?_⟩
      injection h with h1 _
      subst h1
      exact hprep.2
    · simp only [hex, if_false]
      refine ⟨fun s' h => ?_, fun s' r h => ?_⟩
      · have hcl := h
        unfold PrintJobClassify at hcl
        obtain ⟨-, h2⟩ := PrintJobClassify_facts.1 s' h
        simp only at h2
        refine ⟨?_, by rw [h2]; exact hpj⟩
        cases hcall : ((PrintJobPrepare cfg ev s).p.printJob ev).2 with
        | failed err =>
          simp only [hcall] at hcl
          split_ifs at hcl
          all_goals
            injection hcl with hcl
            subst hcl
            first
              | rfl
              | exact hprep.1
        | responded resp =>
          simp only [hcall] at hcl
          split_ifs at hcl
          injection hcl with hcl
          subst hcl
          exact hprep.1
      · obtain ⟨-, h2⟩ := PrintJobClassify_facts.2 s' r h
        simp only at h2
        rw [h2]
        exact hpj

theorem PrintJobClassify_flag {cfg : Config} {call : CallResult} {s s' : PrintJobState}
    (h : PrintJobClassify cfg call s = Step.next s') :
    s'.retryWithDefaultCredentials = s.retryWithDefaultCredentials ∨
      ∃ err, call = CallResult.failed err ∧ isHTTPStatus err 401 = true := by
  unfold PrintJobClassify at h
  cases call with
  | failed err =>
    by_cases h401 : isHTTPStatus err StatusUnauthorized = true
    · exact Or.inr ⟨err, rfl, h401⟩
    · simp only at h
      rw [if_neg h401] at h
      by_cases ht : ippJobOpError.Temporary cfg.os { error := err } = true
      · rw [if_pos ht] at h
        injection h with h
        subst h
        exact Or.inl rfl
      · rw [if_neg ht] at h
        cases h
  | responded resp =>
    simp only at h
    split_ifs at h
    injection h with h
    subst h
    exact Or.inl rfl

/-- The backoff of `PrintJob`: the first iteration does not sleep; a retry
iteration made before any swap to the default credentials sleeps
`retryBackoffSeconds + jitter` seconds before the request, between 5 and 10
seconds for a jitter in `[0, 5)`; the swap flag is set only by an HTTP 401 and
is never cleared, and once it is set no later iteration sleeps. -/
theorem PrintJob_backoff (cfg : Config) :
    (∀ (ev : LoopEvent) (s : PrintJobState), s.isRetry = false →
      (PrintJobPrepare cfg ev s).p.trace = s.p.trace) ∧
    (∀ (ev : LoopEvent) (s : PrintJobState), s.isRetry = true →
      s.retryWithDefaultCredentials = false →
      (PrintJobPrepare cfg ev s).p.trace =
          s.p.trace ++ [Action.reset, Action.sleep (cfg.retryBackoffSeconds + ev.jitter)] ∧
        (cfg.retryBackoffSeconds = 5 → 0 ≤ ev.jitter → ev.jitter < 5 →
          5 ≤ cfg.retryBackoffSeconds + ev.jitter ∧ cfg.retryBackoffSeconds + ev.jitter < 10)) ∧
    (∀ (ev : LoopEvent) (s s' : PrintJobState), PrintJobStep cfg ev s = Step.next s' →
      s.retryWithDefaultCredentials = false → s'.retryWithDefaultCredentials = true →
      ∃ err, ((PrintJobPrepare cfg ev s).p.printJob ev).2 = CallResult.failed err ∧
        isHTTPStatus err 401 = true) ∧
    (∀ (events : List LoopEvent) (s : PrintJobState), s.retryWithDefaultCredentials = true →
      sleepCount (runLoop (PrintJobStep cfg) events s).1.p.trace = sleepCount s.p.trace) := by
  refine ⟨fun ev s h => ?_, fun ev s h1 h2 => ⟨?_, fun hb h0 h5 => by omega⟩,
    fun ev s s' h h1 h2 => ?_, fun events s hrd => ?_⟩
  · unfold PrintJobPrepare
    simp only [h, Bool.false_eq_true, if_false, Bool.false_and]
    split_ifs <;> rfl
  · unfold PrintJobPrepare
    simp [h1, h2, ippPrinter.act]
  · unfold PrintJobStep at h
    cases hre : (if s.isRetry then ev.resetErr else none) with
    | some err => simp [hre] at h
    | none =>
      simp only [hre] at h
      by_cases hex : (PrintJobPrepare cfg ev s).printJobRetryAttempts >
          cfg.ippMaxPrintJobSendDocumentRetryAttempts
      · simp [hex] at h
      · simp only [hex, if_false] at h
        have hprd : (PrintJobPrepare cfg ev s).retryWithDefaultCredentials = false := h1
        rcases PrintJobClassify_flag h with hsame | hunauth
        · simp only at hsame
          rw [hsame, hprd] at h2
          cases h2
        · exact hunauth
  · exact runLoop_post (PrintJobStep cfg)
      (fun t => t.retryWithDefaultCredentials = true ∧
        sleepCount t.p.trace = sleepCount s.p.trace)
      (fun t => sleepCount t.p.trace = sleepCount s.p.trace)
      (fun t ht => ht.2)
      (fun ev t t' ht h => by
        obtain ⟨h1, h2⟩ := (PrintJobStep_swapped ht.1).1 t' h
        exact ⟨h1, h2.trans ht.2⟩)
      (fun ev t t' r ht h => ((PrintJobStep_swapped ht.1).2 t' r h).trans ht.2)
      events s ⟨hrd, rfl⟩

/-- C27 (the code at the failing input): `PrintJob` without credentials receives
an HTTP 401, which triggers the swap to the default credentials, then a
connection reset, then a valid answer. It issues the third Print-Job request
without any sleep, whereas `createJob` and `sendDocument` skip the backoff only
in the iteration right after the swap and sleep before their third request on
the same answers. In `PrintJob` the swap flag is never cleared: once it is set,
no later iteration sleeps, whatever the answers. -/
theorem PrintJob_no_sleep_after_swap :
    (PrintJob {} none [unauthorizedEvent, connectionResetEvent, job42Event] {}).1.p.trace =
      [Action.printJob none, Action.reset, Action.printJob (some defaultIppCredentials),
       Action.reset, Action.printJob (some defaultIppCredentials)] ∧
    sleepCount
      (PrintJob {} none [unauthorizedEvent, connectionResetEvent, job42Event] {}).1.p.trace = 0 ∧
    (createJob {} [unauthorizedEvent, connectionResetEvent, job42Event] {}).1.p.trace =
      [Action.createJob none, Action.createJob (some defaultIppCredentials), Action.sleep 5,
       Action.createJob (some defaultIppCredentials)] ∧
    (sendDocument {} 42 [unauthorizedEvent, connectionResetEvent, job42Event] {}).1.p.trace =
      [Action.sendDocument none, Action.reset,
       Action.sendDocument (some defaultIppCredentials),
       Action.cancelJob 42 (some defaultIppCredentials), Action.reset, Action.sleep 5,
       Action.sendDocument (some defaultIppCredentials)] ∧
    (∀ (cfg : Config) (events : List LoopEvent) (s : PrintJobState),
      s.retryWithDefaultCredentials = true →
      sleepCount (runLoop (PrintJobStep cfg) events s).1.p.trace = sleepCount s.p.trace) := by
  refine ⟨by decide, by decide, by decide, by decide, fun cfg events s h => ?_⟩
  exact (PrintJob_backoff cfg).2.2.2 events s h

/-- C25 (as stated, refuted): when the context is cancelled before the first
attempt, `sendDocument` returns the context error without any Cancel-Job
request, and the monitor still holds the job id 42. -/
theorem sendDocument_context_error_no_cancel :
    (sendDocument {} 42 [contextCancelledEvent] job42Printer).2 =
      some (none, some { message := "context canceled" }) ∧
    cancelJobRequests (sendDocument {} 42 [contextCancelledEvent] job42Printer).1.p.trace = 0 ∧
    (sendDocument {} 42 [contextCancelledEvent] job42Printer).1.p.monitor.jobID = 42 := by
  decide

/-- C25 (amended): whenever an iteration of `sendDocument` returns an error
after it has issued its Send-Document request, `cancelJob` has been invoked for
the job as the last effect of the call, so the monitor's job id is 0 on return;
a return because the context is done leaves the printer object as it was; and
the outcome of the Cancel-Job request never changes what `cancelJob` does. -/
theorem sendDocument_cancels_on_failed_request (cfg : Config) (jobID : Int) :
    (∀ (ev : LoopEvent) (s s' : SendDocumentState) (resp : Option IppResponse) (err : GoError),
      ev.ctxErr = none →
      (if s.sendDocAttempts > 0 then ev.resetErr else none) = none →
      ¬ s.sendDocAttempts + 1 > cfg.ippMaxPrintJobSendDocumentRetryAttempts →
      sendDocumentStep cfg jobID ev s = Step.done s' (resp, some err) →
      s'.p.monitor.jobID = 0 ∧ resp = none ∧
        s'.p.trace = (sendDocumentPrepare cfg ev s).p.trace ++
          [Action.sendDocument s.p.Credentials, Action.cancelJob jobID s.p.Credentials]) ∧
    (∀ (ev : LoopEvent) (s : SendDocumentState) (err : GoError), ev.ctxErr = some err →
      sendDocumentStep cfg jobID ev s = Step.done s (none, some err)) ∧
    (∀ (outcome : CallResult) (p : ippPrinter),
      p.cancelJobWith cfg outcome jobID = p.cancelJob jobID ∧
      (p.cancelJob jobID).monitor.jobID = 0) := by
  refine ⟨fun ev s s' resp err hctx hre hcap h => ?_, fun ev s err hctx => ?_,
    fun outcome p => ⟨?_, rfl⟩⟩
  · have hc := (sendDocumentPrepare_facts cfg ev s).2.1
    have ha := (sendDocumentPrepare_facts cfg ev s).1
    have hcap' : ¬ (sendDocumentPrepare cfg ev s).sendDocAttempts >
        cfg.ippMaxPrintJobSendDocumentRetryAttempts := by rw [ha]; exact hcap
    unfold sendDocumentStep at h
    simp only [hctx, hre, hcap', if_false] at h
    unfold sendDocumentClassify at h
    cases hcall : ev.call with
    | failed e =>
      simp only [hcall] at h
      split_ifs at h
      all_goals
        injection h with h1 h2
        injection h2 with h3 h4
        subst h1 h3
        refine ⟨rfl, rfl, ?_⟩
        simp [ippPrinter.cancelJob, ippPrinter.act, monitor.unsetJobID, hc]
    | responded r =>
      simp only [hcall] at h
      split_ifs at h
      · injection h with h1 h2
        injection h2 with h3 h4
        subst h1 h3
        refine ⟨rfl, rfl, ?_⟩
        simp [ippPrinter.cancelJob, ippPrinter.act, monitor.unsetJobID, hc]
      · injection h with h1 h2
        injection h2 with h3 h4
        cases h4
  · unfold sendDocumentStep
    simp only [hctx]
  · unfold ippPrinter.cancelJobWith ippPrinter.cancelJob
    cases outcome with
    | failed e => rfl
    | responded r => simp

/-! ## Document reader -/

theorem fileWrite_at_end (content data : List UInt8) :
    fileWrite content content.length data = content ++ data := by
  simp [fileWrite]

theorem DocReader.apply_consistent (input : List UInt8) (r : DocReader) (op : DocOp)
    (h : r.Consistent input) : (r.apply op).Consistent input := by
  obtain ⟨hs, hf⟩ := h
  cases hfile : r.file with
  | true =>
    obtain ⟨h1, h2, h3⟩ := hf hfile
    cases op with
    | read k =>
      simp only [DocReader.apply, DocReader.read, hfile, if_true]
      exact ⟨fun h => (by simp [hfile] at h), fun _ => ⟨h1, h2, h3⟩⟩
    | reset =>
      simp only [DocReader.apply, DocReader.Reset, hfile, if_true]
      exact ⟨fun h => (by simp [hfile] at h), fun _ => ⟨h1, h2, h3⟩⟩
  | false =>
    obtain ⟨h1, h2, h3, h4⟩ := hs hfile
    cases op with
    | read k =>
      simp only [DocReader.apply, DocReader.read, hfile, Bool.false_eq_true, if_false]
      refine ⟨fun _ => ⟨?_, ?_, fun h => (by cases h), h4⟩, fun h => (by simp [hfile] at h)⟩
      · simp only [h2, fileWrite_at_end, List.append_assoc, List.take_append_drop]
        exact h1
      · simp [h2, fileWrite_at_end]
    | reset =>
      simp only [DocReader.apply, DocReader.Reset, hfile, Bool.false_eq_true, if_false]
      cases hread : r.isRead with
      | false =>
        simp only [Bool.not_false, if_true]
        exact ⟨fun _ => ⟨h1, h2, h3, h4⟩, fun h => (by simp [hfile] at h)⟩
      | true =>
        simp only [Bool.not_true, Bool.false_eq_true, if_false]
        refine ⟨fun h => (by cases h), fun _ => ⟨?_, rfl, (by rw [h4])⟩⟩
        rw [h2, fileWrite_at_end]
        exact h1

theorem DocReader.run_consistent (input : List UInt8) (ops : List DocOp) :
    ∀ r : DocReader, r.Consistent input → (r.run ops).Consistent input := by
  induction ops with
  | nil => intro r h; exact h
  | cons op rest ih =>
    intro r h
    exact ih (r.apply op) (DocReader.apply_consistent input r op h)

theorem DocReader.fresh_consistent (input : List UInt8) :
    (DocReader.fresh input).Consistent input := by
  refine ⟨fun _ => ⟨rfl, rfl, fun _ => rfl, rfl⟩, fun h => (by cases h)⟩

theorem DocReader.read_contents (r : DocReader) (k : Nat) :
    (r.read k).2 = r.contents.take k ∧ (r.read k).1.contents = r.contents.drop k := by
  unfold DocReader.read DocReader.contents
  cases hf : r.file with
  | true =>
    simp only [if_true, true_and]
    rw [List.length_take, List.length_drop, List.drop_drop]
    by_cases hk : k ≤ r.tmpFile.length - r.offset
    · rw [Nat.min_eq_left hk]
    · rw [List.drop_eq_nil_of_le (by omega), List.drop_eq_nil_of_le (by omega)]
  | false =>
    simp only [Bool.false_eq_true, if_false, and_self]

theorem DocReader.readChunks_eq (ks : List Nat) :
    ∀ r : DocReader, (r.readChunks ks).2 = r.contents.take ks.sum := by
  induction ks with
  | nil => intro r; simp [DocReader.readChunks]
  | cons k ks ih =>
    intro r
    simp only [DocReader.readChunks, List.sum_cons]
    rw [ih, (DocReader.read_contents r k).1, (DocReader.read_contents r k).2, List.take_add]

theorem DocReader.run_reset_facts (input : List UInt8) (ops : List DocOp) :
    ((DocReader.fresh input).run (ops ++ [DocOp.reset])).contents = input ∧
    ((DocReader.fresh input).run ops).drains ≤ 1 ∧
    (((DocReader.fresh input).run ops).file = false →
      ((DocReader.fresh input).run ops).tmpFile ++
        ((DocReader.fresh input).run ops).upstream = input) ∧
    (((DocReader.fresh input).run ops).file = true →
      ((DocReader.fresh input).run ops).tmpFile = input ∧
        ((DocReader.fresh input).run ops).upstream = []) := by
  have hc := DocReader.run_consistent input ops _ (DocReader.fresh_consistent input)
  obtain ⟨hs, hf⟩ := hc
  refine ⟨?_, ?_, fun h => (hs h).1, fun h => ⟨(hf h).1, (hf h).2.1⟩⟩
  · have hrun : (DocReader.fresh input).run (ops ++ [DocOp.reset]) =
        ((DocReader.fresh input).run ops).Reset := by
      simp [DocReader.run, List.foldl_append, DocReader.apply]
    rw [hrun]
    generalize (DocReader.fresh input).run ops = r at hs hf
    unfold DocReader.Reset DocReader.contents
    cases hfile : r.file with
    | true =>
      simp only [if_true, List.drop_zero]
      exact (hf hfile).1
    | false =>
      obtain ⟨h1, h2, h3, -⟩ := hs hfile
      cases hread : r.isRead with
      | false =>
        simp only [Bool.false_eq_true, if_false, Bool.not_false, if_true, hfile]
        have := h3 hread
        rw [this] at h1
        simpa using h1
      | true =>
        simp only [Bool.false_eq_true, if_false, Bool.not_true, if_true, List.drop_zero]
        rw [h2, fileWrite_at_end]
        exact h1
  · cases hfile : ((DocReader.fresh input).run ops).file with
    | true => rw [(hf hfile).2.2]
    | false => rw [(hs hfile).2.2.2]; omega

/-- C24: for every input and every sequence of reads and resets on the reader
that tees into an empty temporary file, the reader returned by a `Reset()`
delivers the input from its first byte: successive `Read` calls of any sizes
`ks` return, in order, the first `ks.sum` bytes of the input, hence the whole
input once the sizes cover its length; each `Read` delivers the next bytes of
the reader and leaves the rest; the bytes taken from the upstream are exactly
those written to the temporary file, and the upstream is drained at most once. -/
theorem Reset_yields_whole_input (input : List UInt8) (ops : List DocOp) (ks : List Nat) :
    (((DocReader.fresh input).run (ops ++ [DocOp.reset])).readChunks ks).2 =
      input.take ks.sum ∧
    (input.length ≤ ks.sum →
      (((DocReader.fresh input).run (ops ++ [DocOp.reset])).readChunks ks).2 = input) ∧
    (∀ (r : DocReader) (k : Nat),
      (r.read k).2 = r.contents.take k ∧ (r.read k).1.contents = r.contents.drop k) ∧
    ((DocReader.fresh input).run (ops ++ [DocOp.reset])).contents = input ∧
    ((DocReader.fresh input).run ops).drains ≤ 1 ∧
    (((DocReader.fresh input).run ops).file = false →
      ((DocReader.fresh input).run ops).tmpFile ++
        ((DocReader.fresh input).run ops).upstream = input) ∧
    (((DocReader.fresh input).run ops).file = true →
      ((DocReader.fresh input).run ops).tmpFile = input ∧
        ((DocReader.fresh input).run ops).upstream = []) := by
  obtain ⟨h1, h2, h3, h4⟩ := DocReader.run_reset_facts input ops
  have hread : (((DocReader.fresh input).run (ops ++ [DocOp.reset])).readChunks ks).2 =
      input.take ks.sum := by
    rw [DocReader.readChunks_eq, h1]
  refine ⟨hread, fun hlen => ?_, DocReader.read_contents, h1, h2, h3, h4⟩
  rw [hread, List.take_of_length_le hlen]


/-! ## Waiting for the printer: malformed attributes -/

/-- C23 (as stated, refuted): a Get-Printer-Attributes call of
`waitForPrinterReady` fails with the malformed-attributes error while its
response carries the attributes of a ready printer; `waitForPrinterReady`
returns those attributes and a nil error after that single attempt. -/
theorem waitForPrinterReady_accepts_malformed :
    malformedButReadyEvent.select = SelectCase.default ∧
    (∃ e, malformedButReadyEvent.outcome.err = some e ∧ e.isMalformedAttributes = true) ∧
    waitForPrinterReady [malformedButReadyEvent] 0 =
      (WaitResult.returned (some readyPrinter) none, 1) := by
  refine ⟨rfl, ⟨_, rfl, rfl⟩, ?_⟩
  decide

/-- C23 (amended): when a Get-Printer-Attributes call made by
`waitForPrinterReady` fails with the malformed-attributes error, the call is
handled exactly as one that returned no error: the printer attributes of its
response are returned with a nil error when the printer is ready, and otherwise
the printer is polled again. -/
theorem waitForPrinterReady_malformed (ev : ReadyEvent) (rest : List ReadyEvent)
    (attempts : Nat) (e : GoError)
    (hsel : ev.select = SelectCase.default)
    (herr : ev.outcome.err = some e) (hmal : e.isMalformedAttributes = true) :
    waitForPrinterReady (ev :: rest) attempts =
        waitForPrinterReady
          ({ select := ev.select, outcome := { resp := ev.outcome.resp, err := none } } :: rest)
          attempts ∧
    ∀ r attrs, ev.outcome.resp = some r → r.PrinterAttributes = some attrs →
      waitForPrinterReady (ev :: rest) attempts =
        if (isPrinterReady attrs).1 = true then
          (WaitResult.returned (some attrs) none, attempts + 1)
        else waitForPrinterReady rest (attempts + 1) := by
  constructor
  · simp only [waitForPrinterReady, hsel, herr, hmal]
    simp
  · intro r attrs hr ha
    simp only [waitForPrinterReady, hsel, herr, hmal, hr, ha]
    by_cases hready : (isPrinterReady attrs).1 = true
    · simp [hready]
    · simp [hready]

theorem waitForPrinterReady_malformed_witness :
    waitForPrinterReady (malformedButReadyEvent :: []) 0 =
        waitForPrinterReady
          ({ select := malformedButReadyEvent.select,
             outcome := { resp := malformedButReadyEvent.outcome.resp, err := none } } :: [])
          0 ∧
    ∀ r attrs, malformedButReadyEvent.outcome.resp = some r →
      r.PrinterAttributes = some attrs →
      waitForPrinterReady (malformedButReadyEvent :: []) 0 =
        if (isPrinterReady attrs).1 = true then
          (WaitResult.returned (some attrs) none, 0 + 1)
        else waitForPrinterReady [] (0 + 1) :=
  waitForPrinterReady_malformed malformedButReadyEvent [] 0
    { message := "malformed attributes", isMalformedAttributes := true } rfl rfl rfl


/-! ## Checking the printer: the cache and the device id -/

theorem checkPrinterLoop_requests (cfg : Config) (outcomes : Nat → AttributesOutcome)
    (remaining : Nat) :
    ∀ (attempt : Nat) (resp : Option PrinterAttributesResponse) (err : Option GoError),
      attempt ≤
        (checkPrinterLoop cfg outcomes (remaining + 1) attempt resp err).requestCount := by
  induction remaining with
  | zero =>
    intro attempt resp err
    simp only [checkPrinterLoop]
    split
    · split
      · simp [CheckLoopResult.requestCount]
      · simp [CheckLoopResult.requestCount]
    · split
      · simp [CheckLoopResult.requestCount]
      · split <;> simp [CheckLoopResult.requestCount]
  | succ n ih =>
    intro attempt resp err
    rw [checkPrinterLoop]
    split
    · split
      · simp [CheckLoopResult.requestCount]
      · exact Nat.le_trans (Nat.le_succ attempt) (ih (attempt + 1) _ _)
    · split
      · simp [CheckLoopResult.requestCount]
      · split <;> simp [CheckLoopResult.requestCount]

theorem checkPrinterQuery_requests {β : Type} (cfg : Config)
    (compile : String → Option Regexp) (codec : JsonCodec β) (printerURI : String)
    (attribCache : Option PrinterAttributeCache) (fs : FileSystem β) (now : Int)
    (writeErr : Option String) (deviceId deviceSnRegex : String)
    (outcomes : Nat → AttributesOutcome) :
    (checkPrinterQuery cfg compile codec printerURI none attribCache fs now writeErr deviceId
        deviceSnRegex outcomes).requests =
      (checkPrinterLoop cfg outcomes cfg.ippGetAttributeRetries.toNat 1 none none).requestCount := by
  unfold checkPrinterQuery
  simp only []
  cases hloop : checkPrinterLoop cfg outcomes cfg.ippGetAttributeRetries.toNat 1 none none with
  | returned err requests => simp [CheckLoopResult.requestCount]
  | panicked requests => simp [CheckLoopResult.requestCount]
  | left resp err requests =>
    simp only [CheckLoopResult.requestCount]
    cases err with
    | some e => simp
    | none =>
      cases resp with
      | none => simp
      | some r =>
        simp only []
        split
        · rfl
        · rfl
        · cases attribCache with
          | none => rfl
          | some c =>
            simp only []
            split
            · rfl
            · split <;> rfl

theorem checkPrinter_of_cache_entry {β : Type} (cfg : Config)
    (compile : String → Option Regexp) (codec : JsonCodec β) (printerURI : String)
    (newClientErr : Option GoError) (c : PrinterAttributeCache) (fs : FileSystem β) (now : Int)
    (writeErr : Option String) (deviceId deviceSnRegex : String)
    (outcomes : Nat → AttributesOutcome) (a : Option PrinterAttributes)
    (huri : printerURI ≠ "")
    (hfresh : GetPrinterAttributes codec (some c) fs now printerURI = (a, none)) :
    checkPrinter cfg compile codec printerURI newClientErr (some c) fs now writeErr deviceId
        deviceSnRegex outcomes =
      match (if deviceId ≠ "" then checkPrinterDeviceIdMatch compile deviceId deviceSnRegex a
             else some false) with
      | none => { result := CheckPrinterResult.panicked, requests := 0, fs := fs }
      | some true => { result := CheckPrinterResult.returned none, requests := 0, fs := fs }
      | some false =>
        checkPrinterQuery cfg compile codec printerURI newClientErr (some c) fs now writeErr
          deviceId deviceSnRegex outcomes := by
  unfold checkPrinter
  simp only [huri, if_false, hfresh]


/-- C22 (as stated, refuted): the cache holds a fresh entry for the printer URI
and no device id is provided, yet `checkPrinter` does not return from the cache:
it sends five Get-Printer-Attributes requests to a printer that cannot be reached
and returns the network error. -/
theorem checkPrinter_no_device_id_queries_printer :
    GetPrinterAttributes identityCodec (some twoSecondCache) cachedFileSystem (1 * Second)
        "ipp://printer/ipp/print" = (some readyPrinter, none) ∧
    (checkPrinter {} sampleCompile identityCodec "ipp://printer/ipp/print" none
        (some twoSecondCache) cachedFileSystem (1 * Second) none "" ""
        unreachablePrinter).requests = 5 ∧
    (checkPrinter {} sampleCompile identityCodec "ipp://printer/ipp/print" none
        (some twoSecondCache) cachedFileSystem (1 * Second) none "" ""
        unreachablePrinter).result =
      CheckPrinterResult.returned
        (some { ErrType := ErrCheckPrinterNetwork,
                Err := "get-printer-attributes failed err: dial tcp: i/o timeout" }) := by
  have hfresh : GetPrinterAttributes identityCodec (some twoSecondCache) cachedFileSystem
      (1 * Second) "ipp://printer/ipp/print" = (some readyPrinter, none) :=
    set_then_get_aux identityCodec twoSecondCache (FileSystem.empty cacheElement) 0
      (1 * Second) none "ipp://printer/ipp/print" readyPrinter (by decide) (by decide)
      (fun b hb => by cases hb; rfl) rfl (by decide)
  refine ⟨hfresh, ?_, ?_⟩
  · rw [checkPrinter_of_cache_entry {} sampleCompile identityCodec "ipp://printer/ipp/print"
      none twoSecondCache cachedFileSystem (1 * Second) none "" "" unreachablePrinter
      (some readyPrinter) (by decide) hfresh]
    rfl
  · rw [checkPrinter_of_cache_entry {} sampleCompile identityCodec "ipp://printer/ipp/print"
      none twoSecondCache cachedFileSystem (1 * Second) none "" "" unreachablePrinter
      (some readyPrinter) (by decide) hfresh]
    rfl

/-- C22 (amended): for a non-empty printer URI with a fresh cache entry, if a
device id is provided and it matches the cached attributes, `checkPrinter`
returns nil without sending any Get-Printer-Attributes request; if no device id
is provided the cache entry is not used: `checkPrinter` goes on to query the
printer, sending at least one request once the IPP client is created, and its
outcome is that of the query. -/
theorem checkPrinter_cache_hit {β : Type} (cfg : Config)
    (compile : String → Option Regexp) (codec : JsonCodec β) (printerURI : String)
    (newClientErr : Option GoError) (c : PrinterAttributeCache) (fs : FileSystem β) (now : Int)
    (writeErr : Option String) (deviceId deviceSnRegex : String)
    (outcomes : Nat → AttributesOutcome) (a : PrinterAttributes)
    (huri : printerURI ≠ "")
    (hfresh : GetPrinterAttributes codec (some c) fs now printerURI = (some a, none)) :
    (deviceId ≠ "" →
      checkPrinterDeviceIdMatch compile deviceId deviceSnRegex (some a) = some true →
      (checkPrinter cfg compile codec printerURI newClientErr (some c) fs now writeErr deviceId
          deviceSnRegex outcomes).result = CheckPrinterResult.returned none ∧
      (checkPrinter cfg compile codec printerURI newClientErr (some c) fs now writeErr deviceId
          deviceSnRegex outcomes).requests = 0) ∧
    (deviceId = "" →
      checkPrinter cfg compile codec printerURI newClientErr (some c) fs now writeErr deviceId
          deviceSnRegex outcomes =
        checkPrinterQuery cfg compile codec printerURI newClientErr (some c) fs now writeErr
          deviceId deviceSnRegex outcomes ∧
      (newClientErr = none → 1 ≤ cfg.ippGetAttributeRetries →
        1 ≤ (checkPrinter cfg compile codec printerURI newClientErr (some c) fs now writeErr
              deviceId deviceSnRegex outcomes).requests)) := by
  have h := checkPrinter_of_cache_entry cfg compile codec printerURI newClientErr c fs now
    writeErr deviceId deviceSnRegex outcomes (some a) huri hfresh
  constructor
  · intro hid hmatch
    rw [h]
    simp [hid, hmatch]
  · intro hid
    have h2 : checkPrinter cfg compile codec printerURI newClientErr (some c) fs now writeErr
        deviceId deviceSnRegex outcomes =
        checkPrinterQuery cfg compile codec printerURI newClientErr (some c) fs now writeErr
          deviceId deviceSnRegex outcomes := by
      rw [h]
      simp [hid]
    refine ⟨h2, ?_⟩
    intro hclient hretries
    rw [h2, hclient, checkPrinterQuery_requests]
    obtain ⟨n, hn⟩ : ∃ n, cfg.ippGetAttributeRetries.toNat = n + 1 := by
      refine ⟨cfg.ippGetAttributeRetries.toNat - 1, ?_⟩
      omega
    rw [hn]
    exact checkPrinterLoop_requests cfg outcomes n 1 none none

theorem checkPrinter_cache_hit_witness :
    GetPrinterAttributes identityCodec (some twoSecondCache) fujifilmFileSystem (1 * Second)
        "ipp://printer/ipp/print" = (some fujifilmPrinter, none) ∧
    (checkPrinter {} sampleCompile identityCodec "ipp://printer/ipp/print" none
        (some twoSecondCache) fujifilmFileSystem (1 * Second) none fujifilmDeviceId ""
        unreachablePrinter).result = CheckPrinterResult.returned none ∧
    (checkPrinter {} sampleCompile identityCodec "ipp://printer/ipp/print" none
        (some twoSecondCache) fujifilmFileSystem (1 * Second) none fujifilmDeviceId ""
        unreachablePrinter).requests = 0 :=
  have hfresh : GetPrinterAttributes identityCodec (some twoSecondCache) fujifilmFileSystem
      (1 * Second) "ipp://printer/ipp/print" = (some fujifilmPrinter, none) :=
    set_then_get_aux identityCodec twoSecondCache (FileSystem.empty cacheElement) 0
      (1 * Second) none "ipp://printer/ipp/print" fujifilmPrinter (by decide) (by decide)
      (fun b hb => by cases hb; rfl) rfl (by decide)
  ⟨hfresh,
    (checkPrinter_cache_hit {} sampleCompile identityCodec "ipp://printer/ipp/print" none
      twoSecondCache fujifilmFileSystem (1 * Second) none fujifilmDeviceId ""
      unreachablePrinter fujifilmPrinter (by decide) hfresh).1 (by decide) (by decide)⟩

end IppPrintClient
